import Mathlib

/-!
Verification of the OpenRazer diagnostic scripts
(`scripts/test_system.py`, `scripts/debug_workflow.py`,
`examples/test_device_capabilities.py`) against their specification.

The three Python scripts are shallowly embedded as functions over explicit
environments.  Every externally observable action of a script - a `print`
call, a `subprocess.run` invocation, a `time.sleep`, a client-library
attribute read, an effect-method invocation, a brightness write - is
recorded as an `Event` in a trace.  A script run is a value of `Tr α`:
an `Except String α` result (`.error` models a Python exception
propagating out of the modelled region) paired with the trace of events
emitted so far.  Environments supply the outcomes of all external calls
(shell commands, DBus attribute reads, effect invocations), so a theorem
quantified over the environment covers every possible run of a script.
-/

namespace Razer

/-- One externally observable action of a script.  `step` records a
`check_step` evaluation in `debug_workflow.py` (step name, whether the
condition held, and the `tip` argument passed at the call site); it is a
model instrument marking where `check_step` runs in the trace. -/
inductive Event where
  | print (s : String)
  | subp (cmd : String) (timeout : Option Nat)
  | sleepMs (ms : Nat)
  | attrRead (obj attr : String)
  | fxCall (obj fn : String)
  | brightnessWrite (obj : String) (v : Nat)
  | step (name : String) (passed : Bool) (tip : String)
  | extCall (fn : String)
  deriving DecidableEq

abbrev Trace := List Event

/-- A modelled script computation: its result (`.error` = an uncaught
Python exception carrying the exception text) and the events it emitted.
Unlike `ExceptT`, the trace survives an exception: prints made before a
raise stay observable, as in Python. -/
def Tr (α : Type) : Type := Except String α × Trace

/-- Sequencing: on success continue with the accumulated trace; on an
exception the rest of the computation is skipped (Python unwinding). -/
def trBind (m : Tr α) (f : α → Tr β) : Tr β :=
  match m with
  | (.ok a, ev) => ((f a).1, ev ++ (f a).2)
  | (.error e, ev) => (.error e, ev)

instance : Monad Tr where
  pure a := (.ok a, [])
  bind := trBind

/-- Emit one event. -/
def emit (e : Event) : Tr Unit := (.ok (), [e])

/-- A Python `print(s)` call (the argument, without the trailing newline). -/
def pr (s : String) : Tr Unit := emit (.print s)

/-- Evaluate a fallible external call whose outcome the environment fixed. -/
def liftE (r : Except String α) : Tr α := (r, [])

/-- Python `try: m except Exception as e: h e`.  Events emitted before the
exception are kept, then the handler's events follow. -/
def pytry (m : Tr α) (h : String → Tr α) : Tr α :=
  match m with
  | (.ok a, ev) => (.ok a, ev)
  | (.error e, ev) => ((h e).1, ev ++ (h e).2)

/-- A Python `for x in l:` loop body running `f` on each element;
an exception inside the body aborts the remaining iterations. -/
def forTr : List α → (α → Tr Unit) → Tr Unit
  | [], _ => pure ()
  | x :: xs, f => do f x; forTr xs f

/-- Whitespace, as stripped by Python `str.strip()`. -/
def isSpaceChar (c : Char) : Bool :=
  c = ' ' || c = '\t' || c = '\n' || c = '\r'

/-- Python `str.strip()` (structurally recursive so that concrete runs
compute). -/
def pyStrip (s : String) : String :=
  ⟨((s.data.dropWhile isSpaceChar).reverse.dropWhile isSpaceChar).reverse⟩

/-- The char list `n` starts the char list `h`. -/
def leadMatch : List Char → List Char → Bool
  | [], _ => true
  | _ :: _, [] => false
  | a :: as, b :: bs => a = b && leadMatch as bs

def occursInAux : List Char → List Char → Bool
  | n, [] => n.isEmpty
  | n, c :: cs => leadMatch n (c :: cs) || occursInAux n cs

/-- Python `needle in hay` on strings. -/
def substrOccurs (needle hay : String) : Bool :=
  occursInAux needle.data hay.data

/-- Splitting a char list on a separator (structurally recursive). -/
def splitCharAux (sep : Char) : List Char → List Char → List (List Char)
  | [], acc => [acc.reverse]
  | c :: cs, acc =>
    if c = sep then acc.reverse :: splitCharAux sep cs []
    else splitCharAux sep cs (c :: acc)

/-- Python `s.split('\n')`, as `stdout.strip().split('\n')` iterates. -/
def pySplitLines (s : String) : List String :=
  (splitCharAux '\n' s.data []).map fun l => ⟨l⟩

/-- The first whitespace-separated token of a string (empty when there is
none): a total helper for the `pipelineHeads` trace observation. -/
def firstTokenD (s : String) : String :=
  ⟨(s.data.dropWhile isSpaceChar).takeWhile fun c => !isSpaceChar c⟩

/-- Python `line.split()[0]` (`test_system.py` line 58): `split()` of an
empty or whitespace-only line yields `[]`, so the `[0]` indexing raises
`IndexError` - and that statement has no surrounding `try`, so the
exception propagates. -/
def firstWord (line : String) : Except String String :=
  match line.data.dropWhile isSpaceChar with
  | [] => .error "IndexError: list index out of range"
  | l => .ok ⟨l.takeWhile fun c => !isSpaceChar c⟩

/-- `"=" * 40` and friends. -/
def eq40 : String := "".pushn '=' 40
def eq50 : String := "".pushn '=' 50
def eq60 : String := "".pushn '=' 60

/-- What the operating system does with one shell command: it either runs
for `duration` seconds producing an exit code and output streams, or the
`subprocess.run` call itself raises. -/
inductive ShellBehavior where
  | runs (duration : Nat) (rc : Int) (stdout stderr : String)
  | raises (msg : String)

/-- Outcome of one `subprocess.run` invocation. -/
inductive RunOutcome where
  | done (rc : Int) (stdout stderr : String)
  | timedOut
  | excFail (msg : String)

/-- `subprocess.run(command, shell=True, capture_output=True, text=True,
timeout=tmo)`.  The attempt is recorded as a `subp` event carrying the
`timeout` argument; `TimeoutExpired` is raised exactly when a timeout was
passed and the command runs longer than it. -/
def subprocessRun (w : String → ShellBehavior) (cmd : String)
    (tmo : Option Nat) : Tr RunOutcome := do
  emit (.subp cmd tmo)
  match w cmd with
  | .raises m => pure (.excFail m)
  | .runs d rc out err =>
    match tmo with
    | some t => if t < d then pure .timedOut else pure (.done rc out err)
    | none => pure (.done rc out err)

/-- `run_command` of `scripts/test_system.py` (lines 21-27): one
`subprocess.run` call with **no** timeout argument, every exception
converted to `(False, "", str(e))`. -/
def tsRunCommand (w : String → ShellBehavior) (cmd : String) :
    Tr (Bool × String × String) := do
  let r ← subprocessRun w cmd none
  match r with
  | .done rc out err => pure (rc == 0, out, err)
  | .timedOut => pure (false, "", "Timeout")
  | .excFail m => pure (false, "", m)

/-- `run_command` of `scripts/debug_workflow.py` (lines 16-36): prints the
description and command, runs `subprocess.run` once with `timeout=10`,
prints captured output and the exit code, and converts `TimeoutExpired`
to `(False, "", "Timeout")` and any other exception to
`(False, "", str(e))`. -/
def dwRunCommand (w : String → ShellBehavior) (cmd desc : String) :
    Tr (Bool × String × String) := do
  pr ("\n" ++ desc ++ "...")
  pr ("$ " ++ cmd)
  let r ← subprocessRun w cmd (some 10)
  match r with
  | .done rc out err => do
    (if out != "" then do pr "STDOUT:"; pr out else pure ())
    (if err != "" then do pr "STDERR:"; pr err else pure ())
    pr ("Exit code: " ++ toString rc)
    pure (rc == 0, out, err)
  | .timedOut => do
    pr "Command timed out!"
    pure (false, "", "Timeout")
  | .excFail m => do
    pr ("Error running command: " ++ m)
    pure (false, "", m)

/-- `check_step` of `scripts/debug_workflow.py` (lines 39-52). -/
def dwCheckStep (name : String) (cond : Bool)
    (smsg fmsg tip : String) : Tr Bool := do
  pr ("\n" ++ eq50)
  pr ("STEP: " ++ name)
  pr eq50
  emit (.step name cond tip)
  if cond then do
    pr ("✓ " ++ smsg)
    pure true
  else do
    pr ("✗ " ++ fmsg)
    (if tip != "" then pr ("TIP: " ++ tip) else pure ())
    pure false

/-! ## `scripts/test_system.py` -/

/-- A device object as consumed by `test_system.py`: each attribute read
may raise (DBus), `hasFx`/`hasMatrix` model the two `hasattr` probes of
line 138, and the brightness reads/writes of lines 141-153 are indexed by
occurrence so each DBus round trip can fail or answer independently. -/
structure TSDevice where
  name : Except String String
  serial : Except String String
  type : Except String String
  firmware_version : Except String String
  driver_version : Except String String
  hasFx : Bool
  hasMatrix : Bool
  readBrightness : Nat → Except String Nat
  writeBrightness : Nat → Nat → Except String Unit

/-- What `importlib.util.find_spec` does on one call: it returns a spec,
returns `None`, raises one of the exception types `check_import`'s
`except (ImportError, ModuleNotFoundError, ValueError)` catches, or
raises any other exception - which that narrow `except` does **not**
catch, and test 3 of `main` has no handler of its own. -/
inductive FindSpecOutcome where
  | found
  | notFound
  | caught (msg : String)
  | uncaught (msg : String)

/-- `check_import` of `test_system.py` (lines 13-19): `find_spec`'s value
becomes a Bool, its `ImportError`/`ModuleNotFoundError`/`ValueError`
raises become `False`, and any other raise propagates to the caller. -/
def check_import (r : FindSpecOutcome) : Tr Bool :=
  match r with
  | .found => pure true
  | .notFound => pure false
  | .caught _ => pure false
  | .uncaught m => liftE (.error m)

/-- Environment of one `test_system.py` run.  `importDM` is the outcome of
`from openrazer.client import DeviceManager` (tests 4 and 6); `dm1`/`dm2`
are the two separate `DeviceManager()` constructions resolving to their
device lists. -/
structure TSEnv where
  shell : String → ShellBehavior
  findSpec : FindSpecOutcome
  importDM : Except String Unit
  dm1 : Except String (List TSDevice)
  dm2 : Except String (List TSDevice)

/-- Read a device attribute: the access is recorded, then the
environment-supplied outcome (value or exception) is produced. -/
def rdAttr (obj attr : String) (r : Except String α) : Tr α := do
  emit (.attrRead obj attr)
  liftE r

/-- Read `....lighting_led_matrix.brightness` (the `i`-th read). -/
def rdBrightness (rd : Nat → Except String Nat) (i : Nat) : Tr Nat := do
  emit (.attrRead "lighting_led_matrix" "brightness")
  liftE (rd i)

/-- Write `....lighting_led_matrix.brightness = v` (the `i`-th write). -/
def wrBrightness (wr : Nat → Nat → Except String Unit) (i v : Nat) :
    Tr Unit := do
  emit (.brightnessWrite "lighting_led_matrix" v)
  liftE (wr i v)

/-- Test 1 of `test_system.py` (lines 36-48): `lsusb | grep 1532`.
Returns whether `tests_passed` was incremented. -/
def tsTest1 (env : TSEnv) : Tr Bool := do
  pr "\n1. Checking for Razer devices..."
  let t ← tsRunCommand env.shell "lsusb | grep 1532"
  let success := t.1
  let stdout := t.2.1
  if success && pyStrip stdout != "" then do
    pr "✓ Found Razer device(s):"
    forTr (pySplitLines (pyStrip stdout)) (fun line => pr ("  " ++ line))
    pure true
  else do
    pr "✗ No Razer devices found"
    pr "  This is OK if you're testing with fake devices"
    pure false

/-- Test 2 of `test_system.py` (lines 50-62): `lsmod | grep razer`. -/
def tsTest2 (env : TSEnv) : Tr Bool := do
  pr "\n2. Checking kernel modules..."
  let t ← tsRunCommand env.shell "lsmod | grep razer"
  let success := t.1
  let stdout := t.2.1
  if success && pyStrip stdout != "" then do
    pr "✓ OpenRazer kernel modules loaded:"
    forTr (pySplitLines (pyStrip stdout)) (fun line => do
      let moduleName ← liftE (firstWord line)
      pr ("  " ++ moduleName))
    pure true
  else do
    pr "✗ No OpenRazer kernel modules loaded"
    pure false

/-- Test 3 of `test_system.py` (lines 64-83): `check_import` via
`importlib.util.find_spec` (its own handler makes it a plain Bool).  The
`sys.path` manipulation of lines 68-75 has no observable event. -/
def tsTest3 (env : TSEnv) : Tr Bool := do
  pr "\n3. Checking Python library..."
  let ok ← check_import env.findSpec
  if ok then do
    pr "✓ OpenRazer Python library can be imported"
    pure true
  else do
    pr "✗ Cannot import OpenRazer Python library"
    pr "  Make sure openrazer is installed: pip3 install openrazer"
    pr "  Or run from repository root with PYTHONPATH=pylib"
    pure false

/-- Test 4 of `test_system.py` (lines 85-106): device detection, the whole
body inside `try ... except Exception`. -/
def tsTest4 (env : TSEnv) : Tr Bool := do
  pr "\n4. Testing device detection..."
  pytry
    (do
      liftE env.importDM
      let devs ← liftE env.dm1
      if devs.length > 0 then do
        pr ("✓ Found " ++ toString devs.length ++ " device(s):")
        forTr devs (fun d => do
          let nm ← rdAttr "device" "name" d.name
          let sr ← rdAttr "device" "serial" d.serial
          pr ("  - " ++ nm ++ " (Serial: " ++ sr ++ ")"))
        pure true
      else do
        pr "✗ No devices detected by OpenRazer"
        pr "  This could be due to:"
        pr "  - No physical devices connected"
        pr "  - Permission issues"
        pr "  - Driver not loaded"
        pure false)
    (fun e => do
      pr ("✗ Error testing device detection: " ++ e)
      pure false)

/-- Test 5 of `test_system.py` (lines 108-118): daemon status. -/
def tsTest5 (env : TSEnv) : Tr Bool := do
  pr "\n5. Checking daemon status..."
  let t ← tsRunCommand env.shell "systemctl is-active openrazer-daemon"
  let success := t.1
  let stdout := t.2.1
  if success && substrOccurs "active" stdout then do
    pr "✓ OpenRazer daemon is running"
    pure true
  else do
    pr "✗ OpenRazer daemon is not running"
    pr "  Try: systemctl start openrazer-daemon"
    pure false

/-- The inner brightness `try` of test 6 (lines 139-156): save the current
brightness, set it to 128, read it back, report `✓` exactly on read-back
128, then restore the saved value. -/
def tsLightingTest (d : TSDevice) : Tr Unit :=
  pytry
    (do
      let b0 ← rdBrightness d.readBrightness 0
      wrBrightness d.writeBrightness 0 128
      let c ← rdBrightness d.readBrightness 1
      (if c == 128 then pr "  - Brightness control: ✓"
       else pr "  - Brightness control: ✗")
      wrBrightness d.writeBrightness 1 b0)
    (fun e => pr ("  - Lighting test failed: " ++ e))

/-- Test 6 of `test_system.py` (lines 120-164): basic device
functionality, the whole body inside `try ... except Exception`.  The
`hasattr(device.fx, 'lighting_led_matrix')` probe evaluates `device.fx`,
recorded as an attribute read. -/
def tsTest6 (env : TSEnv) : Tr Bool := do
  pr "\n6. Testing basic device functionality..."
  pytry
    (do
      liftE env.importDM
      let devs ← liftE env.dm2
      (match devs with
      | d :: _ => do
        let nm ← rdAttr "device" "name" d.name
        pr ("  Testing with: " ++ nm)
        let ty ← rdAttr "device" "type" d.type
        pr ("  - Type: " ++ ty)
        let fw ← rdAttr "device" "firmware_version" d.firmware_version
        pr ("  - Firmware: " ++ fw)
        let dv ← rdAttr "device" "driver_version" d.driver_version
        pr ("  - Driver: " ++ dv)
        (if d.hasFx then do
          emit (.attrRead "device" "fx")
          if d.hasMatrix then tsLightingTest d else pure ()
        else pure ())
      | [] => pr "  Skipped - no devices available")
      -- tests_passed += 1 closes both branches (lines 158 and 161)
      pure true)
    (fun e => do
      pr ("✗ Error testing device functionality: " ++ e)
      pure false)

/-- `main` of `scripts/test_system.py` (lines 29-180).  Returns
`(tests_passed, total_tests, return value)`; `total_tests` is incremented
once per test (lines 38, 52, 66, 87, 110, 122), hence 6 at the summary,
and `tests_passed` collects the six per-test increments. -/
def tsMain (env : TSEnv) : Tr (Nat × Nat × Nat) := do
  pr "OpenRazer Basic System Test"
  pr "==========================="
  let b1 ← tsTest1 env
  let b2 ← tsTest2 env
  let b3 ← tsTest3 env
  let b4 ← tsTest4 env
  let b5 ← tsTest5 env
  let b6 ← tsTest6 env
  let passed := b1.toNat + b2.toNat + b3.toNat + b4.toNat + b5.toNat + b6.toNat
  let total := 6
  pr ("\n" ++ eq40)
  pr ("Test Results: " ++ toString passed ++ "/" ++ toString total ++ " passed")
  if passed == total then do
    pr "🎉 All tests passed! OpenRazer appears to be working correctly."
    pure (passed, total, 0)
  else if passed ≥ total - 1 then do
    pr "⚠️  Most tests passed. Minor issues detected."
    pure (passed, total, 0)
  else do
    pr "❌ Multiple tests failed. Please check the issues above."
    pr "\nFor troubleshooting help, see DEBUGGING_AND_TESTING.md"
    pr "or run: ./scripts/troubleshoot.sh"
    pure (passed, total, 1)

/-! ## `scripts/debug_workflow.py` -/

/-- Environment of one `debug_workflow.py` run.  `openWrite` is the
outcome of `open('/tmp/test_devices.py', 'w')` + `f.write(...)` (line
185, unguarded, so a failure propagates out of `main`); `removeRes` is
`os.remove` (line 202, wrapped in a bare `try/except: pass`). -/
structure DWEnv where
  shell : String → ShellBehavior
  openWrite : Except String Unit
  removeRes : Except String Unit

/-- Step 1 (lines 64-76): hardware detection via `lsusb | grep 1532`,
with the `INFO` print when the step fails. -/
def dwStepHardware (env : DWEnv) : Tr Bool := do
  let t ← dwRunCommand env.shell "lsusb | grep 1532" "Checking for Razer devices"
  let success := t.1
  let stdout := t.2.1
  let hasHw ← dwCheckStep "Hardware Detection"
    (success && pyStrip stdout != "")
    ("Found Razer device(s):\n" ++ stdout)
    "No Razer devices detected by USB subsystem"
    "Try a different USB port or check if device is powered on"
  if !hasHw then do
    pr "\nINFO: Continuing with software checks..."
    pure hasHw
  else pure hasHw

/-- Step 2 (lines 78-96): kernel modules via `lsmod | grep razer`, and on
failure the DKMS sub-check. -/
def dwStepModules (env : DWEnv) : Tr Bool := do
  let t ← dwRunCommand env.shell "lsmod | grep razer" "Checking kernel modules"
  let success := t.1
  let stdout := t.2.1
  let hasModules ← dwCheckStep "Kernel Module Loading"
    (success && pyStrip stdout != "")
    ("OpenRazer modules loaded:\n" ++ stdout)
    "No OpenRazer kernel modules loaded"
    "Try: sudo modprobe razerkbd razermouse razeraccessory"
  if !hasModules then do
    let t2 ← dwRunCommand env.shell "dkms status openrazer-driver" "Checking DKMS status"
    let s2 := t2.1
    let out2 := t2.2.1
    (if s2 && pyStrip out2 != "" then pr ("DKMS status:\n" ++ out2)
     else pr "DKMS module not found or not installed")
    pure hasModules
  else pure hasModules

/-- Step 3 (lines 98-109): installed module files via `find`. -/
def dwStepFiles (env : DWEnv) : Tr Bool := do
  let t ← dwRunCommand env.shell "find /lib/modules/$(uname -r) -name '*razer*'"
    "Checking module files"
  let success := t.1
  let stdout := t.2.1
  dwCheckStep "Module Files"
    (success && pyStrip stdout != "")
    ("Found module files:\n" ++ stdout)
    "No OpenRazer module files found"
    "Try reinstalling OpenRazer or check DKMS installation"

/-- Step 4 (lines 111-123): sysfs device files, run only when both
hardware and modules were found. -/
def dwStepDeviceFiles (env : DWEnv) (hasHw hasModules : Bool) :
    Tr (Option Bool) := do
  if hasHw && hasModules then do
    let t ← dwRunCommand env.shell
      "find /sys/bus/hid/drivers/razer* -name '*1532*' 2>/dev/null"
      "Checking device files"
    let success := t.1
    let stdout := t.2.1
    let b ← dwCheckStep "Device Files"
      (success && pyStrip stdout != "")
      ("Found device files:\n" ++ stdout)
      "No device files in sysfs"
      "Check if modules recognize your specific device model"
    pure (some b)
  else pure none

/-- Step 5 (lines 125-141): daemon status, and on failure the
`journalctl` log sub-check. -/
def dwStepDaemon (env : DWEnv) : Tr Bool := do
  let t ← dwRunCommand env.shell "systemctl is-active openrazer-daemon"
    "Checking daemon status"
  let success := t.1
  let stdout := t.2.1
  let daemonRunning ← dwCheckStep "Daemon Status"
    (success && substrOccurs "active" stdout)
    "OpenRazer daemon is running"
    "OpenRazer daemon is not running"
    "Try: systemctl start openrazer-daemon"
  if !daemonRunning then do
    let t2 ← dwRunCommand env.shell "journalctl -u openrazer-daemon --no-pager -n 10"
      "Checking daemon logs"
    let s2 := t2.1
    let out2 := t2.2.1
    (if s2 && pyStrip out2 != "" then pr ("Recent daemon logs:\n" ++ out2)
     else pure ())
    pure daemonRunning
  else pure daemonRunning

/-- Step 6 (lines 143-163): Python library import via a `python3 -c`
subprocess.  The `PYTHONPATH` dictionary built on lines 149-151 is never
passed to `run_command`, so it has no observable effect. -/
def dwStepPython (env : DWEnv) : Tr Bool := do
  let t ← dwRunCommand env.shell
    "python3 -c 'from openrazer.client import DeviceManager; print(\"Import successful\")'"
    "Testing Python library import"
  let success := t.1
  let stderr := t.2.2
  dwCheckStep "Python Library"
    success
    "OpenRazer Python library imported successfully"
    ("Failed to import OpenRazer Python library:\n" ++ stderr)
    "Try: pip3 install openrazer"

/-- Step 7 (lines 165-204): device detection, run only when the Python
library import succeeded.  Writes `/tmp/test_devices.py` (unguarded: a
write failure propagates), runs it, then removes it inside a bare
`try/except: pass`.  The file's contents are not themselves observable
behaviour of this script and are not modelled. -/
def dwStepDetect (env : DWEnv) (pythonWorks : Bool) : Tr (Option Bool) := do
  if pythonWorks then do
    liftE env.openWrite
    let t ← dwRunCommand env.shell "python3 /tmp/test_devices.py"
      "Testing device detection"
    let success := t.1
    let stdout := t.2.1
    let stderr := t.2.2
    let b ← dwCheckStep "Device Detection"
      (success && substrOccurs "Found" stdout)
      ("Device detection successful:\n" ++ stdout)
      ("Device detection failed:\n" ++ stderr)
      "Check hardware connection and permissions"
    pytry (liftE env.removeRes) (fun _ => pure ())
    pure (some b)
  else pure none

/-- Step 8 (lines 206-217): `groups | grep plugdev`. -/
def dwStepGroups (env : DWEnv) : Tr Bool := do
  let t ← dwRunCommand env.shell "groups | grep plugdev" "Checking user groups"
  let success := t.1
  dwCheckStep "User Permissions"
    success
    "User is in 'plugdev' group"
    "User is not in 'plugdev' group"
    "Try: sudo usermod -a -G plugdev $USER (then logout/login)"

/-- The `issues_found` list accumulated across `main` (appends on lines
75, 89, 109, 123, 136, 163, 198, 217), in program order.  The two
conditional steps contribute only when they actually ran and failed. -/
def dwIssues (hasHw hasModules hasFiles : Bool) (devFiles : Option Bool)
    (daemonRunning pythonWorks : Bool) (detect : Option Bool)
    (plugdev : Bool) : List String :=
  (if hasHw then [] else ["No hardware detected"]) ++
  (if hasModules then [] else ["Kernel modules not loaded"]) ++
  (if hasFiles then [] else ["Module files missing"]) ++
  (match devFiles with | some false => ["Device files not created"] | _ => []) ++
  (if daemonRunning then [] else ["Daemon not running"]) ++
  (if pythonWorks then [] else ["Python library import failed"]) ++
  (match detect with | some false => ["Device detection failed"] | _ => []) ++
  (if plugdev then [] else ["User not in plugdev group"])

/-- `for i, issue in enumerate(issues_found, 1): print(f"  {i}. {issue}")`. -/
def dwEnumIssues : Nat → List String → Tr Unit
  | _, [] => pure ()
  | i, issue :: rest => do
    pr ("  " ++ toString i ++ ". " ++ issue)
    dwEnumIssues (i + 1) rest

/-- The summary block of `debug_workflow.py` `main` (lines 219-259). -/
def dwSummary (issues : List String) : Tr Unit := do
  pr ("\n" ++ eq60)
  pr "DEBUG SUMMARY"
  pr eq60
  if issues.isEmpty then do
    pr "🎉 No issues detected! OpenRazer should be working correctly."
    pr "\nIf you're still experiencing problems:"
    pr "- Try running: python3 scripts/test_system.py"
    pr "- Check device-specific issues with scripts in scripts/driver/"
    pr "- Look for more help in DEBUGGING_AND_TESTING.md"
  else do
    pr ("❌ Found " ++ toString issues.length ++ " issue(s):")
    dwEnumIssues 1 issues
    pr "\nNEXT STEPS:"
    (if issues.contains "No hardware detected" then do
      pr "1. Verify your Razer device is connected and powered on"
      pr "2. Try a different USB port"
      pr "3. Check if device is supported (see README.md)"
    else pure ())
    (if issues.contains "Kernel modules not loaded" ||
        issues.contains "Module files missing" then do
      pr "1. Reinstall OpenRazer kernel modules"
      pr "2. Check for secure boot issues"
      pr "3. Verify kernel headers are installed"
    else pure ())
    (if issues.contains "Daemon not running" then do
      pr "1. Start daemon: systemctl start openrazer-daemon"
      pr "2. Enable on boot: systemctl enable openrazer-daemon"
      pr "3. Check daemon logs: journalctl -u openrazer-daemon"
    else pure ())
    (if issues.contains "Python library import failed" then do
      pr "1. Install Python library: pip3 install openrazer"
      pr "2. Check dependencies are installed"
    else pure ())
    (if issues.contains "User not in plugdev group" then do
      pr "1. Add user to group: sudo usermod -a -G plugdev $USER"
      pr "2. Logout and login again"
    else pure ())
    pr "\nFor detailed troubleshooting, see DEBUGGING_AND_TESTING.md"

/-- `main` of `scripts/debug_workflow.py` (lines 55-261): the eight
debugging steps in order, then the summary; returns
`len(issues_found)`. -/
def dwMain (env : DWEnv) : Tr Nat := do
  pr "OpenRazer Debug Workflow"
  pr eq60
  pr "This script walks through a systematic debugging process"
  pr "for OpenRazer. Follow along to identify issues with your setup."
  pr eq60
  let hasHw ← dwStepHardware env
  let hasModules ← dwStepModules env
  let hasFiles ← dwStepFiles env
  let devFiles ← dwStepDeviceFiles env hasHw hasModules
  let daemonRunning ← dwStepDaemon env
  let pythonWorks ← dwStepPython env
  let detect ← dwStepDetect env pythonWorks
  let plugdev ← dwStepGroups env
  let issues := dwIssues hasHw hasModules hasFiles devFiles daemonRunning
    pythonWorks detect plugdev
  dwSummary issues
  pure issues.length

/-- A Python exception escaping `main`: `KeyboardInterrupt` or any other
`Exception` (carrying its text). -/
inductive PyInterrupt where
  | keyboard
  | other (msg : String)

/-- The `if __name__ == "__main__"` block of `debug_workflow.py` (lines
264-273): `sys.exit(main())` on normal return, exit code 1 on
`KeyboardInterrupt` or any other exception. -/
def dwTopLevel : Except PyInterrupt Nat → Nat
  | .ok n => n
  | .error .keyboard => 1
  | .error (.other _) => 1

/-- The process exit code of a `debug_workflow.py` run in which no
asynchronous `KeyboardInterrupt` arrives: `main`'s return value, or 1 if
an exception escaped `main`. -/
def dwProcessExit (env : DWEnv) : Nat :=
  match (dwMain env).1 with
  | .ok n => dwTopLevel (.ok n)
  | .error m => dwTopLevel (.error (.other m))

/-! ## `examples/test_device_capabilities.py` -/

/-- The `fx.lighting_led_matrix` object: indexed brightness reads/writes
(as in `TSDevice`), the three `static(r,g,b)` calls of lines 71-79
indexed by occurrence, and the optional extra effects of lines 86-100. -/
structure MatrixDev where
  readBrightness : Nat → Except String Nat
  writeBrightness : Nat → Nat → Except String Unit
  staticRes : Nat → Except String Unit
  hasEffect : String → Bool
  effectRes : String → Except String Unit

/-- A device object as consumed by `test_device_capabilities.py`: paired
`has_*`/value fields model the `hasattr` probe plus the attribute read
(which may raise); `printAttrsRes` is the library call `print_attrs`
(line 224, unguarded). -/
structure CapDevice where
  name : Except String String
  type : Except String String
  serial : Except String String
  firmware_version : Except String String
  driver_version : Except String String
  has_device_mode : Bool
  device_mode : Except String String
  has_poll_rate : Bool
  poll_rate : Except String String
  hasFx : Bool
  hasMatrix : Bool
  matrix : MatrixDev
  hasLogo : Bool
  logoStatic : Except String Unit
  hasScroll : Bool
  scrollStatic : Except String Unit
  has_dpi : Bool
  dpi : Except String String
  has_available_dpi : Bool
  available_dpi : Except String String
  has_battery_level : Bool
  battery_level : Except String String
  has_is_charging : Bool
  is_charging : Except String String
  has_idle_time : Bool
  idle_time : Except String String
  has_game_mode_led : Bool
  game_mode_led : Except String String
  printAttrsRes : Except String Unit

/-- Environment of one `test_device_capabilities.py` run: the
`DeviceManager()` construction resolving to the device list (line 195,
the only call of `main` inside a `try`). -/
structure CapEnv where
  dmInit : Except String (List CapDevice)

/-- `test_device_info` (lines 15-31).  None of the five basic attribute
reads is wrapped in a handler, so a raise propagates to the caller; only
the `poll_rate` read of lines 28-31 has its own bare `except`. -/
def capDeviceInfo (d : CapDevice) : Tr Unit := do
  let nm ← rdAttr "device" "name" d.name
  pr ("\n=== " ++ nm ++ " ===")
  let ty ← rdAttr "device" "type" d.type
  pr ("Type: " ++ ty)
  let sr ← rdAttr "device" "serial" d.serial
  pr ("Serial: " ++ sr)
  let fw ← rdAttr "device" "firmware_version" d.firmware_version
  pr ("Firmware: " ++ fw)
  let dv ← rdAttr "device" "driver_version" d.driver_version
  pr ("Driver: " ++ dv)
  (if d.has_device_mode then do
    let m ← rdAttr "device" "device_mode" d.device_mode
    pr ("Device Mode: " ++ m)
  else pure ())
  (if d.has_poll_rate then
    pytry
      (do
        let p ← rdAttr "device" "poll_rate" d.poll_rate
        pr ("Poll Rate: " ++ p))
      (fun _ => pr "Poll Rate: Not readable")
  else pure ())

/-- The brightness `try` of `test_lighting_capabilities` (lines 52-67):
save, set to 128, sleep 0.1s, read back, restore. -/
def capBrightnessTest (m : MatrixDev) : Tr Unit :=
  pytry
    (do
      let b0 ← rdBrightness m.readBrightness 0
      pr ("  Current brightness: " ++ toString b0)
      wrBrightness m.writeBrightness 0 128
      emit (.sleepMs 100)
      let c ← rdBrightness m.readBrightness 1
      pr ("  Set brightness to 128, got: " ++ toString c)
      wrBrightness m.writeBrightness 1 b0
      pr "  ✓ Brightness control working")
    (fun e => pr ("  ✗ Brightness control failed: " ++ e))

/-- The static-colour `try` of `test_lighting_capabilities` (lines
69-83): red, green, blue, each followed by a 0.5s sleep. -/
def capStaticTest (m : MatrixDev) : Tr Unit :=
  pytry
    (do
      emit (.fxCall "lighting_led_matrix" "static")
      liftE (m.staticRes 0)
      pr "  ✓ Static red color set"
      emit (.sleepMs 500)
      emit (.fxCall "lighting_led_matrix" "static")
      liftE (m.staticRes 1)
      pr "  ✓ Static green color set"
      emit (.sleepMs 500)
      emit (.fxCall "lighting_led_matrix" "static")
      liftE (m.staticRes 2)
      pr "  ✓ Static blue color set"
      emit (.sleepMs 500))
    (fun e => pr ("  ✗ Static color failed: " ++ e))

/-- The `effects_to_test` list of lines 86-91. -/
def capEffectsList : List (String × String) :=
  [("breath_random", "Random breathing"),
   ("wave", "Wave effect"),
   ("reactive", "Reactive effect"),
   ("spectrum", "Spectrum cycling")]

/-- The effects loop of lines 93-100: probe, invoke, print, sleep 1s,
each invocation in its own `try`. -/
def capEffectsTest (m : MatrixDev) : Tr Unit :=
  forTr capEffectsList (fun p =>
    if m.hasEffect p.1 then
      pytry
        (do
          emit (.fxCall "lighting_led_matrix" p.1)
          liftE (m.effectRes p.1)
          pr ("  ✓ " ++ p.2 ++ " working")
          emit (.sleepMs 1000))
        (fun e => pr ("  ✗ " ++ p.2 ++ " failed: " ++ e))
    else pure ())

/-- `test_lighting_capabilities` (lines 34-124).  The header's
`device.name` read (line 36) is unguarded; `fx = device.fx` is an
attribute read.  Returns `has_lighting`. -/
def capLighting (d : CapDevice) : Tr Bool := do
  let nm ← rdAttr "device" "name" d.name
  pr ("\n--- Lighting Capabilities for " ++ nm ++ " ---")
  if !d.hasFx then do
    pr "No lighting effects available"
    pure false
  else do
    emit (.attrRead "device" "fx")
    let hasMatrix ← (if d.hasMatrix then do
      pr "✓ Matrix lighting available"
      emit (.attrRead "fx" "lighting_led_matrix")
      capBrightnessTest d.matrix
      capStaticTest d.matrix
      capEffectsTest d.matrix
      pure true
    else pure false)
    let hasLogo ← (if d.hasLogo then do
      pr "✓ Logo lighting available"
      pytry
        (do
          emit (.fxCall "lighting_logo" "static")
          liftE d.logoStatic
          pr "  ✓ Logo static color working")
        (fun e => pr ("  ✗ Logo lighting failed: " ++ e))
      pure true
    else pure false)
    let hasScroll ← (if d.hasScroll then do
      pr "✓ Scroll wheel lighting available"
      pytry
        (do
          emit (.fxCall "lighting_scroll" "static")
          liftE d.scrollStatic
          pr "  ✓ Scroll wheel static color working")
        (fun e => pr ("  ✗ Scroll wheel lighting failed: " ++ e))
      pure true
    else pure false)
    pure (hasMatrix || hasLogo || hasScroll)

/-- `test_other_capabilities` (lines 127-187).  Each capability block is
probed with `hasattr` and read inside its own `try`; returns
`capabilities_tested > 0`. -/
def capOther (d : CapDevice) : Tr Bool := do
  let nm ← rdAttr "device" "name" d.name
  pr ("\n--- Other Capabilities for " ++ nm ++ " ---")
  let c1 ← (if d.has_dpi then
    pytry
      (do
        let v ← rdAttr "device" "dpi" d.dpi
        pr ("  Current DPI: " ++ v)
        (if d.has_available_dpi then do
          let a ← rdAttr "device" "available_dpi" d.available_dpi
          pr ("  Available DPI: " ++ a)
        else pure ())
        pure 1)
      (fun e => do pr ("  ✗ DPI test failed: " ++ e); pure 0)
  else pure 0)
  let c2 ← (if d.has_battery_level then
    pytry
      (do
        let v ← rdAttr "device" "battery_level" d.battery_level
        pr ("  Battery level: " ++ v ++ "%")
        pure 1)
      (fun e => do pr ("  ✗ Battery test failed: " ++ e); pure 0)
  else pure 0)
  let c3 ← (if d.has_is_charging then
    pytry
      (do
        let v ← rdAttr "device" "is_charging" d.is_charging
        pr ("  Charging: " ++ v)
        pure 1)
      (fun e => do pr ("  ✗ Charging status test failed: " ++ e); pure 0)
  else pure 0)
  let c4 ← (if d.has_idle_time then
    pytry
      (do
        let v ← rdAttr "device" "idle_time" d.idle_time
        pr ("  Idle time: " ++ v ++ " seconds")
        pure 1)
      (fun e => do pr ("  ✗ Idle time test failed: " ++ e); pure 0)
  else pure 0)
  let c5 ← (if d.has_game_mode_led then
    pytry
      (do
        let v ← rdAttr "device" "game_mode_led" d.game_mode_led
        pr ("  Game mode LED: " ++ v)
        pure 1)
      (fun e => do pr ("  ✗ Game mode test failed: " ++ e); pure 0)
  else pure 0)
  let tested := c1 + c2 + c3 + c4 + c5
  (if tested == 0 then pr "  No additional capabilities detected"
   else pure ())
  pure (tested != 0)

/-- The per-device loop of `main` (lines 215-228); the separator is
printed when the device is not the last one (`i < len(devices) - 1`). -/
def capLoop : List CapDevice → Tr Unit
  | [] => pure ()
  | d :: rest => do
    capDeviceInfo d
    let hasLighting ← capLighting d
    let hasOther ← capOther d
    (if !hasLighting && !hasOther then do
      let nm ← rdAttr "device" "name" d.name
      pr ("\n--- Detailed Capabilities for " ++ nm ++ " ---")
      pr "Use this for debugging:"
      emit (.extCall "print_attrs")
      liftE d.printAttrsRes
    else pure ())
    (if !rest.isEmpty then pr ("\n" ++ eq50) else pure ())
    capLoop rest

/-- `main` of `examples/test_device_capabilities.py` (lines 190-231).
Only the `DeviceManager()` construction is inside a `try`; the device
loop is unguarded, so an exception raised there escapes `main` (and the
script, whose `sys.exit(main())` has no handler): the run's result is
then `.error`. -/
def capMain (env : CapEnv) : Tr Nat := do
  pr "OpenRazer Device Capability Test"
  pr "================================="
  let r ← pytry
    (do
      let devs ← liftE env.dmInit
      pure (some devs))
    (fun e => do
      pr ("Error connecting to OpenRazer daemon: " ++ e)
      pr "Make sure the daemon is running: systemctl start openrazer-daemon"
      pure none)
  match r with
  | none => pure 1
  | some devs =>
    if devs.isEmpty then do
      pr "No OpenRazer devices found."
      pr "This could mean:"
      pr "- No physical devices are connected"
      pr "- Devices are not recognized by OpenRazer"
      pr "- Driver issues"
      pr "\nFor testing without hardware, try: ./scripts/quick_test_setup.sh"
      pure 1
    else do
      pr ("Found " ++ toString devs.length ++ " device(s)")
      capLoop devs
      pr ("\nTesting completed for " ++ toString devs.length ++ " device(s)")
      pure 0

/-! ## Trace observations -/

/-- The strings printed along a trace. -/
def printsOf (l : Trace) : List String :=
  l.filterMap fun e => match e with | .print s => some s | _ => none

/-- The `subprocess.run` invocations along a trace: command string and
the `timeout` argument each was given. -/
def subpsOf (l : Trace) : List (String × Option Nat) :=
  l.filterMap fun e => match e with | .subp c t => some (c, t) | _ => none

/-- The `time.sleep` durations (in milliseconds) along a trace. -/
def sleepsOf (l : Trace) : List Nat :=
  l.filterMap fun e => match e with | .sleepMs ms => some ms | _ => none

/-- The attribute reads along a trace (object, attribute). -/
def attrsOf (l : Trace) : List (String × String) :=
  l.filterMap fun e => match e with | .attrRead o a => some (o, a) | _ => none

/-- The effect-method invocations along a trace (object, method). -/
def fxOf (l : Trace) : List (String × String) :=
  l.filterMap fun e => match e with | .fxCall o f => some (o, f) | _ => none

/-- The `check_step` evaluations along a trace (name, condition). -/
def stepsOf (l : Trace) : List (String × Bool) :=
  l.filterMap fun e => match e with | .step n c _ => some (n, c) | _ => none

/-- The names of the `check_step` evaluations, in order. -/
def stepNames (l : Trace) : List String := (stepsOf l).map Prod.fst

/-- How many `check_step` evaluations failed along a trace. -/
def failedSteps (l : Trace) : Nat := (stepsOf l).countP (fun p => !p.2)

/-- The brightness values written along a trace, in order. -/
def writesOf (l : Trace) : List Nat :=
  l.filterMap fun e => match e with | .brightnessWrite _ v => some v | _ => none

/-- The stored brightness after a sequence of writes, starting from `b`:
each write overwrites the stored value. -/
def finalBrightness (b : Nat) (ws : List Nat) : Nat := ws.foldl (fun _ v => v) b

/-- The program of each stage of a shell pipeline: the first word of each
`|`-separated segment. -/
def pipelineHeads (cmd : String) : List String :=
  (splitCharAux '|' cmd.data []).map fun l => firstTokenD ⟨l⟩

/-- All programs invoked as pipeline stages by the subprocess calls of a
trace. -/
def headsOfTrace (l : Trace) : List String :=
  ((subpsOf l).map (fun p => pipelineHeads p.1)).flatten

/-- `true` when two given strings are printed by consecutive print events
somewhere in the trace (nothing at all printed between them). -/
def adjPrints (a b : String) : Trace → Bool
  | .print x :: .print y :: rest =>
    (x == a && y == b) || adjPrints a b (.print y :: rest)
  | _ :: rest => adjPrints a b rest
  | [] => false

/-- A lighting command issued to a device: a colour/effect method call or
a brightness write on a lighting object. -/
def isLightingCmd : Event → Bool
  | .fxCall _ _ => true
  | .brightnessWrite _ _ => true
  | _ => false

/-- `guardOk seen l` checks that every sleep in `l` happens after some
lighting command (either earlier in `l`, or before `l` when `seen`). -/
def guardOk : Bool → Trace → Bool
  | _, [] => true
  | seen, .sleepMs _ :: rest => seen && guardOk seen rest
  | seen, e :: rest => guardOk (seen || isLightingCmd e) rest

/-! ## Basic lemmas about the `Tr` monad -/

theorem tr_bind_def (m : Tr α) (f : α → Tr β) : m >>= f = trBind m f := rfl

theorem trBind_ok (a : α) (ev : Trace) (f : α → Tr β) :
    trBind ((Except.ok a, ev) : Tr α) f = ((f a).1, ev ++ (f a).2) := rfl

theorem trBind_error (e : String) (ev : Trace) (f : α → Tr β) :
    trBind ((Except.error e, ev) : Tr α) f = (Except.error e, ev) := rfl

theorem bind_fst_ok {m : Tr α} {a : α} (h : m.1 = .ok a) (f : α → Tr β) :
    (m >>= f).1 = (f a).1 := by
  rcases m with ⟨r, ev⟩
  cases r with
  | ok b => cases h; rfl
  | error e => cases h

theorem bind_snd_ok {m : Tr α} {a : α} (h : m.1 = .ok a) (f : α → Tr β) :
    (m >>= f).2 = m.2 ++ (f a).2 := by
  rcases m with ⟨r, ev⟩
  cases r with
  | ok b => cases h; rfl
  | error e => cases h

theorem bind_fst_error {m : Tr α} {e : String} (h : m.1 = .error e)
    (f : α → Tr β) : (m >>= f).1 = .error e := by
  rcases m with ⟨r, ev⟩
  cases r with
  | ok b => cases h
  | error e' => cases h; rfl

theorem bind_snd_error {m : Tr α} {e : String} (h : m.1 = .error e)
    (f : α → Tr β) : (m >>= f).2 = m.2 := by
  rcases m with ⟨r, ev⟩
  cases r with
  | ok b => cases h
  | error e' => cases h; rfl

theorem pure_tr (a : α) : (pure a : Tr α) = (.ok a, []) := rfl

theorem liftE_ok_bind (a : α) (f : α → Tr β) :
    liftE (Except.ok a) >>= f = f a := rfl

theorem liftE_error_bind (e : String) (f : α → Tr β) :
    (liftE (Except.error e) >>= f).1 = Except.error e := rfl

theorem pytry_fst_ok {m : Tr α} {a : α} (h : m.1 = .ok a)
    (hh : String → Tr α) : (pytry m hh).1 = .ok a := by
  rcases m with ⟨r, ev⟩
  cases r with
  | ok b => cases h; rfl
  | error e => cases h

theorem pytry_snd_ok {m : Tr α} {a : α} (h : m.1 = .ok a)
    (hh : String → Tr α) : (pytry m hh).2 = m.2 := by
  rcases m with ⟨r, ev⟩
  cases r with
  | ok b => cases h; rfl
  | error e => cases h

theorem pytry_fst_error {m : Tr α} {e : String} (h : m.1 = .error e)
    (hh : String → Tr α) : (pytry m hh).1 = (hh e).1 := by
  rcases m with ⟨r, ev⟩
  cases r with
  | ok b => cases h
  | error e' => cases h; rfl

theorem pytry_snd_error {m : Tr α} {e : String} (h : m.1 = .error e)
    (hh : String → Tr α) : (pytry m hh).2 = m.2 ++ (hh e).2 := by
  rcases m with ⟨r, ev⟩
  cases r with
  | ok b => cases h
  | error e' => cases h; rfl

/-! ## Event-predicate machinery: every event of a run satisfies `p` -/

/-- All events of a computation satisfy predicate `p`. -/
def EvsOk (p : Event → Bool) (m : Tr α) : Prop := ∀ e ∈ m.2, p e = true

theorem evsOk_bind {p : Event → Bool} {m : Tr α} {f : α → Tr β}
    (hm : EvsOk p m) (hf : ∀ a, EvsOk p (f a)) : EvsOk p (m >>= f) := by
  rcases m with ⟨r, ev⟩
  cases r with
  | ok a =>
    intro e he
    rw [tr_bind_def, trBind_ok] at he
    rcases List.mem_append.1 he with h | h
    · exact hm e h
    · exact hf a e h
  | error e' =>
    intro e he
    rw [tr_bind_def, trBind_error] at he
    exact hm e he

theorem evsOk_pure {p : Event → Bool} (a : α) : EvsOk p (pure a) := by
  intro e he
  simp [pure_tr] at he

theorem evsOk_emit {p : Event → Bool} {e : Event} (h : p e = true) :
    EvsOk p (emit e) := by
  intro e' he
  simp [emit] at he
  rwa [he]

theorem evsOk_liftE {p : Event → Bool} (r : Except String α) :
    EvsOk p (liftE r) := by
  intro e he
  simp [liftE] at he

theorem evsOk_pytry {p : Event → Bool} {m : Tr α} {hh : String → Tr α}
    (hm : EvsOk p m) (hhh : ∀ s, EvsOk p (hh s)) : EvsOk p (pytry m hh) := by
  rcases m with ⟨r, ev⟩
  cases r with
  | ok a => exact hm
  | error e' =>
    intro e he
    simp only [pytry] at he
    rcases List.mem_append.1 he with h | h
    · exact hm e h
    · exact hhh e' e h

theorem evsOk_forTr {p : Event → Bool} {l : List α} {f : α → Tr Unit}
    (h : ∀ x ∈ l, EvsOk p (f x)) : EvsOk p (forTr l f) := by
  induction l with
  | nil => exact evsOk_pure ()
  | cons x xs ih =>
    exact evsOk_bind (h x (List.mem_cons_self x xs))
      (fun _ => ih (fun y hy => h y (List.mem_cons_of_mem x hy)))

theorem evsOk_ite {p : Event → Bool} {c : Bool} {m₁ m₂ : Tr α}
    (h₁ : EvsOk p m₁) (h₂ : EvsOk p m₂) :
    EvsOk p (if c then m₁ else m₂) := by
  cases c <;> simpa

/-! ## Sleep-guard machinery -/

theorem guardOk_append (b : Bool) (l₁ l₂ : Trace) :
    guardOk b (l₁ ++ l₂) =
      (guardOk b l₁ && guardOk (b || l₁.any isLightingCmd) l₂) := by
  induction l₁ generalizing b with
  | nil => simp [guardOk]
  | cons e t ih =>
    cases e <;>
      simp only [List.cons_append, guardOk, ih, List.any_cons, isLightingCmd] <;>
      cases b <;> simp [ih, Bool.or_assoc, Bool.and_assoc]

theorem guardOk_mono {l : Trace} :
    ∀ {b₁ b₂ : Bool}, (b₁ = true → b₂ = true) → guardOk b₁ l = true →
      guardOk b₂ l = true := by
  induction l with
  | nil => intro b₁ b₂ _ _; rfl
  | cons e t ih =>
    intro b₁ b₂ hb h
    cases e with
    | sleepMs ms =>
      simp only [guardOk, Bool.and_eq_true] at h ⊢
      exact ⟨hb h.1, ih hb h.2⟩
    | print s =>
      simp only [guardOk, isLightingCmd, Bool.or_false] at h ⊢
      exact ih hb h
    | subp c t' =>
      simp only [guardOk, isLightingCmd, Bool.or_false] at h ⊢
      exact ih hb h
    | attrRead o a =>
      simp only [guardOk, isLightingCmd, Bool.or_false] at h ⊢
      exact ih hb h
    | fxCall o f =>
      simp only [guardOk, isLightingCmd, Bool.or_true] at h ⊢
      exact ih (fun _ => rfl) h
    | brightnessWrite o v =>
      simp only [guardOk, isLightingCmd, Bool.or_true] at h ⊢
      exact ih (fun _ => rfl) h
    | step n c tip =>
      simp only [guardOk, isLightingCmd, Bool.or_false] at h ⊢
      exact ih hb h
    | extCall f =>
      simp only [guardOk, isLightingCmd, Bool.or_false] at h ⊢
      exact ih hb h

/-- Every sleep of `m` is preceded by a lighting command, whatever came
before the computation. -/
def SleepSafe (m : Tr α) : Prop := ∀ b, guardOk b m.2 = true

theorem guardOk_of_no_sleep {l : Trace}
    (h : ∀ ms, Event.sleepMs ms ∉ l) (b : Bool) : guardOk b l = true := by
  induction l generalizing b with
  | nil => rfl
  | cons e t ih =>
    have ht : ∀ ms, Event.sleepMs ms ∉ t := by
      intro ms hm
      exact h ms (List.mem_cons_of_mem e hm)
    cases e with
    | sleepMs ms => exact absurd (List.mem_cons_self _ t) (h ms)
    | print s => exact ih ht _
    | subp c t' => exact ih ht _
    | attrRead o a => exact ih ht _
    | fxCall o f => exact ih ht _
    | brightnessWrite o v => exact ih ht _
    | step n c tip => exact ih ht _
    | extCall f => exact ih ht _

theorem sleepSafe_bind {m : Tr α} {f : α → Tr β}
    (hm : SleepSafe m) (hf : ∀ a, SleepSafe (f a)) : SleepSafe (m >>= f) := by
  rcases m with ⟨r, ev⟩
  cases r with
  | ok a =>
    intro b
    rw [tr_bind_def, trBind_ok, guardOk_append, Bool.and_eq_true]
    exact ⟨hm b, hf a _⟩
  | error e => intro b; rw [tr_bind_def, trBind_error]; exact hm b

theorem sleepSafe_pytry {m : Tr α} {hh : String → Tr α}
    (hm : SleepSafe m) (hhh : ∀ s, SleepSafe (hh s)) :
    SleepSafe (pytry m hh) := by
  rcases m with ⟨r, ev⟩
  cases r with
  | ok a => exact hm
  | error e =>
    intro b
    simp only [pytry, guardOk_append, Bool.and_eq_true]
    exact ⟨hm b, hhh e _⟩

theorem sleepSafe_forTr {l : List α} {f : α → Tr Unit}
    (h : ∀ x ∈ l, SleepSafe (f x)) : SleepSafe (forTr l f) := by
  induction l with
  | nil => intro b; rfl
  | cons x xs ih =>
    exact sleepSafe_bind (h x (List.mem_cons_self x xs))
      (fun _ => ih (fun y hy => h y (List.mem_cons_of_mem x hy)))

theorem sleepSafe_of_evsOk {p : Event → Bool} {m : Tr α}
    (hp : ∀ ms, p (.sleepMs ms) = false) (h : EvsOk p m) : SleepSafe m := by
  intro b
  refine guardOk_of_no_sleep (fun ms hm => ?_) b
  have := h _ hm
  rw [hp ms] at this
  cases this

theorem sleepSafe_ite {c : Bool} {m₁ m₂ : Tr α}
    (h₁ : SleepSafe m₁) (h₂ : SleepSafe m₂) :
    SleepSafe (if c then m₁ else m₂) := by
  cases c <;> simpa

theorem sleepsOf_nil_of_evsOk {p : Event → Bool} {m : Tr α}
    (hp : ∀ ms, p (.sleepMs ms) = false) (h : EvsOk p m) :
    sleepsOf m.2 = [] := by
  rw [sleepsOf, List.filterMap_eq_nil_iff]
  intro e he
  cases e <;> simp
  case sleepMs ms =>
    have := h _ he
    rw [hp ms] at this
    cases this

/-! ## Whitelists read off the source, and per-script event predicates -/

/-- The shell command strings occurring in `test_system.py`. -/
def tsCmds : List String :=
  ["lsusb | grep 1532", "lsmod | grep razer",
   "systemctl is-active openrazer-daemon"]

/-- The shell command strings occurring in `debug_workflow.py`. -/
def dwCmds : List String :=
  ["lsusb | grep 1532",
   "lsmod | grep razer",
   "dkms status openrazer-driver",
   "find /lib/modules/$(uname -r) -name '*razer*'",
   "find /sys/bus/hid/drivers/razer* -name '*1532*' 2>/dev/null",
   "systemctl is-active openrazer-daemon",
   "journalctl -u openrazer-daemon --no-pager -n 10",
   "python3 -c 'from openrazer.client import DeviceManager; print(\"Import successful\")'",
   "python3 /tmp/test_devices.py",
   "groups | grep plugdev"]

/-- The device attributes `test_system.py` reads. -/
def tsDeviceAttrs : List String :=
  ["name", "serial", "type", "firmware_version", "driver_version", "fx"]

/-- The device attributes `test_device_capabilities.py` reads. -/
def capDeviceAttrs : List String :=
  ["name", "type", "serial", "firmware_version", "driver_version",
   "device_mode", "poll_rate", "fx", "dpi", "available_dpi",
   "battery_level", "is_charging", "idle_time", "game_mode_led"]

/-- The effect methods `test_device_capabilities.py` invokes. -/
def fxMethods : List String :=
  ["static", "breath_random", "wave", "reactive", "spectrum"]

/-- The (step name, tip) pairs of the eight `check_step` call sites of
`debug_workflow.py`. -/
def dwStepTips : List (String × String) :=
  [("Hardware Detection",
    "Try a different USB port or check if device is powered on"),
   ("Kernel Module Loading",
    "Try: sudo modprobe razerkbd razermouse razeraccessory"),
   ("Module Files",
    "Try reinstalling OpenRazer or check DKMS installation"),
   ("Device Files",
    "Check if modules recognize your specific device model"),
   ("Daemon Status", "Try: systemctl start openrazer-daemon"),
   ("Python Library", "Try: pip3 install openrazer"),
   ("Device Detection", "Check hardware connection and permissions"),
   ("User Permissions",
    "Try: sudo usermod -a -G plugdev $USER (then logout/login)")]

/-- The `time.sleep` durations occurring in the scripts, in ms
(`0.1`, `0.5` and `1` seconds, lines 59, 73/77/81 and 98 of
`test_device_capabilities.py`). -/
def sleepDurations : List Nat := [100, 500, 1000]

/-- Every event a `test_system.py` run can emit: prints, the three fixed
shell commands with no timeout, reads of the six device attributes and
of matrix brightness, and matrix brightness writes.  No sleeps, no
effect calls. -/
def tsGoodEv : Event → Bool
  | .print _ => true
  | .subp c t => tsCmds.contains c && t == none
  | .sleepMs _ => false
  | .attrRead o a =>
    (o == "device" && tsDeviceAttrs.contains a) ||
    (o == "lighting_led_matrix" && a == "brightness")
  | .fxCall _ _ => false
  | .brightnessWrite o _ => o == "lighting_led_matrix"
  | .step _ _ _ => false
  | .extCall _ => false

/-- Every event a `debug_workflow.py` run can emit: prints, the ten fixed
shell commands each with `timeout=10`, and the eight `check_step`s with
their fixed tips.  No sleeps, no attribute reads, no effect calls. -/
def dwGoodEv : Event → Bool
  | .print _ => true
  | .subp c t => dwCmds.contains c && t == some 10
  | .sleepMs _ => false
  | .attrRead _ _ => false
  | .fxCall _ _ => false
  | .brightnessWrite _ _ => false
  | .step n _ tip => dwStepTips.contains (n, tip)
  | .extCall _ => false

/-- Every event a `test_device_capabilities.py` run can emit: prints,
sleeps of the three fixed durations, reads of the fourteen device
attributes (plus `fx.lighting_led_matrix` and its brightness), effect
calls from the five fixed methods on the three lighting objects,
brightness writes, and the `print_attrs` library call.  No shell
commands. -/
def capGoodEv : Event → Bool
  | .print _ => true
  | .subp _ _ => false
  | .sleepMs ms => sleepDurations.contains ms
  | .attrRead o a =>
    (o == "device" && capDeviceAttrs.contains a) ||
    (o == "fx" && a == "lighting_led_matrix") ||
    (o == "lighting_led_matrix" && a == "brightness")
  | .fxCall o f =>
    (o == "lighting_led_matrix" || o == "lighting_logo" ||
     o == "lighting_scroll") && fxMethods.contains f
  | .brightnessWrite o _ => o == "lighting_led_matrix"
  | .step _ _ _ => false
  | .extCall f => f == "print_attrs"

/-! ## Event-predicate facts for each helper and each script -/

theorem evsOk_pr {p : Event → Bool} {s : String} (h : p (.print s) = true) :
    EvsOk p (pr s) := evsOk_emit h

theorem evsOk_dite {p : Event → Bool} {c : Prop} [Decidable c] {m₁ m₂ : Tr α}
    (h₁ : EvsOk p m₁) (h₂ : EvsOk p m₂) : EvsOk p (if c then m₁ else m₂) := by
  by_cases hc : c
  · simpa [hc]
  · simpa [hc]

theorem evsOk_rdAttr {p : Event → Bool} {o a : String} (r : Except String α)
    (h : p (.attrRead o a) = true) : EvsOk p (rdAttr o a r) :=
  evsOk_bind (evsOk_emit h) fun _ => evsOk_liftE r

theorem evsOk_rdBrightness {p : Event → Bool} (rd : Nat → Except String Nat)
    (i : Nat) (h : p (.attrRead "lighting_led_matrix" "brightness") = true) :
    EvsOk p (rdBrightness rd i) :=
  evsOk_bind (evsOk_emit h) fun _ => evsOk_liftE _

theorem evsOk_wrBrightness {p : Event → Bool}
    (wr : Nat → Nat → Except String Unit) (i v : Nat)
    (h : p (.brightnessWrite "lighting_led_matrix" v) = true) :
    EvsOk p (wrBrightness wr i v) :=
  evsOk_bind (evsOk_emit h) fun _ => evsOk_liftE _

theorem evsOk_subprocessRun {p : Event → Bool} (w : String → ShellBehavior)
    (cmd : String) (tmo : Option Nat) (h : p (.subp cmd tmo) = true) :
    EvsOk p (subprocessRun w cmd tmo) := by
  unfold subprocessRun
  refine evsOk_bind (evsOk_emit h) fun _ => ?_
  cases w cmd with
  | raises m => exact evsOk_pure _
  | runs d rc out err =>
    cases tmo with
    | none => exact evsOk_pure _
    | some t => exact evsOk_dite (evsOk_pure _) (evsOk_pure _)

theorem evsOk_tsRunCommand {p : Event → Bool} (w : String → ShellBehavior)
    (cmd : String) (h : p (.subp cmd none) = true) :
    EvsOk p (tsRunCommand w cmd) := by
  unfold tsRunCommand
  refine evsOk_bind (evsOk_subprocessRun w cmd none h) fun r => ?_
  cases r <;> exact evsOk_pure _

theorem evsOk_dwRunCommand {p : Event → Bool} (w : String → ShellBehavior)
    (cmd desc : String) (hp : ∀ s, p (.print s) = true)
    (h : p (.subp cmd (some 10)) = true) :
    EvsOk p (dwRunCommand w cmd desc) := by
  unfold dwRunCommand
  refine evsOk_bind (evsOk_pr (hp _)) fun _ => ?_
  refine evsOk_bind (evsOk_pr (hp _)) fun _ => ?_
  refine evsOk_bind (evsOk_subprocessRun w cmd (some 10) h) fun r => ?_
  cases r with
  | done rc out err =>
    refine evsOk_bind (evsOk_dite ?_ (evsOk_pure _)) fun _ => ?_
    · exact evsOk_bind (evsOk_pr (hp _)) fun _ => evsOk_pr (hp _)
    refine evsOk_bind (evsOk_dite ?_ (evsOk_pure _)) fun _ => ?_
    · exact evsOk_bind (evsOk_pr (hp _)) fun _ => evsOk_pr (hp _)
    exact evsOk_bind (evsOk_pr (hp _)) fun _ => evsOk_pure _
  | timedOut => exact evsOk_bind (evsOk_pr (hp _)) fun _ => evsOk_pure _
  | excFail m => exact evsOk_bind (evsOk_pr (hp _)) fun _ => evsOk_pure _

theorem evsOk_dwCheckStep {p : Event → Bool} (name : String) (cond : Bool)
    (smsg fmsg tip : String) (hp : ∀ s, p (.print s) = true)
    (h : p (.step name cond tip) = true) :
    EvsOk p (dwCheckStep name cond smsg fmsg tip) := by
  unfold dwCheckStep
  refine evsOk_bind (evsOk_pr (hp _)) fun _ => ?_
  refine evsOk_bind (evsOk_pr (hp _)) fun _ => ?_
  refine evsOk_bind (evsOk_pr (hp _)) fun _ => ?_
  refine evsOk_bind (evsOk_emit h) fun _ => ?_
  refine evsOk_dite ?_ ?_
  · exact evsOk_bind (evsOk_pr (hp _)) fun _ => evsOk_pure _
  · refine evsOk_bind (evsOk_pr (hp _)) fun _ => ?_
    refine evsOk_bind (evsOk_dite (evsOk_pr (hp _)) (evsOk_pure _)) fun _ => ?_
    exact evsOk_pure _

theorem evsOk_tsTest1 (env : TSEnv) : EvsOk tsGoodEv (tsTest1 env) := by
  unfold tsTest1
  refine evsOk_bind (evsOk_pr rfl) fun _ => ?_
  refine evsOk_bind (evsOk_tsRunCommand _ _ (by decide)) fun t => ?_
  refine evsOk_dite ?_ ?_
  · refine evsOk_bind (evsOk_pr rfl) fun _ => ?_
    exact evsOk_bind (evsOk_forTr fun x _ => evsOk_pr rfl) fun _ => evsOk_pure _
  · refine evsOk_bind (evsOk_pr rfl) fun _ => ?_
    exact evsOk_bind (evsOk_pr rfl) fun _ => evsOk_pure _

theorem evsOk_tsTest2 (env : TSEnv) : EvsOk tsGoodEv (tsTest2 env) := by
  unfold tsTest2
  refine evsOk_bind (evsOk_pr rfl) fun _ => ?_
  refine evsOk_bind (evsOk_tsRunCommand _ _ (by decide)) fun t => ?_
  refine evsOk_dite ?_ ?_
  · refine evsOk_bind (evsOk_pr rfl) fun _ => ?_
    refine evsOk_bind (evsOk_forTr fun x _ => ?_) fun _ => evsOk_pure _
    exact evsOk_bind (evsOk_liftE _) fun m => evsOk_pr rfl
  · exact evsOk_bind (evsOk_pr rfl) fun _ => evsOk_pure _

theorem evsOk_check_import {p : Event → Bool} (r : FindSpecOutcome) :
    EvsOk p (check_import r) := by
  cases r with
  | found => exact evsOk_pure _
  | notFound => exact evsOk_pure _
  | caught m => exact evsOk_pure _
  | uncaught m => exact evsOk_liftE _

theorem evsOk_tsTest3 (env : TSEnv) : EvsOk tsGoodEv (tsTest3 env) := by
  unfold tsTest3
  refine evsOk_bind (evsOk_pr rfl) fun _ => ?_
  refine evsOk_bind (evsOk_check_import _) fun ok => ?_
  refine evsOk_dite ?_ ?_
  · exact evsOk_bind (evsOk_pr rfl) fun _ => evsOk_pure _
  · refine evsOk_bind (evsOk_pr rfl) fun _ => ?_
    refine evsOk_bind (evsOk_pr rfl) fun _ => ?_
    exact evsOk_bind (evsOk_pr rfl) fun _ => evsOk_pure _

theorem evsOk_tsTest4 (env : TSEnv) : EvsOk tsGoodEv (tsTest4 env) := by
  unfold tsTest4
  refine evsOk_bind (evsOk_pr rfl) fun _ => ?_
  refine evsOk_pytry ?_ fun s => ?_
  · refine evsOk_bind (evsOk_liftE _) fun _ => ?_
    refine evsOk_bind (evsOk_liftE _) fun devs => ?_
    refine evsOk_dite ?_ ?_
    · refine evsOk_bind (evsOk_pr rfl) fun _ => ?_
      refine evsOk_bind (evsOk_forTr fun d _ => ?_) fun _ => evsOk_pure _
      refine evsOk_bind (evsOk_rdAttr _ (by decide)) fun nm => ?_
      refine evsOk_bind (evsOk_rdAttr _ (by decide)) fun sr => ?_
      exact evsOk_pr rfl
    · refine evsOk_bind (evsOk_pr rfl) fun _ => ?_
      refine evsOk_bind (evsOk_pr rfl) fun _ => ?_
      refine evsOk_bind (evsOk_pr rfl) fun _ => ?_
      refine evsOk_bind (evsOk_pr rfl) fun _ => ?_
      exact evsOk_bind (evsOk_pr rfl) fun _ => evsOk_pure _
  · exact evsOk_bind (evsOk_pr rfl) fun _ => evsOk_pure _

theorem evsOk_tsTest5 (env : TSEnv) : EvsOk tsGoodEv (tsTest5 env) := by
  unfold tsTest5
  refine evsOk_bind (evsOk_pr rfl) fun _ => ?_
  refine evsOk_bind (evsOk_tsRunCommand _ _ (by decide)) fun t => ?_
  refine evsOk_dite ?_ ?_
  · exact evsOk_bind (evsOk_pr rfl) fun _ => evsOk_pure _
  · exact evsOk_bind (evsOk_pr rfl) fun _ =>
      evsOk_bind (evsOk_pr rfl) fun _ => evsOk_pure _

theorem evsOk_tsLightingTest (d : TSDevice) :
    EvsOk tsGoodEv (tsLightingTest d) := by
  unfold tsLightingTest
  refine evsOk_pytry ?_ fun s => evsOk_pr rfl
  refine evsOk_bind (evsOk_rdBrightness _ _ rfl) fun b0 => ?_
  refine evsOk_bind (evsOk_wrBrightness _ _ _ rfl) fun _ => ?_
  refine evsOk_bind (evsOk_rdBrightness _ _ rfl) fun c => ?_
  refine evsOk_bind ?_ fun _ => ?_
  · exact evsOk_dite (evsOk_pr rfl) (evsOk_pr rfl)
  · exact evsOk_wrBrightness _ _ _ (by rfl)

theorem evsOk_tsTest6 (env : TSEnv) : EvsOk tsGoodEv (tsTest6 env) := by
  unfold tsTest6
  refine evsOk_bind (evsOk_pr rfl) fun _ => ?_
  refine evsOk_pytry ?_ fun s => ?_
  · refine evsOk_bind (evsOk_liftE _) fun _ => ?_
    refine evsOk_bind (evsOk_liftE _) fun devs => ?_
    refine evsOk_bind ?_ fun _ => evsOk_pure _
    cases devs with
    | nil => exact evsOk_pr rfl
    | cons d rest =>
      refine evsOk_bind (evsOk_rdAttr _ (by decide)) fun nm => ?_
      refine evsOk_bind (evsOk_pr rfl) fun _ => ?_
      refine evsOk_bind (evsOk_rdAttr _ (by decide)) fun ty => ?_
      refine evsOk_bind (evsOk_pr rfl) fun _ => ?_
      refine evsOk_bind (evsOk_rdAttr _ (by decide)) fun fw => ?_
      refine evsOk_bind (evsOk_pr rfl) fun _ => ?_
      refine evsOk_bind (evsOk_rdAttr _ (by decide)) fun dv => ?_
      refine evsOk_bind (evsOk_pr rfl) fun _ => ?_
      refine evsOk_dite ?_ (evsOk_pure _)
      refine evsOk_bind (evsOk_emit (by decide)) fun _ => ?_
      exact evsOk_dite (evsOk_tsLightingTest d) (evsOk_pure _)
  · exact evsOk_bind (evsOk_pr rfl) fun _ => evsOk_pure _

/-- Every event of any `test_system.py` run is in the `tsGoodEv`
whitelist. -/
theorem evsOk_tsMain (env : TSEnv) : EvsOk tsGoodEv (tsMain env) := by
  unfold tsMain
  refine evsOk_bind (evsOk_pr rfl) fun _ => ?_
  refine evsOk_bind (evsOk_pr rfl) fun _ => ?_
  refine evsOk_bind (evsOk_tsTest1 env) fun b1 => ?_
  refine evsOk_bind (evsOk_tsTest2 env) fun b2 => ?_
  refine evsOk_bind (evsOk_tsTest3 env) fun b3 => ?_
  refine evsOk_bind (evsOk_tsTest4 env) fun b4 => ?_
  refine evsOk_bind (evsOk_tsTest5 env) fun b5 => ?_
  refine evsOk_bind (evsOk_tsTest6 env) fun b6 => ?_
  refine evsOk_bind (evsOk_pr rfl) fun _ => ?_
  refine evsOk_bind (evsOk_pr rfl) fun _ => ?_
  refine evsOk_dite ?_ (evsOk_dite ?_ ?_)
  · exact evsOk_bind (evsOk_pr rfl) fun _ => evsOk_pure _
  · exact evsOk_bind (evsOk_pr rfl) fun _ => evsOk_pure _
  · refine evsOk_bind (evsOk_pr rfl) fun _ => ?_
    refine evsOk_bind (evsOk_pr rfl) fun _ => ?_
    exact evsOk_bind (evsOk_pr rfl) fun _ => evsOk_pure _

theorem dwGoodEv_print (s : String) : dwGoodEv (.print s) = true := rfl

theorem evsOk_dwStepHardware (env : DWEnv) :
    EvsOk dwGoodEv (dwStepHardware env) := by
  unfold dwStepHardware
  refine evsOk_bind (evsOk_dwRunCommand _ _ _ dwGoodEv_print (by decide))
    fun t => ?_
  refine evsOk_bind (evsOk_dwCheckStep _ _ _ _ _ dwGoodEv_print (by rfl))
    fun hasHw => ?_
  refine evsOk_dite ?_ (evsOk_pure _)
  exact evsOk_bind (evsOk_pr rfl) fun _ => evsOk_pure _

theorem evsOk_dwStepModules (env : DWEnv) :
    EvsOk dwGoodEv (dwStepModules env) := by
  unfold dwStepModules
  refine evsOk_bind (evsOk_dwRunCommand _ _ _ dwGoodEv_print (by decide))
    fun t => ?_
  refine evsOk_bind (evsOk_dwCheckStep _ _ _ _ _ dwGoodEv_print (by rfl))
    fun hasModules => ?_
  refine evsOk_dite ?_ (evsOk_pure _)
  refine evsOk_bind (evsOk_dwRunCommand _ _ _ dwGoodEv_print (by decide))
    fun t2 => ?_
  refine evsOk_bind (evsOk_dite (evsOk_pr rfl) (evsOk_pr rfl)) fun _ => ?_
  exact evsOk_pure _

theorem evsOk_dwStepFiles (env : DWEnv) : EvsOk dwGoodEv (dwStepFiles env) := by
  unfold dwStepFiles
  refine evsOk_bind (evsOk_dwRunCommand _ _ _ dwGoodEv_print (by decide))
    fun t => ?_
  exact evsOk_dwCheckStep _ _ _ _ _ dwGoodEv_print (by rfl)

theorem evsOk_dwStepDeviceFiles (env : DWEnv) (hasHw hasModules : Bool) :
    EvsOk dwGoodEv (dwStepDeviceFiles env hasHw hasModules) := by
  unfold dwStepDeviceFiles
  refine evsOk_dite ?_ (evsOk_pure _)
  refine evsOk_bind (evsOk_dwRunCommand _ _ _ dwGoodEv_print (by decide))
    fun t => ?_
  refine evsOk_bind (evsOk_dwCheckStep _ _ _ _ _ dwGoodEv_print (by rfl))
    fun b => ?_
  exact evsOk_pure _

theorem evsOk_dwStepDaemon (env : DWEnv) :
    EvsOk dwGoodEv (dwStepDaemon env) := by
  unfold dwStepDaemon
  refine evsOk_bind (evsOk_dwRunCommand _ _ _ dwGoodEv_print (by decide))
    fun t => ?_
  refine evsOk_bind (evsOk_dwCheckStep _ _ _ _ _ dwGoodEv_print (by rfl))
    fun daemonRunning => ?_
  refine evsOk_dite ?_ (evsOk_pure _)
  refine evsOk_bind (evsOk_dwRunCommand _ _ _ dwGoodEv_print (by decide))
    fun t2 => ?_
  refine evsOk_bind (evsOk_dite (evsOk_pr rfl) (evsOk_pure _)) fun _ => ?_
  exact evsOk_pure _

theorem evsOk_dwStepPython (env : DWEnv) :
    EvsOk dwGoodEv (dwStepPython env) := by
  unfold dwStepPython
  refine evsOk_bind (evsOk_dwRunCommand _ _ _ dwGoodEv_print (by decide))
    fun t => ?_
  exact evsOk_dwCheckStep _ _ _ _ _ dwGoodEv_print (by rfl)

theorem evsOk_dwStepDetect (env : DWEnv) (pythonWorks : Bool) :
    EvsOk dwGoodEv (dwStepDetect env pythonWorks) := by
  unfold dwStepDetect
  refine evsOk_dite ?_ (evsOk_pure _)
  refine evsOk_bind (evsOk_liftE _) fun _ => ?_
  refine evsOk_bind (evsOk_dwRunCommand _ _ _ dwGoodEv_print (by decide))
    fun t => ?_
  refine evsOk_bind (evsOk_dwCheckStep _ _ _ _ _ dwGoodEv_print (by rfl))
    fun b => ?_
  refine evsOk_bind (evsOk_pytry (evsOk_liftE _) fun _ => evsOk_pure _)
    fun _ => ?_
  exact evsOk_pure _

theorem evsOk_dwStepGroups (env : DWEnv) :
    EvsOk dwGoodEv (dwStepGroups env) := by
  unfold dwStepGroups
  refine evsOk_bind (evsOk_dwRunCommand _ _ _ dwGoodEv_print (by decide))
    fun t => ?_
  exact evsOk_dwCheckStep _ _ _ _ _ dwGoodEv_print (by rfl)

theorem evsOk_dwEnumIssues {p : Event → Bool} (hp : ∀ s, p (.print s) = true)
    (i : Nat) (issues : List String) : EvsOk p (dwEnumIssues i issues) := by
  induction issues generalizing i with
  | nil => exact evsOk_pure ()
  | cons x xs ih =>
    exact evsOk_bind (evsOk_pr (hp _)) fun _ => ih (i + 1)

theorem evsOk_dwSummary {p : Event → Bool} (hp : ∀ s, p (.print s) = true)
    (issues : List String) : EvsOk p (dwSummary issues) := by
  unfold dwSummary
  refine evsOk_bind (evsOk_pr (hp _)) fun _ => ?_
  refine evsOk_bind (evsOk_pr (hp _)) fun _ => ?_
  refine evsOk_bind (evsOk_pr (hp _)) fun _ => ?_
  refine evsOk_dite ?_ ?_
  · refine evsOk_bind (evsOk_pr (hp _)) fun _ => ?_
    refine evsOk_bind (evsOk_pr (hp _)) fun _ => ?_
    refine evsOk_bind (evsOk_pr (hp _)) fun _ => ?_
    exact evsOk_bind (evsOk_pr (hp _)) fun _ => evsOk_pr (hp _)
  · refine evsOk_bind (evsOk_pr (hp _)) fun _ => ?_
    refine evsOk_bind (evsOk_dwEnumIssues hp 1 issues) fun _ => ?_
    refine evsOk_bind (evsOk_pr (hp _)) fun _ => ?_
    refine evsOk_bind (evsOk_dite ?_ (evsOk_pure _)) fun _ => ?_
    · refine evsOk_bind (evsOk_pr (hp _)) fun _ => ?_
      exact evsOk_bind (evsOk_pr (hp _)) fun _ => evsOk_pr (hp _)
    refine evsOk_bind (evsOk_dite ?_ (evsOk_pure _)) fun _ => ?_
    · refine evsOk_bind (evsOk_pr (hp _)) fun _ => ?_
      exact evsOk_bind (evsOk_pr (hp _)) fun _ => evsOk_pr (hp _)
    refine evsOk_bind (evsOk_dite ?_ (evsOk_pure _)) fun _ => ?_
    · refine evsOk_bind (evsOk_pr (hp _)) fun _ => ?_
      exact evsOk_bind (evsOk_pr (hp _)) fun _ => evsOk_pr (hp _)
    refine evsOk_bind (evsOk_dite ?_ (evsOk_pure _)) fun _ => ?_
    · exact evsOk_bind (evsOk_pr (hp _)) fun _ => evsOk_pr (hp _)
    refine evsOk_bind (evsOk_dite ?_ (evsOk_pure _)) fun _ => ?_
    · exact evsOk_bind (evsOk_pr (hp _)) fun _ => evsOk_pr (hp _)
    exact evsOk_pr (hp _)

/-- Every event of any `debug_workflow.py` run is in the `dwGoodEv`
whitelist. -/
theorem evsOk_dwMain (env : DWEnv) : EvsOk dwGoodEv (dwMain env) := by
  unfold dwMain
  refine evsOk_bind (evsOk_pr rfl) fun _ => ?_
  refine evsOk_bind (evsOk_pr rfl) fun _ => ?_
  refine evsOk_bind (evsOk_pr rfl) fun _ => ?_
  refine evsOk_bind (evsOk_pr rfl) fun _ => ?_
  refine evsOk_bind (evsOk_pr rfl) fun _ => ?_
  refine evsOk_bind (evsOk_dwStepHardware env) fun hasHw => ?_
  refine evsOk_bind (evsOk_dwStepModules env) fun hasModules => ?_
  refine evsOk_bind (evsOk_dwStepFiles env) fun hasFiles => ?_
  refine evsOk_bind (evsOk_dwStepDeviceFiles env hasHw hasModules)
    fun devFiles => ?_
  refine evsOk_bind (evsOk_dwStepDaemon env) fun daemonRunning => ?_
  refine evsOk_bind (evsOk_dwStepPython env) fun pythonWorks => ?_
  refine evsOk_bind (evsOk_dwStepDetect env pythonWorks) fun detect => ?_
  refine evsOk_bind (evsOk_dwStepGroups env) fun plugdev => ?_
  exact evsOk_bind (evsOk_dwSummary dwGoodEv_print _) fun _ => evsOk_pure _

theorem evsOk_capDeviceInfo (d : CapDevice) :
    EvsOk capGoodEv (capDeviceInfo d) := by
  unfold capDeviceInfo
  refine evsOk_bind (evsOk_rdAttr _ (by decide)) fun nm => ?_
  refine evsOk_bind (evsOk_pr rfl) fun _ => ?_
  refine evsOk_bind (evsOk_rdAttr _ (by decide)) fun ty => ?_
  refine evsOk_bind (evsOk_pr rfl) fun _ => ?_
  refine evsOk_bind (evsOk_rdAttr _ (by decide)) fun sr => ?_
  refine evsOk_bind (evsOk_pr rfl) fun _ => ?_
  refine evsOk_bind (evsOk_rdAttr _ (by decide)) fun fw => ?_
  refine evsOk_bind (evsOk_pr rfl) fun _ => ?_
  refine evsOk_bind (evsOk_rdAttr _ (by decide)) fun dv => ?_
  refine evsOk_bind (evsOk_pr rfl) fun _ => ?_
  refine evsOk_bind (evsOk_dite ?_ (evsOk_pure _)) fun _ => ?_
  · exact evsOk_bind (evsOk_rdAttr _ (by decide)) fun m => evsOk_pr rfl
  refine evsOk_dite ?_ (evsOk_pure _)
  refine evsOk_pytry ?_ fun _ => evsOk_pr rfl
  exact evsOk_bind (evsOk_rdAttr _ (by decide)) fun p => evsOk_pr rfl

theorem evsOk_capBrightnessTest (m : MatrixDev) :
    EvsOk capGoodEv (capBrightnessTest m) := by
  unfold capBrightnessTest
  refine evsOk_pytry ?_ fun s => evsOk_pr rfl
  refine evsOk_bind (evsOk_rdBrightness _ _ rfl) fun b0 => ?_
  refine evsOk_bind (evsOk_pr rfl) fun _ => ?_
  refine evsOk_bind (evsOk_wrBrightness _ _ _ (by rfl)) fun _ => ?_
  refine evsOk_bind (evsOk_emit (by decide)) fun _ => ?_
  refine evsOk_bind (evsOk_rdBrightness _ _ rfl) fun c => ?_
  refine evsOk_bind (evsOk_pr rfl) fun _ => ?_
  refine evsOk_bind (evsOk_wrBrightness _ _ _ (by rfl)) fun _ => ?_
  exact evsOk_pr rfl

theorem evsOk_capStaticTest (m : MatrixDev) :
    EvsOk capGoodEv (capStaticTest m) := by
  unfold capStaticTest
  refine evsOk_pytry ?_ fun s => evsOk_pr rfl
  refine evsOk_bind (evsOk_emit (by decide)) fun _ => ?_
  refine evsOk_bind (evsOk_liftE _) fun _ => ?_
  refine evsOk_bind (evsOk_pr rfl) fun _ => ?_
  refine evsOk_bind (evsOk_emit (by decide)) fun _ => ?_
  refine evsOk_bind (evsOk_emit (by decide)) fun _ => ?_
  refine evsOk_bind (evsOk_liftE _) fun _ => ?_
  refine evsOk_bind (evsOk_pr rfl) fun _ => ?_
  refine evsOk_bind (evsOk_emit (by decide)) fun _ => ?_
  refine evsOk_bind (evsOk_emit (by decide)) fun _ => ?_
  refine evsOk_bind (evsOk_liftE _) fun _ => ?_
  refine evsOk_bind (evsOk_pr rfl) fun _ => ?_
  exact evsOk_emit (by decide)

theorem evsOk_capEffectsTest (m : MatrixDev) :
    EvsOk capGoodEv (capEffectsTest m) := by
  unfold capEffectsTest
  refine evsOk_forTr fun x hx => ?_
  fin_cases hx <;>
  · refine evsOk_dite ?_ (evsOk_pure _)
    refine evsOk_pytry ?_ fun s => evsOk_pr rfl
    refine evsOk_bind (evsOk_emit (by decide)) fun _ => ?_
    refine evsOk_bind (evsOk_liftE _) fun _ => ?_
    refine evsOk_bind (evsOk_pr rfl) fun _ => ?_
    exact evsOk_emit (by decide)

theorem evsOk_capLighting (d : CapDevice) : EvsOk capGoodEv (capLighting d) := by
  unfold capLighting
  refine evsOk_bind (evsOk_rdAttr _ (by decide)) fun nm => ?_
  refine evsOk_bind (evsOk_pr rfl) fun _ => ?_
  refine evsOk_dite ?_ ?_
  · exact evsOk_bind (evsOk_pr rfl) fun _ => evsOk_pure _
  refine evsOk_bind (evsOk_emit (by decide)) fun _ => ?_
  refine evsOk_bind (evsOk_dite ?_ (evsOk_pure _)) fun hasMatrix => ?_
  · refine evsOk_bind (evsOk_pr rfl) fun _ => ?_
    refine evsOk_bind (evsOk_emit (by decide)) fun _ => ?_
    refine evsOk_bind (evsOk_capBrightnessTest _) fun _ => ?_
    refine evsOk_bind (evsOk_capStaticTest _) fun _ => ?_
    exact evsOk_bind (evsOk_capEffectsTest _) fun _ => evsOk_pure _
  refine evsOk_bind (evsOk_dite ?_ (evsOk_pure _)) fun hasLogo => ?_
  · refine evsOk_bind (evsOk_pr rfl) fun _ => ?_
    refine evsOk_bind (evsOk_pytry ?_ fun s => evsOk_pr rfl) fun _ => evsOk_pure _
    refine evsOk_bind (evsOk_emit (by decide)) fun _ => ?_
    exact evsOk_bind (evsOk_liftE _) fun _ => evsOk_pr rfl
  refine evsOk_bind (evsOk_dite ?_ (evsOk_pure _)) fun hasScroll => ?_
  · refine evsOk_bind (evsOk_pr rfl) fun _ => ?_
    refine evsOk_bind (evsOk_pytry ?_ fun s => evsOk_pr rfl) fun _ => evsOk_pure _
    refine evsOk_bind (evsOk_emit (by decide)) fun _ => ?_
    exact evsOk_bind (evsOk_liftE _) fun _ => evsOk_pr rfl
  exact evsOk_pure _

theorem evsOk_capOther (d : CapDevice) : EvsOk capGoodEv (capOther d) := by
  unfold capOther
  refine evsOk_bind (evsOk_rdAttr _ (by decide)) fun nm => ?_
  refine evsOk_bind (evsOk_pr rfl) fun _ => ?_
  refine evsOk_bind (evsOk_dite ?_ (evsOk_pure _)) fun c1 => ?_
  · refine evsOk_pytry ?_ fun s => evsOk_bind (evsOk_pr rfl) fun _ => evsOk_pure _
    refine evsOk_bind (evsOk_rdAttr _ (by decide)) fun v => ?_
    refine evsOk_bind (evsOk_pr rfl) fun _ => ?_
    refine evsOk_bind (evsOk_dite ?_ (evsOk_pure _)) fun _ => evsOk_pure _
    exact evsOk_bind (evsOk_rdAttr _ (by decide)) fun a => evsOk_pr rfl
  refine evsOk_bind (evsOk_dite ?_ (evsOk_pure _)) fun c2 => ?_
  · refine evsOk_pytry ?_ fun s => evsOk_bind (evsOk_pr rfl) fun _ => evsOk_pure _
    refine evsOk_bind (evsOk_rdAttr _ (by decide)) fun v => ?_
    exact evsOk_bind (evsOk_pr rfl) fun _ => evsOk_pure _
  refine evsOk_bind (evsOk_dite ?_ (evsOk_pure _)) fun c3 => ?_
  · refine evsOk_pytry ?_ fun s => evsOk_bind (evsOk_pr rfl) fun _ => evsOk_pure _
    refine evsOk_bind (evsOk_rdAttr _ (by decide)) fun v => ?_
    exact evsOk_bind (evsOk_pr rfl) fun _ => evsOk_pure _
  refine evsOk_bind (evsOk_dite ?_ (evsOk_pure _)) fun c4 => ?_
  · refine evsOk_pytry ?_ fun s => evsOk_bind (evsOk_pr rfl) fun _ => evsOk_pure _
    refine evsOk_bind (evsOk_rdAttr _ (by decide)) fun v => ?_
    exact evsOk_bind (evsOk_pr rfl) fun _ => evsOk_pure _
  refine evsOk_bind (evsOk_dite ?_ (evsOk_pure _)) fun c5 => ?_
  · refine evsOk_pytry ?_ fun s => evsOk_bind (evsOk_pr rfl) fun _ => evsOk_pure _
    refine evsOk_bind (evsOk_rdAttr _ (by decide)) fun v => ?_
    exact evsOk_bind (evsOk_pr rfl) fun _ => evsOk_pure _
  refine evsOk_bind (evsOk_dite (evsOk_pr rfl) (evsOk_pure _)) fun _ => ?_
  exact evsOk_pure _

theorem evsOk_capLoop (ds : List CapDevice) : EvsOk capGoodEv (capLoop ds) := by
  induction ds with
  | nil => exact evsOk_pure ()
  | cons d rest ih =>
    refine evsOk_bind (evsOk_capDeviceInfo d) fun _ => ?_
    refine evsOk_bind (evsOk_capLighting d) fun hasLighting => ?_
    refine evsOk_bind (evsOk_capOther d) fun hasOther => ?_
    refine evsOk_bind (evsOk_dite ?_ (evsOk_pure _)) fun _ => ?_
    · refine evsOk_bind (evsOk_rdAttr _ (by decide)) fun nm => ?_
      refine evsOk_bind (evsOk_pr rfl) fun _ => ?_
      refine evsOk_bind (evsOk_pr rfl) fun _ => ?_
      exact evsOk_bind (evsOk_emit (by decide)) fun _ => evsOk_liftE _
    exact evsOk_bind (evsOk_dite (evsOk_pr rfl) (evsOk_pure _)) fun _ => ih

/-- Every event of any `test_device_capabilities.py` run is in the
`capGoodEv` whitelist. -/
theorem evsOk_capMain (env : CapEnv) : EvsOk capGoodEv (capMain env) := by
  unfold capMain
  refine evsOk_bind (evsOk_pr rfl) fun _ => ?_
  refine evsOk_bind (evsOk_pr rfl) fun _ => ?_
  refine evsOk_bind (evsOk_pytry ?_ fun s => ?_) fun r => ?_
  · exact evsOk_bind (evsOk_liftE _) fun devs => evsOk_pure _
  · exact evsOk_bind (evsOk_pr rfl) fun _ =>
      evsOk_bind (evsOk_pr rfl) fun _ => evsOk_pure _
  cases r with
  | none => exact evsOk_pure _
  | some devs =>
    refine evsOk_dite ?_ ?_
    · refine evsOk_bind (evsOk_pr rfl) fun _ => ?_
      refine evsOk_bind (evsOk_pr rfl) fun _ => ?_
      refine evsOk_bind (evsOk_pr rfl) fun _ => ?_
      refine evsOk_bind (evsOk_pr rfl) fun _ => ?_
      refine evsOk_bind (evsOk_pr rfl) fun _ => ?_
      exact evsOk_bind (evsOk_pr rfl) fun _ => evsOk_pure _
    · refine evsOk_bind (evsOk_pr rfl) fun _ => ?_
      refine evsOk_bind (evsOk_capLoop devs) fun _ => ?_
      exact evsOk_bind (evsOk_pr rfl) fun _ => evsOk_pure _

/-! ## Sleep-guard facts for `test_device_capabilities.py` -/

theorem guardOk_true (l : Trace) : guardOk true l = true := by
  induction l with
  | nil => rfl
  | cons e t ih => cases e <;> simp [guardOk, ih]

/-- A sleep event (as opposed to any other event). -/
def isSleepEv : Event → Bool
  | .sleepMs _ => true
  | _ => false

theorem guardOk_cons_lighting {e : Event} (he : isLightingCmd e = true)
    (b : Bool) (l : Trace) : guardOk b (e :: l) = true := by
  cases e <;> simp [isLightingCmd] at he <;>
    simp [guardOk, isLightingCmd, guardOk_true]

theorem sleepSafe_pure (a : α) : SleepSafe (pure a : Tr α) := fun _ => rfl

theorem sleepSafe_dite {c : Prop} [Decidable c] {m₁ m₂ : Tr α}
    (h₁ : SleepSafe m₁) (h₂ : SleepSafe m₂) :
    SleepSafe (if c then m₁ else m₂) := by
  by_cases hc : c
  · simpa [hc]
  · simpa [hc]

theorem sleepSafe_emit {e : Event} (h : isSleepEv e = false) :
    SleepSafe (emit e) := by
  intro b
  cases e <;> first | rfl | simp [isSleepEv] at h

theorem sleepSafe_pr (s : String) : SleepSafe (pr s) := sleepSafe_emit rfl

theorem sleepSafe_liftE (r : Except String α) : SleepSafe (liftE r) := by
  intro b
  cases r <;> rfl

theorem sleepSafe_rdAttr (o a : String) (r : Except String α) :
    SleepSafe (rdAttr o a r) :=
  sleepSafe_bind (sleepSafe_emit rfl) fun _ => sleepSafe_liftE r

theorem sleepSafe_rdBrightness (rd : Nat → Except String Nat) (i : Nat) :
    SleepSafe (rdBrightness rd i) :=
  sleepSafe_bind (sleepSafe_emit rfl) fun _ => sleepSafe_liftE _

/-- Anything may follow a brightness write, sleeps included: the write
itself is the lighting command guarding them. -/
theorem sleepSafe_wrBrightness_then (wr : Nat → Nat → Except String Unit)
    (i v : Nat) (k : Unit → Tr α) :
    SleepSafe (wrBrightness wr i v >>= k) := by
  intro b
  have hwr : wrBrightness wr i v =
      ((wr i v), [.brightnessWrite "lighting_led_matrix" v]) := by
    unfold wrBrightness emit liftE
    rcases wr i v with e | u <;> rfl
  rw [tr_bind_def, hwr]
  rcases wr i v with e | u
  · refine guardOk_cons_lighting ?_ b _
    rfl
  · show guardOk b
      ([Event.brightnessWrite "lighting_led_matrix" v] ++ (k u).2) = true
    refine guardOk_cons_lighting ?_ b _
    rfl

/-- Anything may follow an emitted lighting command, sleeps included. -/
theorem sleepSafe_emit_lighting_then {e : Event}
    (he : isLightingCmd e = true) (k : Unit → Tr α) :
    SleepSafe (emit e >>= k) := by
  intro b
  rw [tr_bind_def]
  show guardOk b (e :: (k ()).2) = true
  exact guardOk_cons_lighting he b _

theorem sleepSafe_capBrightnessTest (m : MatrixDev) :
    SleepSafe (capBrightnessTest m) := by
  unfold capBrightnessTest
  refine sleepSafe_pytry ?_ fun s => sleepSafe_pr _
  refine sleepSafe_bind (sleepSafe_rdBrightness _ _) fun b0 => ?_
  refine sleepSafe_bind (sleepSafe_pr _) fun _ => ?_
  exact sleepSafe_wrBrightness_then _ _ _ _

theorem sleepSafe_capStaticTest (m : MatrixDev) :
    SleepSafe (capStaticTest m) := by
  unfold capStaticTest
  refine sleepSafe_pytry ?_ fun s => sleepSafe_pr _
  refine sleepSafe_emit_lighting_then ?_ _
  rfl

theorem sleepSafe_capEffectsTest (m : MatrixDev) :
    SleepSafe (capEffectsTest m) := by
  unfold capEffectsTest
  refine sleepSafe_forTr fun x hx => ?_
  refine sleepSafe_dite ?_ (sleepSafe_pure _)
  refine sleepSafe_pytry ?_ fun s => sleepSafe_pr _
  refine sleepSafe_emit_lighting_then ?_ _
  rfl

theorem sleepSafe_capDeviceInfo (d : CapDevice) :
    SleepSafe (capDeviceInfo d) := by
  unfold capDeviceInfo
  refine sleepSafe_bind (sleepSafe_rdAttr _ _ _) fun nm => ?_
  refine sleepSafe_bind (sleepSafe_pr _) fun _ => ?_
  refine sleepSafe_bind (sleepSafe_rdAttr _ _ _) fun ty => ?_
  refine sleepSafe_bind (sleepSafe_pr _) fun _ => ?_
  refine sleepSafe_bind (sleepSafe_rdAttr _ _ _) fun sr => ?_
  refine sleepSafe_bind (sleepSafe_pr _) fun _ => ?_
  refine sleepSafe_bind (sleepSafe_rdAttr _ _ _) fun fw => ?_
  refine sleepSafe_bind (sleepSafe_pr _) fun _ => ?_
  refine sleepSafe_bind (sleepSafe_rdAttr _ _ _) fun dv => ?_
  refine sleepSafe_bind (sleepSafe_pr _) fun _ => ?_
  refine sleepSafe_bind (sleepSafe_dite ?_ (sleepSafe_pure _)) fun _ => ?_
  · exact sleepSafe_bind (sleepSafe_rdAttr _ _ _) fun m => sleepSafe_pr _
  refine sleepSafe_dite ?_ (sleepSafe_pure _)
  refine sleepSafe_pytry ?_ fun _ => sleepSafe_pr _
  exact sleepSafe_bind (sleepSafe_rdAttr _ _ _) fun p => sleepSafe_pr _

theorem sleepSafe_capLighting (d : CapDevice) : SleepSafe (capLighting d) := by
  unfold capLighting
  refine sleepSafe_bind (sleepSafe_rdAttr _ _ _) fun nm => ?_
  refine sleepSafe_bind (sleepSafe_pr _) fun _ => ?_
  refine sleepSafe_dite ?_ ?_
  · exact sleepSafe_bind (sleepSafe_pr _) fun _ => sleepSafe_pure _
  refine sleepSafe_bind (sleepSafe_emit rfl) fun _ => ?_
  refine sleepSafe_bind (sleepSafe_dite ?_ (sleepSafe_pure _)) fun hasMatrix => ?_
  · refine sleepSafe_bind (sleepSafe_pr _) fun _ => ?_
    refine sleepSafe_bind (sleepSafe_emit rfl) fun _ => ?_
    refine sleepSafe_bind (sleepSafe_capBrightnessTest _) fun _ => ?_
    refine sleepSafe_bind (sleepSafe_capStaticTest _) fun _ => ?_
    exact sleepSafe_bind (sleepSafe_capEffectsTest _) fun _ => sleepSafe_pure _
  refine sleepSafe_bind (sleepSafe_dite ?_ (sleepSafe_pure _)) fun hasLogo => ?_
  · refine sleepSafe_bind (sleepSafe_pr _) fun _ => ?_
    refine sleepSafe_bind (sleepSafe_pytry ?_ fun s => sleepSafe_pr _)
      fun _ => sleepSafe_pure _
    refine sleepSafe_emit_lighting_then ?_ _
    rfl
  refine sleepSafe_bind (sleepSafe_dite ?_ (sleepSafe_pure _)) fun hasScroll => ?_
  · refine sleepSafe_bind (sleepSafe_pr _) fun _ => ?_
    refine sleepSafe_bind (sleepSafe_pytry ?_ fun s => sleepSafe_pr _)
      fun _ => sleepSafe_pure _
    refine sleepSafe_emit_lighting_then ?_ _
    rfl
  exact sleepSafe_pure _

theorem sleepSafe_capOther (d : CapDevice) : SleepSafe (capOther d) := by
  unfold capOther
  refine sleepSafe_bind (sleepSafe_rdAttr _ _ _) fun nm => ?_
  refine sleepSafe_bind (sleepSafe_pr _) fun _ => ?_
  refine sleepSafe_bind (sleepSafe_dite ?_ (sleepSafe_pure _)) fun c1 => ?_
  · refine sleepSafe_pytry ?_ fun s =>
      sleepSafe_bind (sleepSafe_pr _) fun _ => sleepSafe_pure _
    refine sleepSafe_bind (sleepSafe_rdAttr _ _ _) fun v => ?_
    refine sleepSafe_bind (sleepSafe_pr _) fun _ => ?_
    refine sleepSafe_bind (sleepSafe_dite ?_ (sleepSafe_pure _)) fun _ =>
      sleepSafe_pure _
    exact sleepSafe_bind (sleepSafe_rdAttr _ _ _) fun a => sleepSafe_pr _
  refine sleepSafe_bind (sleepSafe_dite ?_ (sleepSafe_pure _)) fun c2 => ?_
  · refine sleepSafe_pytry ?_ fun s =>
      sleepSafe_bind (sleepSafe_pr _) fun _ => sleepSafe_pure _
    refine sleepSafe_bind (sleepSafe_rdAttr _ _ _) fun v => ?_
    exact sleepSafe_bind (sleepSafe_pr _) fun _ => sleepSafe_pure _
  refine sleepSafe_bind (sleepSafe_dite ?_ (sleepSafe_pure _)) fun c3 => ?_
  · refine sleepSafe_pytry ?_ fun s =>
      sleepSafe_bind (sleepSafe_pr _) fun _ => sleepSafe_pure _
    refine sleepSafe_bind (sleepSafe_rdAttr _ _ _) fun v => ?_
    exact sleepSafe_bind (sleepSafe_pr _) fun _ => sleepSafe_pure _
  refine sleepSafe_bind (sleepSafe_dite ?_ (sleepSafe_pure _)) fun c4 => ?_
  · refine sleepSafe_pytry ?_ fun s =>
      sleepSafe_bind (sleepSafe_pr _) fun _ => sleepSafe_pure _
    refine sleepSafe_bind (sleepSafe_rdAttr _ _ _) fun v => ?_
    exact sleepSafe_bind (sleepSafe_pr _) fun _ => sleepSafe_pure _
  refine sleepSafe_bind (sleepSafe_dite ?_ (sleepSafe_pure _)) fun c5 => ?_
  · refine sleepSafe_pytry ?_ fun s =>
      sleepSafe_bind (sleepSafe_pr _) fun _ => sleepSafe_pure _
    refine sleepSafe_bind (sleepSafe_rdAttr _ _ _) fun v => ?_
    exact sleepSafe_bind (sleepSafe_pr _) fun _ => sleepSafe_pure _
  refine sleepSafe_bind (sleepSafe_dite (sleepSafe_pr _) (sleepSafe_pure _))
    fun _ => ?_
  exact sleepSafe_pure _

theorem sleepSafe_capLoop (ds : List CapDevice) : SleepSafe (capLoop ds) := by
  induction ds with
  | nil => exact sleepSafe_pure ()
  | cons d rest ih =>
    refine sleepSafe_bind (sleepSafe_capDeviceInfo d) fun _ => ?_
    refine sleepSafe_bind (sleepSafe_capLighting d) fun hasLighting => ?_
    refine sleepSafe_bind (sleepSafe_capOther d) fun hasOther => ?_
    refine sleepSafe_bind (sleepSafe_dite ?_ (sleepSafe_pure _)) fun _ => ?_
    · refine sleepSafe_bind (sleepSafe_rdAttr _ _ _) fun nm => ?_
      refine sleepSafe_bind (sleepSafe_pr _) fun _ => ?_
      refine sleepSafe_bind (sleepSafe_pr _) fun _ => ?_
      exact sleepSafe_bind (sleepSafe_emit rfl) fun _ => sleepSafe_liftE _
    exact sleepSafe_bind (sleepSafe_dite (sleepSafe_pr _) (sleepSafe_pure _))
      fun _ => ih

/-- In every `test_device_capabilities.py` run, each sleep happens only
after some lighting command has been issued. -/
theorem sleepSafe_capMain (env : CapEnv) : SleepSafe (capMain env) := by
  unfold capMain
  refine sleepSafe_bind (sleepSafe_pr _) fun _ => ?_
  refine sleepSafe_bind (sleepSafe_pr _) fun _ => ?_
  refine sleepSafe_bind (sleepSafe_pytry ?_ fun s => ?_) fun r => ?_
  · exact sleepSafe_bind (sleepSafe_liftE _) fun devs => sleepSafe_pure _
  · exact sleepSafe_bind (sleepSafe_pr _) fun _ =>
      sleepSafe_bind (sleepSafe_pr _) fun _ => sleepSafe_pure _
  cases r with
  | none => exact sleepSafe_pure _
  | some devs =>
    refine sleepSafe_dite ?_ ?_
    · refine sleepSafe_bind (sleepSafe_pr _) fun _ => ?_
      refine sleepSafe_bind (sleepSafe_pr _) fun _ => ?_
      refine sleepSafe_bind (sleepSafe_pr _) fun _ => ?_
      refine sleepSafe_bind (sleepSafe_pr _) fun _ => ?_
      refine sleepSafe_bind (sleepSafe_pr _) fun _ => ?_
      exact sleepSafe_bind (sleepSafe_pr _) fun _ => sleepSafe_pure _
    · refine sleepSafe_bind (sleepSafe_pr _) fun _ => ?_
      refine sleepSafe_bind (sleepSafe_capLoop devs) fun _ => ?_
      exact sleepSafe_bind (sleepSafe_pr _) fun _ => sleepSafe_pure _

/-! ## Result characterization of the helpers -/

/-- `true` on every event except `check_step` markers. -/
def notStepEv : Event → Bool
  | .step _ _ _ => false
  | _ => true

theorem stepsOf_nil_of_evsOk {m : Tr α} (h : EvsOk notStepEv m) :
    stepsOf m.2 = [] := by
  rw [stepsOf, List.filterMap_eq_nil_iff]
  intro e he
  have hg := h e he
  cases e <;> first | rfl | (rw [show notStepEv (Event.step _ _ _) = false from rfl] at hg; cases hg)

/-- The pure outcome of one `subprocess.run` call, as a function of the
command's behaviour and the `timeout` argument. -/
def subprocessOutcome : ShellBehavior → Option Nat → RunOutcome
  | .raises m, _ => .excFail m
  | .runs d rc out err, some t =>
    if t < d then .timedOut else .done rc out err
  | .runs _ d rc out, none => .done d rc out

/-- The `(success, stdout, stderr)` triple a `run_command` helper returns,
as a function of the command's behaviour and the timeout. -/
def runCommandResult (b : ShellBehavior) (tmo : Option Nat) :
    Bool × String × String :=
  match subprocessOutcome b tmo with
  | .done rc out err => (rc == 0, out, err)
  | .timedOut => (false, "", "Timeout")
  | .excFail m => (false, "", m)

theorem subprocessRun_spec (w : String → ShellBehavior) (cmd : String)
    (tmo : Option Nat) :
    subprocessRun w cmd tmo =
      (.ok (subprocessOutcome (w cmd) tmo), [.subp cmd tmo]) := by
  unfold subprocessRun subprocessOutcome
  rcases w cmd with ⟨d, rc, out, err⟩ | m
  · rcases tmo with _ | t
    · rfl
    · by_cases h : t < d <;> simp [h, emit, tr_bind_def, trBind, pure_tr]
  · rfl

theorem tsRunCommand_spec (w : String → ShellBehavior) (cmd : String) :
    tsRunCommand w cmd =
      (.ok (runCommandResult (w cmd) none), [.subp cmd none]) := by
  unfold tsRunCommand runCommandResult
  rw [tr_bind_def, subprocessRun_spec, trBind_ok]
  cases subprocessOutcome (w cmd) none <;> rfl

theorem dwRunCommand_fst (w : String → ShellBehavior) (cmd desc : String) :
    (dwRunCommand w cmd desc).1 =
      .ok (runCommandResult (w cmd) (some 10)) := by
  unfold dwRunCommand runCommandResult
  simp only [tr_bind_def, pr, emit, trBind_ok, subprocessRun_spec]
  cases subprocessOutcome (w cmd) (some 10) with
  | done rc out err =>
    by_cases h1 : out != "" <;> by_cases h2 : err != "" <;>
      simp [h1, h2, pr, emit, tr_bind_def, trBind, pure_tr]
  | timedOut => rfl
  | excFail m => rfl

theorem dwRunCommand_steps (w : String → ShellBehavior) (cmd desc : String) :
    stepsOf (dwRunCommand w cmd desc).2 = [] :=
  stepsOf_nil_of_evsOk (evsOk_dwRunCommand w cmd desc (fun _ => rfl) rfl)

theorem dwCheckStep_fst (name : String) (cond : Bool) (smsg fmsg tip : String) :
    (dwCheckStep name cond smsg fmsg tip).1 = .ok cond := by
  unfold dwCheckStep
  cases cond <;>
    by_cases h : tip != "" <;>
    simp [h, pr, emit, tr_bind_def, trBind, pure_tr]

theorem dwCheckStep_steps (name : String) (cond : Bool)
    (smsg fmsg tip : String) :
    stepsOf (dwCheckStep name cond smsg fmsg tip).2 = [(name, cond)] := by
  unfold dwCheckStep
  cases cond <;>
    by_cases h : tip != "" <;>
    simp [h, pr, emit, tr_bind_def, trBind, pure_tr, stepsOf]

/-! ## "Never raises" machinery -/

/-- The computation ends in a value, not in a propagating exception. -/
def AlwaysOk (m : Tr α) : Prop := m.1.isOk = true

theorem alwaysOk_pure (a : α) : AlwaysOk (pure a : Tr α) := rfl

theorem alwaysOk_emit (e : Event) : AlwaysOk (emit e) := rfl

theorem alwaysOk_pr (s : String) : AlwaysOk (pr s) := rfl

theorem alwaysOk_bind {m : Tr α} {f : α → Tr β} (hm : AlwaysOk m)
    (hf : ∀ a, AlwaysOk (f a)) : AlwaysOk (m >>= f) := by
  rcases m with ⟨r, ev⟩
  cases r with
  | ok a =>
    rw [AlwaysOk, tr_bind_def, trBind_ok]
    exact hf a
  | error e => exact absurd hm (by simp [AlwaysOk, Except.isOk, Except.toBool])

theorem alwaysOk_pytry {m : Tr α} {hh : String → Tr α}
    (hhh : ∀ s, AlwaysOk (hh s)) : AlwaysOk (pytry m hh) := by
  rcases m with ⟨r, ev⟩
  cases r with
  | ok a => rfl
  | error e =>
    rw [AlwaysOk]
    show ((hh e).1, ev ++ (hh e).2).1.isOk = true
    exact hhh e

theorem alwaysOk_dite {c : Prop} [Decidable c] {m₁ m₂ : Tr α}
    (h₁ : AlwaysOk m₁) (h₂ : AlwaysOk m₂) : AlwaysOk (if c then m₁ else m₂) := by
  by_cases hc : c
  · simpa [hc]
  · simpa [hc]

theorem alwaysOk_forTr {l : List α} {f : α → Tr Unit}
    (h : ∀ x ∈ l, AlwaysOk (f x)) : AlwaysOk (forTr l f) := by
  induction l with
  | nil => exact alwaysOk_pure ()
  | cons x xs ih =>
    exact alwaysOk_bind (h x (List.mem_cons_self x xs))
      (fun _ => ih (fun y hy => h y (List.mem_cons_of_mem x hy)))

theorem unit_fst_ok {m : Tr Unit} (h : AlwaysOk m) : m.1 = .ok () := by
  rcases m with ⟨r, ev⟩
  cases r with
  | ok u => cases u; rfl
  | error e => exact absurd h (by simp [AlwaysOk, Except.isOk, Except.toBool])

theorem pytry_liftE_unit_fst (r : Except String Unit) :
    (pytry (liftE r) (fun _ => pure ())).1 = .ok () := by
  cases r <;> rfl

/-! ## Step conditions and step-level characterization of
`debug_workflow.py` -/

/-- Shorthand: the `run_command` result for one `debug_workflow.py`
command. -/
def dwRC (env : DWEnv) (cmd : String) : Bool × String × String :=
  runCommandResult (env.shell cmd) (some 10)

def dwCondHw (env : DWEnv) : Bool :=
  (dwRC env "lsusb | grep 1532").1 &&
  pyStrip (dwRC env "lsusb | grep 1532").2.1 != ""

def dwCondModules (env : DWEnv) : Bool :=
  (dwRC env "lsmod | grep razer").1 &&
  pyStrip (dwRC env "lsmod | grep razer").2.1 != ""

def dwCondFiles (env : DWEnv) : Bool :=
  (dwRC env "find /lib/modules/$(uname -r) -name '*razer*'").1 &&
  pyStrip (dwRC env "find /lib/modules/$(uname -r) -name '*razer*'").2.1 != ""

def dwCondDevFiles (env : DWEnv) : Bool :=
  (dwRC env "find /sys/bus/hid/drivers/razer* -name '*1532*' 2>/dev/null").1 &&
  pyStrip (dwRC env "find /sys/bus/hid/drivers/razer* -name '*1532*' 2>/dev/null").2.1 != ""

def dwCondDaemon (env : DWEnv) : Bool :=
  (dwRC env "systemctl is-active openrazer-daemon").1 &&
  substrOccurs "active" (dwRC env "systemctl is-active openrazer-daemon").2.1

def dwCondPython (env : DWEnv) : Bool :=
  (dwRC env "python3 -c 'from openrazer.client import DeviceManager; print(\"Import successful\")'").1

def dwCondDetect (env : DWEnv) : Bool :=
  (dwRC env "python3 /tmp/test_devices.py").1 &&
  substrOccurs "Found" (dwRC env "python3 /tmp/test_devices.py").2.1

def dwCondGroups (env : DWEnv) : Bool :=
  (dwRC env "groups | grep plugdev").1

theorem stepsOf_append (l₁ l₂ : Trace) :
    stepsOf (l₁ ++ l₂) = stepsOf l₁ ++ stepsOf l₂ := by
  simp [stepsOf]

theorem dwStepHardware_spec (env : DWEnv) :
    (dwStepHardware env).1 = .ok (dwCondHw env) ∧
    stepsOf (dwStepHardware env).2 = [("Hardware Detection", dwCondHw env)] := by
  unfold dwStepHardware dwCondHw dwRC
  have h1 := dwRunCommand_fst env.shell "lsusb | grep 1532"
    "Checking for Razer devices"
  have h2 : ∀ (b : Bool), stepsOf (if !b then
      (do pr "\nINFO: Continuing with software checks..."
          pure b : Tr Bool)
    else pure b).2 = [] := by
    intro b
    split <;> rfl
  have h3 : ∀ (b : Bool), (if !b then
      (do pr "\nINFO: Continuing with software checks..."
          pure b : Tr Bool)
    else pure b).1 = .ok b := by
    intro b
    split <;> rfl
  constructor
  · simp only [bind_fst_ok h1, bind_fst_ok (dwCheckStep_fst _ _ _ _ _), h3]
  · simp only [bind_snd_ok h1, bind_snd_ok (dwCheckStep_fst _ _ _ _ _),
      stepsOf_append, dwRunCommand_steps, dwCheckStep_steps, h2,
      List.nil_append, List.append_nil]

theorem dwStepModules_spec (env : DWEnv) :
    (dwStepModules env).1 = .ok (dwCondModules env) ∧
    stepsOf (dwStepModules env).2 =
      [("Kernel Module Loading", dwCondModules env)] := by
  unfold dwStepModules dwCondModules dwRC
  have h1 := dwRunCommand_fst env.shell "lsmod | grep razer"
    "Checking kernel modules"
  have hdk := dwRunCommand_fst env.shell "dkms status openrazer-driver"
    "Checking DKMS status"
  have h3 : ∀ (b : Bool), (if !b then
      (do
        let t2 ← dwRunCommand env.shell "dkms status openrazer-driver"
          "Checking DKMS status"
        let s2 := t2.1
        let out2 := t2.2.1
        (if s2 && pyStrip out2 != "" then pr ("DKMS status:\n" ++ out2)
         else pr "DKMS module not found or not installed")
        pure b : Tr Bool)
    else pure b).1 = .ok b := by
    intro b
    split
    · simp only [bind_fst_ok hdk]
      split
      · rfl
      · rfl
    · rfl
  have h2 : ∀ (b : Bool), stepsOf (if !b then
      (do
        let t2 ← dwRunCommand env.shell "dkms status openrazer-driver"
          "Checking DKMS status"
        let s2 := t2.1
        let out2 := t2.2.1
        (if s2 && pyStrip out2 != "" then pr ("DKMS status:\n" ++ out2)
         else pr "DKMS module not found or not installed")
        pure b : Tr Bool)
    else pure b).2 = [] := by
    intro b
    split
    · simp only [bind_snd_ok hdk, stepsOf_append, dwRunCommand_steps,
        List.nil_append]
      split
      · rfl
      · rfl
    · rfl
  constructor
  · simp only [bind_fst_ok h1, bind_fst_ok (dwCheckStep_fst _ _ _ _ _), h3]
  · simp only [bind_snd_ok h1, bind_snd_ok (dwCheckStep_fst _ _ _ _ _),
      stepsOf_append, dwRunCommand_steps, dwCheckStep_steps, h2,
      List.nil_append, List.append_nil]

theorem dwStepFiles_spec (env : DWEnv) :
    (dwStepFiles env).1 = .ok (dwCondFiles env) ∧
    stepsOf (dwStepFiles env).2 = [("Module Files", dwCondFiles env)] := by
  unfold dwStepFiles dwCondFiles dwRC
  have h1 := dwRunCommand_fst env.shell
    "find /lib/modules/$(uname -r) -name '*razer*'" "Checking module files"
  constructor
  · simp only [bind_fst_ok h1, dwCheckStep_fst]
  · simp only [bind_snd_ok h1, stepsOf_append, dwRunCommand_steps,
      dwCheckStep_steps, List.nil_append]

theorem dwStepDeviceFiles_spec (env : DWEnv) (hw hm : Bool) :
    (dwStepDeviceFiles env hw hm).1 =
      .ok (if hw && hm then some (dwCondDevFiles env) else none) ∧
    stepsOf (dwStepDeviceFiles env hw hm).2 =
      (if hw && hm then [("Device Files", dwCondDevFiles env)] else []) := by
  unfold dwStepDeviceFiles dwCondDevFiles dwRC
  have h1 := dwRunCommand_fst env.shell
    "find /sys/bus/hid/drivers/razer* -name '*1532*' 2>/dev/null"
    "Checking device files"
  by_cases hc : (hw && hm) = true
  · rw [if_pos hc]
    constructor
    · simp only [hc, if_true, bind_fst_ok h1,
        bind_fst_ok (dwCheckStep_fst _ _ _ _ _), pure_tr]
    · simp only [hc, if_true, bind_snd_ok h1,
        bind_snd_ok (dwCheckStep_fst _ _ _ _ _), stepsOf_append,
        dwRunCommand_steps, dwCheckStep_steps, List.nil_append,
        List.append_nil]
      rfl
  · rw [if_neg hc]
    constructor
    · simp only [hc, if_false]
      rfl
    · simp only [hc, if_false]
      rfl

theorem dwStepDaemon_spec (env : DWEnv) :
    (dwStepDaemon env).1 = .ok (dwCondDaemon env) ∧
    stepsOf (dwStepDaemon env).2 = [("Daemon Status", dwCondDaemon env)] := by
  unfold dwStepDaemon dwCondDaemon dwRC
  have h1 := dwRunCommand_fst env.shell "systemctl is-active openrazer-daemon"
    "Checking daemon status"
  have hj := dwRunCommand_fst env.shell
    "journalctl -u openrazer-daemon --no-pager -n 10" "Checking daemon logs"
  have h3 : ∀ (b : Bool), (if !b then
      (do
        let t2 ← dwRunCommand env.shell
          "journalctl -u openrazer-daemon --no-pager -n 10"
          "Checking daemon logs"
        let s2 := t2.1
        let out2 := t2.2.1
        (if s2 && pyStrip out2 != "" then pr ("Recent daemon logs:\n" ++ out2)
         else pure ())
        pure b : Tr Bool)
    else pure b).1 = .ok b := by
    intro b
    split
    · simp only [bind_fst_ok hj]
      split
      · rfl
      · rfl
    · rfl
  have h2 : ∀ (b : Bool), stepsOf (if !b then
      (do
        let t2 ← dwRunCommand env.shell
          "journalctl -u openrazer-daemon --no-pager -n 10"
          "Checking daemon logs"
        let s2 := t2.1
        let out2 := t2.2.1
        (if s2 && pyStrip out2 != "" then pr ("Recent daemon logs:\n" ++ out2)
         else pure ())
        pure b : Tr Bool)
    else pure b).2 = [] := by
    intro b
    split
    · simp only [bind_snd_ok hj, stepsOf_append, dwRunCommand_steps,
        List.nil_append]
      split
      · rfl
      · rfl
    · rfl
  constructor
  · simp only [bind_fst_ok h1, bind_fst_ok (dwCheckStep_fst _ _ _ _ _), h3]
  · simp only [bind_snd_ok h1, bind_snd_ok (dwCheckStep_fst _ _ _ _ _),
      stepsOf_append, dwRunCommand_steps, dwCheckStep_steps, h2,
      List.nil_append, List.append_nil]

theorem dwStepPython_spec (env : DWEnv) :
    (dwStepPython env).1 = .ok (dwCondPython env) ∧
    stepsOf (dwStepPython env).2 = [("Python Library", dwCondPython env)] := by
  unfold dwStepPython dwCondPython dwRC
  have h1 := dwRunCommand_fst env.shell
    "python3 -c 'from openrazer.client import DeviceManager; print(\"Import successful\")'"
    "Testing Python library import"
  constructor
  · simp only [bind_fst_ok h1, dwCheckStep_fst]
  · simp only [bind_snd_ok h1, stepsOf_append, dwRunCommand_steps,
      dwCheckStep_steps, List.nil_append]

theorem dwStepDetect_none (env : DWEnv) :
    dwStepDetect env false = (.ok none, []) := rfl

theorem dwStepDetect_raise (env : DWEnv) (m : String)
    (hw : env.openWrite = .error m) :
    (dwStepDetect env true).1 = .error m ∧
    stepsOf (dwStepDetect env true).2 = [] := by
  unfold dwStepDetect
  have hl : (liftE env.openWrite : Tr Unit).1 = .error m := by
    rw [hw]; rfl
  constructor
  · simp only [if_true]
    rw [bind_fst_error hl]
  · simp only [if_true]
    rw [bind_snd_error hl, hw]
    rfl

theorem dwStepDetect_run (env : DWEnv) (hw : env.openWrite = .ok ()) :
    (dwStepDetect env true).1 = .ok (some (dwCondDetect env)) ∧
    stepsOf (dwStepDetect env true).2 =
      [("Device Detection", dwCondDetect env)] := by
  unfold dwStepDetect dwCondDetect dwRC
  have hl : (liftE env.openWrite : Tr Unit).1 = .ok () := by
    rw [hw]; rfl
  have hl2 : (liftE env.openWrite : Tr Unit).2 = [] := by
    rw [hw]; rfl
  have h1 := dwRunCommand_fst env.shell "python3 /tmp/test_devices.py"
    "Testing device detection"
  have hrm := pytry_liftE_unit_fst env.removeRes
  have hrm2 : stepsOf (pytry (liftE env.removeRes) (fun _ => pure ())).2 = [] := by
    rcases env.removeRes with e | u <;> rfl
  constructor
  · simp only [if_true]
    simp only [bind_fst_ok hl, bind_fst_ok h1,
      bind_fst_ok (dwCheckStep_fst _ _ _ _ _), bind_fst_ok hrm]
    rfl
  · simp only [if_true]
    simp only [bind_snd_ok hl, bind_snd_ok h1,
      bind_snd_ok (dwCheckStep_fst _ _ _ _ _), bind_snd_ok hrm,
      stepsOf_append, dwRunCommand_steps, dwCheckStep_steps, hrm2, hl2,
      List.nil_append, List.append_nil]
    rfl

theorem dwStepGroups_spec (env : DWEnv) :
    (dwStepGroups env).1 = .ok (dwCondGroups env) ∧
    stepsOf (dwStepGroups env).2 = [("User Permissions", dwCondGroups env)] := by
  unfold dwStepGroups dwCondGroups dwRC
  have h1 := dwRunCommand_fst env.shell "groups | grep plugdev"
    "Checking user groups"
  constructor
  · simp only [bind_fst_ok h1, dwCheckStep_fst]
  · simp only [bind_snd_ok h1, stepsOf_append, dwRunCommand_steps,
      dwCheckStep_steps, List.nil_append]

theorem dwEnumIssues_ok (i : Nat) (issues : List String) :
    AlwaysOk (dwEnumIssues i issues) := by
  induction issues generalizing i with
  | nil => exact alwaysOk_pure ()
  | cons x xs ih =>
    exact alwaysOk_bind (alwaysOk_pr _) fun _ => ih (i + 1)

theorem dwSummary_fst (issues : List String) :
    (dwSummary issues).1 = .ok () := by
  refine unit_fst_ok ?_
  unfold dwSummary
  refine alwaysOk_bind (alwaysOk_pr _) fun _ => ?_
  refine alwaysOk_bind (alwaysOk_pr _) fun _ => ?_
  refine alwaysOk_bind (alwaysOk_pr _) fun _ => ?_
  refine alwaysOk_dite ?_ ?_
  · refine alwaysOk_bind (alwaysOk_pr _) fun _ => ?_
    refine alwaysOk_bind (alwaysOk_pr _) fun _ => ?_
    refine alwaysOk_bind (alwaysOk_pr _) fun _ => ?_
    exact alwaysOk_bind (alwaysOk_pr _) fun _ => alwaysOk_pr _
  · refine alwaysOk_bind (alwaysOk_pr _) fun _ => ?_
    refine alwaysOk_bind (dwEnumIssues_ok 1 issues) fun _ => ?_
    refine alwaysOk_bind (alwaysOk_pr _) fun _ => ?_
    refine alwaysOk_bind (alwaysOk_dite ?_ (alwaysOk_pure _)) fun _ => ?_
    · refine alwaysOk_bind (alwaysOk_pr _) fun _ => ?_
      exact alwaysOk_bind (alwaysOk_pr _) fun _ => alwaysOk_pr _
    refine alwaysOk_bind (alwaysOk_dite ?_ (alwaysOk_pure _)) fun _ => ?_
    · refine alwaysOk_bind (alwaysOk_pr _) fun _ => ?_
      exact alwaysOk_bind (alwaysOk_pr _) fun _ => alwaysOk_pr _
    refine alwaysOk_bind (alwaysOk_dite ?_ (alwaysOk_pure _)) fun _ => ?_
    · refine alwaysOk_bind (alwaysOk_pr _) fun _ => ?_
      exact alwaysOk_bind (alwaysOk_pr _) fun _ => alwaysOk_pr _
    refine alwaysOk_bind (alwaysOk_dite ?_ (alwaysOk_pure _)) fun _ => ?_
    · exact alwaysOk_bind (alwaysOk_pr _) fun _ => alwaysOk_pr _
    refine alwaysOk_bind (alwaysOk_dite ?_ (alwaysOk_pure _)) fun _ => ?_
    · exact alwaysOk_bind (alwaysOk_pr _) fun _ => alwaysOk_pr _
    exact alwaysOk_pr _

theorem dwSummary_steps (issues : List String) :
    stepsOf (dwSummary issues).2 = [] :=
  stepsOf_nil_of_evsOk (evsOk_dwSummary (fun _ => rfl) issues)

theorem bind_pr_fst (s : String) (f : Unit → Tr β) :
    (pr s >>= f).1 = (f ()).1 := rfl

theorem bind_pr_snd (s : String) (f : Unit → Tr β) :
    (pr s >>= f).2 = .print s :: (f ()).2 := rfl

theorem stepsOf_cons_print (s : String) (l : Trace) :
    stepsOf (.print s :: l) = stepsOf l := rfl

/-- The `check_step` entries contributed by an optional (conditionally
executed) step. -/
def optStep (n : String) : Option Bool → List (String × Bool)
  | some b => [(n, b)]
  | none => []

theorem optStep_if (n : String) (c : Prop) [Decidable c] (b : Bool) :
    optStep n (if c then some b else none) =
      (if c then [(n, b)] else []) := by
  split <;> rfl

/-- Whether the sysfs device-files step runs, and its condition. -/
def dwDevFilesOpt (env : DWEnv) : Option Bool :=
  if dwCondHw env && dwCondModules env then some (dwCondDevFiles env) else none

/-- Whether the device-detection step runs (on a non-aborted run), and
its condition. -/
def dwDetectOpt (env : DWEnv) : Option Bool :=
  if dwCondPython env then some (dwCondDetect env) else none

/-- The `check_step` evaluations of the first six steps, in order. -/
def dwStepsPrefix (env : DWEnv) : List (String × Bool) :=
  [("Hardware Detection", dwCondHw env),
   ("Kernel Module Loading", dwCondModules env),
   ("Module Files", dwCondFiles env)] ++
  optStep "Device Files" (dwDevFilesOpt env) ++
  [("Daemon Status", dwCondDaemon env),
   ("Python Library", dwCondPython env)]

/-- All `check_step` evaluations of a run that is not aborted by the
temporary-file write. -/
def dwStepsFull (env : DWEnv) : List (String × Bool) :=
  dwStepsPrefix env ++ optStep "Device Detection" (dwDetectOpt env) ++
  [("User Permissions", dwCondGroups env)]

/-- The `issues_found` list of a non-aborted run. -/
def dwIssuesOf (env : DWEnv) : List String :=
  dwIssues (dwCondHw env) (dwCondModules env) (dwCondFiles env)
    (dwDevFilesOpt env) (dwCondDaemon env) (dwCondPython env)
    (dwDetectOpt env) (dwCondGroups env)

theorem dwIssues_length (b1 b2 b3 : Bool) (o4 : Option Bool) (b5 b6 : Bool)
    (o7 : Option Bool) (b8 : Bool) :
    (dwIssues b1 b2 b3 o4 b5 b6 o7 b8).length =
      (([("Hardware Detection", b1), ("Kernel Module Loading", b2),
         ("Module Files", b3)] ++ optStep "Device Files" o4 ++
        [("Daemon Status", b5), ("Python Library", b6)] ++
        optStep "Device Detection" o7 ++
        [("User Permissions", b8)]).countP fun p => !p.2) := by
  rcases o4 with _ | b4 <;> rcases o7 with _ | b7 <;>
    cases b1 <;> cases b2 <;> cases b3 <;> cases b5 <;> cases b6 <;>
    cases b8 <;>
    first
      | rfl
      | (cases b4 <;> first | rfl | (cases b7 <;> rfl))
      | (cases b7 <;> rfl)

/-- `stepsOf` of a `pure` tail. -/
theorem stepsOf_pure (a : α) : stepsOf (pure a : Tr α).2 = [] := rfl

/-- Full characterization of a `debug_workflow.py` run.  If the Python
check succeeded but writing `/tmp/test_devices.py` raises, `main` is
aborted by the propagating exception after the first six steps;
otherwise `main` returns `len(issues_found)` and runs the steps of
`dwStepsFull`. -/
theorem dwMain_spec (env : DWEnv) :
    (dwCondPython env = true → ∀ m, env.openWrite = Except.error m →
      (dwMain env).1 = Except.error m ∧
      stepsOf (dwMain env).2 = dwStepsPrefix env) ∧
    ((dwCondPython env = false ∨ env.openWrite = Except.ok ()) →
      (dwMain env).1 = Except.ok (dwIssuesOf env).length ∧
      stepsOf (dwMain env).2 = dwStepsFull env) := by
  obtain ⟨h1f, h1s⟩ := dwStepHardware_spec env
  obtain ⟨h2f, h2s⟩ := dwStepModules_spec env
  obtain ⟨h3f, h3s⟩ := dwStepFiles_spec env
  obtain ⟨h4f, h4s⟩ :=
    dwStepDeviceFiles_spec env (dwCondHw env) (dwCondModules env)
  obtain ⟨h5f, h5s⟩ := dwStepDaemon_spec env
  obtain ⟨h6f, h6s⟩ := dwStepPython_spec env
  obtain ⟨h8f, h8s⟩ := dwStepGroups_spec env
  constructor
  · intro hpw m how
    obtain ⟨h7f, h7s⟩ := dwStepDetect_raise env m how
    constructor
    · unfold dwMain
      simp only [bind_pr_fst, bind_fst_ok h1f, bind_fst_ok h2f,
        bind_fst_ok h3f, bind_fst_ok h4f, bind_fst_ok h5f, bind_fst_ok h6f,
        hpw]
      exact bind_fst_error h7f _
    · unfold dwMain dwStepsPrefix dwDevFilesOpt
      simp only [bind_pr_snd, bind_snd_ok h1f, bind_snd_ok h2f,
        bind_snd_ok h3f, bind_snd_ok h4f, bind_snd_ok h5f, bind_snd_ok h6f,
        hpw]
      rw [bind_snd_error h7f]
      simp only [stepsOf_cons_print, stepsOf_append, h1s, h2s, h3s, h4s,
        h5s, h6s, h7s, optStep_if, hpw]
      simp
  · intro hok
    have h7 : (dwStepDetect env (dwCondPython env)).1 =
        Except.ok (dwDetectOpt env) ∧
        stepsOf (dwStepDetect env (dwCondPython env)).2 =
          optStep "Device Detection" (dwDetectOpt env) := by
      unfold dwDetectOpt
      cases hpw : dwCondPython env
      · rw [dwStepDetect_none]
        exact ⟨rfl, rfl⟩
      · rcases hok with hok | hok
        · rw [hpw] at hok
          cases hok
        · obtain ⟨hf, hs⟩ := dwStepDetect_run env hok
          rw [if_pos rfl]
          exact ⟨hf, hs⟩
    obtain ⟨h7f, h7s⟩ := h7
    constructor
    · unfold dwMain
      simp only [bind_pr_fst, bind_fst_ok h1f, bind_fst_ok h2f,
        bind_fst_ok h3f, bind_fst_ok h4f, bind_fst_ok h5f, bind_fst_ok h6f,
        bind_fst_ok h7f, bind_fst_ok h8f, bind_fst_ok (dwSummary_fst _),
        pure_tr]
      unfold dwIssuesOf dwDevFilesOpt
      rfl
    · unfold dwMain dwStepsFull dwStepsPrefix dwDevFilesOpt
      simp only [bind_pr_snd, bind_snd_ok h1f, bind_snd_ok h2f,
        bind_snd_ok h3f, bind_snd_ok h4f, bind_snd_ok h5f, bind_snd_ok h6f,
        bind_snd_ok h7f, bind_snd_ok h8f, bind_snd_ok (dwSummary_fst _)]
      simp only [stepsOf_cons_print, stepsOf_append, h1s, h2s, h3s, h4s,
        h5s, h6s, h7s, h8s, dwSummary_steps, stepsOf_pure, optStep_if]
      simp

/-! ## Result characterization of `test_system.py` -/

theorem alwaysOk_tsRunCommand (w : String → ShellBehavior) (cmd : String) :
    AlwaysOk (tsRunCommand w cmd) := by
  rw [AlwaysOk, tsRunCommand_spec]
  rfl

theorem bool_fst_ok {m : Tr Bool} (h : AlwaysOk m) :
    ∃ b, m.1 = Except.ok b := by
  rcases m with ⟨r, ev⟩
  cases r with
  | ok b => exact ⟨b, rfl⟩
  | error e => exact absurd h (by simp [AlwaysOk, Except.isOk, Except.toBool])

theorem alwaysOk_tsTest1 (env : TSEnv) : AlwaysOk (tsTest1 env) := by
  unfold tsTest1
  refine alwaysOk_bind (alwaysOk_pr _) fun _ => ?_
  refine alwaysOk_bind (alwaysOk_tsRunCommand _ _) fun t => ?_
  refine alwaysOk_dite ?_ ?_
  · refine alwaysOk_bind (alwaysOk_pr _) fun _ => ?_
    exact alwaysOk_bind (alwaysOk_forTr fun x _ => alwaysOk_pr _)
      fun _ => alwaysOk_pure _
  · exact alwaysOk_bind (alwaysOk_pr _) fun _ =>
      alwaysOk_bind (alwaysOk_pr _) fun _ => alwaysOk_pure _

theorem alwaysOk_liftE_ok {r : Except String α} (h : r.isOk = true) :
    AlwaysOk (liftE r) := h

theorem alwaysOk_bind_val {m : Tr α} {a : α} {f : α → Tr β}
    (hm : m.1 = .ok a) (hf : AlwaysOk (f a)) : AlwaysOk (m >>= f) := by
  rw [AlwaysOk, bind_fst_ok hm]
  exact hf

/-- The module-name lines over which test 2's `for` loop runs: empty
unless `lsmod | grep razer` succeeded with nonempty stripped output
(the guard of line 55). -/
def tsLsmodLines (env : TSEnv) : List String :=
  if (runCommandResult (env.shell "lsmod | grep razer") none).1 &&
      pyStrip (runCommandResult (env.shell "lsmod | grep razer") none).2.1
        != "" then
    pySplitLines
      (pyStrip (runCommandResult (env.shell "lsmod | grep razer") none).2.1)
  else []

/-- Absence of the two unhandled-exception paths of `test_system.py`'s
`main`: no whitespace-only line reaches `line.split()[0]` (line 58), and
`find_spec` does not raise outside the types `check_import` catches.
Note everything else stays arbitrary: every shell command may fail or
raise, and every device read, effect call or `DeviceManager()`
construction may raise, without voiding this condition. -/
def tsNoAbort (env : TSEnv) : Prop :=
  (∀ line ∈ tsLsmodLines env, (firstWord line).isOk = true) ∧
  ∀ m, env.findSpec ≠ FindSpecOutcome.uncaught m

theorem alwaysOk_tsTest2 (env : TSEnv)
    (h : ∀ line ∈ tsLsmodLines env, (firstWord line).isOk = true) :
    AlwaysOk (tsTest2 env) := by
  unfold tsTest2
  refine alwaysOk_bind (alwaysOk_pr _) fun _ => ?_
  refine alwaysOk_bind_val (by rw [tsRunCommand_spec]) ?_
  show AlwaysOk
    (if (runCommandResult (env.shell "lsmod | grep razer") none).1 &&
        pyStrip (runCommandResult (env.shell "lsmod | grep razer") none).2.1
          != "" then do
      pr "✓ OpenRazer kernel modules loaded:"
      forTr (pySplitLines
        (pyStrip (runCommandResult (env.shell "lsmod | grep razer") none).2.1))
        (fun line => do
          let moduleName ← liftE (firstWord line)
          pr ("  " ++ moduleName))
      pure true
    else do
      pr "✗ No OpenRazer kernel modules loaded"
      pure false)
  by_cases hc : ((runCommandResult (env.shell "lsmod | grep razer") none).1 &&
      pyStrip (runCommandResult (env.shell "lsmod | grep razer") none).2.1
        != "") = true
  · rw [if_pos hc]
    refine alwaysOk_bind (alwaysOk_pr _) fun _ => ?_
    refine alwaysOk_bind (alwaysOk_forTr fun line hl => ?_)
      fun _ => alwaysOk_pure _
    refine alwaysOk_bind (alwaysOk_liftE_ok (h line ?_))
      fun moduleName => alwaysOk_pr _
    unfold tsLsmodLines
    rw [if_pos hc]
    exact hl
  · rw [if_neg hc]
    exact alwaysOk_bind (alwaysOk_pr _) fun _ => alwaysOk_pure _

theorem alwaysOk_check_import {r : FindSpecOutcome}
    (h : ∀ m, r ≠ FindSpecOutcome.uncaught m) :
    AlwaysOk (check_import r) := by
  cases r with
  | found => exact alwaysOk_pure _
  | notFound => exact alwaysOk_pure _
  | caught m => exact alwaysOk_pure _
  | uncaught m => exact absurd rfl (h m)

theorem alwaysOk_tsTest3 (env : TSEnv)
    (h : ∀ m, env.findSpec ≠ FindSpecOutcome.uncaught m) :
    AlwaysOk (tsTest3 env) := by
  unfold tsTest3
  refine alwaysOk_bind (alwaysOk_pr _) fun _ => ?_
  refine alwaysOk_bind (alwaysOk_check_import h) fun ok => ?_
  refine alwaysOk_dite ?_ ?_
  · exact alwaysOk_bind (alwaysOk_pr _) fun _ => alwaysOk_pure _
  · exact alwaysOk_bind (alwaysOk_pr _) fun _ =>
      alwaysOk_bind (alwaysOk_pr _) fun _ =>
        alwaysOk_bind (alwaysOk_pr _) fun _ => alwaysOk_pure _

theorem alwaysOk_tsTest4 (env : TSEnv) : AlwaysOk (tsTest4 env) := by
  unfold tsTest4
  refine alwaysOk_bind (alwaysOk_pr _) fun _ => ?_
  exact alwaysOk_pytry fun s =>
    alwaysOk_bind (alwaysOk_pr _) fun _ => alwaysOk_pure _

theorem alwaysOk_tsTest5 (env : TSEnv) : AlwaysOk (tsTest5 env) := by
  unfold tsTest5
  refine alwaysOk_bind (alwaysOk_pr _) fun _ => ?_
  refine alwaysOk_bind (alwaysOk_tsRunCommand _ _) fun t => ?_
  refine alwaysOk_dite ?_ ?_
  · exact alwaysOk_bind (alwaysOk_pr _) fun _ => alwaysOk_pure _
  · exact alwaysOk_bind (alwaysOk_pr _) fun _ =>
      alwaysOk_bind (alwaysOk_pr _) fun _ => alwaysOk_pure _

theorem alwaysOk_tsTest6 (env : TSEnv) : AlwaysOk (tsTest6 env) := by
  unfold tsTest6
  refine alwaysOk_bind (alwaysOk_pr _) fun _ => ?_
  exact alwaysOk_pytry fun s =>
    alwaysOk_bind (alwaysOk_pr _) fun _ => alwaysOk_pure _

/-- The summary of `test_system.py` (lines 166-180): once the six test
outcomes are known, `main` returns `(tests_passed, 6, r)` with `r = 0`
exactly when at least five tests passed. -/
theorem tsMain_fst_of_tests (env : TSEnv) (b1 b2 b3 b4 b5 b6 : Bool)
    (h1 : (tsTest1 env).1 = Except.ok b1)
    (h2 : (tsTest2 env).1 = Except.ok b2)
    (h3 : (tsTest3 env).1 = Except.ok b3)
    (h4 : (tsTest4 env).1 = Except.ok b4)
    (h5 : (tsTest5 env).1 = Except.ok b5)
    (h6 : (tsTest6 env).1 = Except.ok b6) :
    ∃ r : Nat,
      (tsMain env).1 = Except.ok
        (b1.toNat + b2.toNat + b3.toNat + b4.toNat + b5.toNat + b6.toNat,
         6, r) ∧
      (r = 0 ↔
        5 ≤ b1.toNat + b2.toNat + b3.toNat + b4.toNat + b5.toNat + b6.toNat) ∧
      (r = 0 ∨ r = 1) := by
  unfold tsMain
  simp only [bind_pr_fst, bind_fst_ok h1, bind_fst_ok h2, bind_fst_ok h3,
    bind_fst_ok h4, bind_fst_ok h5, bind_fst_ok h6]
  by_cases hc1 :
      (b1.toNat + b2.toNat + b3.toNat + b4.toNat + b5.toNat + b6.toNat == 6) =
        true
  · refine ⟨0, ?_, ?_, Or.inl rfl⟩
    · rw [if_pos hc1]
      rfl
    · have h6eq : b1.toNat + b2.toNat + b3.toNat + b4.toNat + b5.toNat +
          b6.toNat = 6 := by simpa using hc1
      constructor <;> intro <;> omega
  · by_cases hc2 :
        6 - 1 ≤ b1.toNat + b2.toNat + b3.toNat + b4.toNat + b5.toNat + b6.toNat
    · refine ⟨0, ?_, ?_, Or.inl rfl⟩
      · rw [if_neg hc1, if_pos hc2]
        rfl
      · constructor <;> intro <;> omega
    · refine ⟨1, ?_, ?_, Or.inr rfl⟩
      · rw [if_neg hc1, if_neg hc2]
        rfl
      · constructor <;> intro <;> omega

/-- When neither unhandled-exception path fires, `main` of
`test_system.py` returns normally with `total_tests = 6`, `tests_passed`
the count of passed tests, and return value `0` exactly when at least
five of the six tests passed. -/
theorem tsMain_spec (env : TSEnv) (hna : tsNoAbort env) :
    ∃ (b1 b2 b3 b4 b5 b6 : Bool) (r : Nat),
      (tsMain env).1 = Except.ok
        (b1.toNat + b2.toNat + b3.toNat + b4.toNat + b5.toNat + b6.toNat,
         6, r) ∧
      (r = 0 ↔
        5 ≤ b1.toNat + b2.toNat + b3.toNat + b4.toNat + b5.toNat + b6.toNat) ∧
      (r = 0 ∨ r = 1) := by
  obtain ⟨b1, h1⟩ := bool_fst_ok (alwaysOk_tsTest1 env)
  obtain ⟨b2, h2⟩ := bool_fst_ok (alwaysOk_tsTest2 env hna.1)
  obtain ⟨b3, h3⟩ := bool_fst_ok (alwaysOk_tsTest3 env hna.2)
  obtain ⟨b4, h4⟩ := bool_fst_ok (alwaysOk_tsTest4 env)
  obtain ⟨b5, h5⟩ := bool_fst_ok (alwaysOk_tsTest5 env)
  obtain ⟨b6, h6⟩ := bool_fst_ok (alwaysOk_tsTest6 env)
  exact ⟨b1, b2, b3, b4, b5, b6,
    tsMain_fst_of_tests env b1 b2 b3 b4 b5 b6 h1 h2 h3 h4 h5 h6⟩

/-- The six numbered check headers of `test_system.py`, in program
order. -/
def tsCheckHeaders : List String :=
  ["\n1. Checking for Razer devices...",
   "\n2. Checking kernel modules...",
   "\n3. Checking Python library...",
   "\n4. Testing device detection...",
   "\n5. Checking daemon status...",
   "\n6. Testing basic device functionality..."]

theorem printsOf_append (l₁ l₂ : Trace) :
    printsOf (l₁ ++ l₂) = printsOf l₁ ++ printsOf l₂ := by
  simp [printsOf]

theorem printsOf_cons_print (s : String) (l : Trace) :
    printsOf (.print s :: l) = s :: printsOf l := rfl

theorem tsTest1_head (env : TSEnv) : ∃ l, (tsTest1 env).2 =
    .print "\n1. Checking for Razer devices..." :: l := ⟨_, rfl⟩

theorem tsTest2_head (env : TSEnv) : ∃ l, (tsTest2 env).2 =
    .print "\n2. Checking kernel modules..." :: l := ⟨_, rfl⟩

theorem tsTest3_head (env : TSEnv) : ∃ l, (tsTest3 env).2 =
    .print "\n3. Checking Python library..." :: l := ⟨_, rfl⟩

theorem tsTest4_head (env : TSEnv) : ∃ l, (tsTest4 env).2 =
    .print "\n4. Testing device detection..." :: l := ⟨_, rfl⟩

theorem tsTest5_head (env : TSEnv) : ∃ l, (tsTest5 env).2 =
    .print "\n5. Checking daemon status..." :: l := ⟨_, rfl⟩

theorem tsTest6_head (env : TSEnv) : ∃ l, (tsTest6 env).2 =
    .print "\n6. Testing basic device functionality..." :: l := ⟨_, rfl⟩

theorem sublist_six {α : Type} (a1 a2 a3 a4 a5 a6 : α)
    (l1 l2 l3 l4 l5 l6 t : List α)
    (h1 : a1 ∈ l1) (h2 : a2 ∈ l2) (h3 : a3 ∈ l3) (h4 : a4 ∈ l4)
    (h5 : a5 ∈ l5) (h6 : a6 ∈ l6) :
    List.Sublist [a1, a2, a3, a4, a5, a6]
      (l1 ++ (l2 ++ (l3 ++ (l4 ++ (l5 ++ (l6 ++ t)))))) := by
  have s6 : List.Sublist [a6] (l6 ++ t) :=
    (List.singleton_sublist.mpr h6).trans (List.sublist_append_left _ _)
  have s5 : List.Sublist [a5, a6] (l5 ++ (l6 ++ t)) :=
    List.Sublist.append (List.singleton_sublist.mpr h5) s6
  have s4 : List.Sublist [a4, a5, a6] (l4 ++ (l5 ++ (l6 ++ t))) :=
    List.Sublist.append (List.singleton_sublist.mpr h4) s5
  have s3 : List.Sublist [a3, a4, a5, a6] (l3 ++ (l4 ++ (l5 ++ (l6 ++ t)))) :=
    List.Sublist.append (List.singleton_sublist.mpr h3) s4
  have s2 : List.Sublist [a2, a3, a4, a5, a6]
      (l2 ++ (l3 ++ (l4 ++ (l5 ++ (l6 ++ t))))) :=
    List.Sublist.append (List.singleton_sublist.mpr h2) s3
  exact List.Sublist.append (List.singleton_sublist.mpr h1) s2

/-- In every `test_system.py` run that does not die of one of the two
unhandled exceptions, the six check headers are printed, in their
numbered order. -/
theorem tsMain_headers (env : TSEnv) (hna : tsNoAbort env) :
    List.Sublist tsCheckHeaders (printsOf (tsMain env).2) := by
  obtain ⟨b1, h1⟩ := bool_fst_ok (alwaysOk_tsTest1 env)
  obtain ⟨b2, h2⟩ := bool_fst_ok (alwaysOk_tsTest2 env hna.1)
  obtain ⟨b3, h3⟩ := bool_fst_ok (alwaysOk_tsTest3 env hna.2)
  obtain ⟨b4, h4⟩ := bool_fst_ok (alwaysOk_tsTest4 env)
  obtain ⟨b5, h5⟩ := bool_fst_ok (alwaysOk_tsTest5 env)
  obtain ⟨b6, h6⟩ := bool_fst_ok (alwaysOk_tsTest6 env)
  obtain ⟨r1, e1⟩ := tsTest1_head env
  obtain ⟨r2, e2⟩ := tsTest2_head env
  obtain ⟨r3, e3⟩ := tsTest3_head env
  obtain ⟨r4, e4⟩ := tsTest4_head env
  obtain ⟨r5, e5⟩ := tsTest5_head env
  obtain ⟨r6, e6⟩ := tsTest6_head env
  unfold tsMain
  simp only [bind_pr_snd, bind_snd_ok h1, bind_snd_ok h2, bind_snd_ok h3,
    bind_snd_ok h4, bind_snd_ok h5, bind_snd_ok h6]
  rw [printsOf_cons_print, printsOf_cons_print]
  refine List.Sublist.cons _ (List.Sublist.cons _ ?_)
  rw [printsOf_append, printsOf_append, printsOf_append, printsOf_append,
    printsOf_append, printsOf_append]
  unfold tsCheckHeaders
  refine sublist_six _ _ _ _ _ _ _ _ _ _ _ _ _ ?_ ?_ ?_ ?_ ?_ ?_
  · rw [e1, printsOf_cons_print]; exact List.mem_cons_self _ _
  · rw [e2, printsOf_cons_print]; exact List.mem_cons_self _ _
  · rw [e3, printsOf_cons_print]; exact List.mem_cons_self _ _
  · rw [e4, printsOf_cons_print]; exact List.mem_cons_self _ _
  · rw [e5, printsOf_cons_print]; exact List.mem_cons_self _ _
  · rw [e6, printsOf_cons_print]; exact List.mem_cons_self _ _

/-! ## Per-check pass/fail feedback of `test_system.py` -/

theorem mem_bind_left {m : Tr α} (f : α → Tr β) {e : Event} (he : e ∈ m.2) :
    e ∈ (m >>= f).2 := by
  rcases m with ⟨r, ev⟩
  cases r with
  | ok a => exact List.mem_append_left _ he
  | error e2 => exact he

theorem mem_bind_right {m : Tr α} {a : α} (h : m.1 = .ok a) (f : α → Tr β)
    {e : Event} (he : e ∈ (f a).2) : e ∈ (m >>= f).2 := by
  rcases m with ⟨r, ev⟩
  cases r with
  | ok b => cases h; exact List.mem_append_right _ he
  | error e2 => cases h

theorem mem_pytry_left {m : Tr α} (h : String → Tr α) {e : Event}
    (he : e ∈ m.2) : e ∈ (pytry m h).2 := by
  rcases m with ⟨r, ev⟩
  cases r with
  | ok a => exact he
  | error e2 => exact List.mem_append_left _ he

theorem mem_pytry_handler {m : Tr α} {er : String} (h : m.1 = .error er)
    (hh : String → Tr α) {e : Event} (he : e ∈ (hh er).2) :
    e ∈ (pytry m hh).2 := by
  rcases m with ⟨r, ev⟩
  cases r with
  | ok a => cases h
  | error e2 => cases h; exact List.mem_append_right _ he

theorem mem_ite_left {c : Prop} [Decidable c] {A B : Tr α} (hc : c)
    {e : Event} (he : e ∈ A.2) : e ∈ (if c then A else B).2 := by
  rw [if_pos hc]
  exact he

theorem mem_ite_right {c : Prop} [Decidable c] {A B : Tr α} (hc : ¬c)
    {e : Event} (he : e ∈ B.2) : e ∈ (if c then A else B).2 := by
  rw [if_neg hc]
  exact he

theorem bind_pure_true_ne_ok_false {m : Tr α} :
    (m >>= fun _ => (pure true : Tr Bool)).1 ≠ Except.ok false := by
  rcases m with ⟨r, ev⟩
  cases r with
  | ok a => intro h; exact Bool.noConfusion (Except.ok.inj h)
  | error e => intro h; exact Except.noConfusion h

theorem pytry_ok_cases {m : Tr α} {hh : String → Tr α} {a : α}
    (h : (pytry m hh).1 = Except.ok a) :
    m.1 = Except.ok a ∨ ∃ e, m.1 = Except.error e ∧ (hh e).1 = Except.ok a := by
  rcases m with ⟨r, ev⟩
  cases r with
  | ok b => exact Or.inl h
  | error e => exact Or.inr ⟨e, rfl, h⟩

/-- Test 1 prints its `✓`/`✗` diagnostic line according to its outcome. -/
theorem tsTest1_feedback (env : TSEnv) :
    ((tsTest1 env).1 = Except.ok true →
      Event.print "✓ Found Razer device(s):" ∈ (tsTest1 env).2) ∧
    ((tsTest1 env).1 = Except.ok false →
      Event.print "✗ No Razer devices found" ∈ (tsTest1 env).2) := by
  have hrc : (tsRunCommand env.shell "lsusb | grep 1532").1 =
      Except.ok (runCommandResult (env.shell "lsusb | grep 1532") none) := by
    rw [tsRunCommand_spec]
  by_cases hc : ((runCommandResult (env.shell "lsusb | grep 1532") none).1 &&
      pyStrip (runCommandResult (env.shell "lsusb | grep 1532") none).2.1
        != "") = true
  · constructor
    · intro _
      unfold tsTest1
      refine mem_bind_right rfl _ ?_
      refine mem_bind_right hrc _ ?_
      refine mem_ite_left hc ?_
      exact mem_bind_left _ (List.mem_singleton_self _)
    · intro hfalse
      exfalso
      unfold tsTest1 at hfalse
      rw [bind_pr_fst, bind_fst_ok hrc] at hfalse
      simp only [] at hfalse
      rw [if_pos hc, bind_pr_fst,
        bind_fst_ok (unit_fst_ok (alwaysOk_forTr fun x _ => alwaysOk_pr _))]
        at hfalse
      exact Bool.noConfusion (Except.ok.inj hfalse)
  · constructor
    · intro htrue
      exfalso
      unfold tsTest1 at htrue
      rw [bind_pr_fst, bind_fst_ok hrc] at htrue
      simp only [] at htrue
      rw [if_neg hc, bind_pr_fst, bind_pr_fst] at htrue
      exact Bool.noConfusion (Except.ok.inj htrue)
    · intro _
      unfold tsTest1
      refine mem_bind_right rfl _ ?_
      refine mem_bind_right hrc _ ?_
      refine mem_ite_right hc ?_
      exact mem_bind_left _ (List.mem_singleton_self _)

/-- Test 2 prints its `✓`/`✗` diagnostic line according to its outcome
(the `✓` header precedes the module-name loop, so it is printed even on
a run where the loop later raises). -/
theorem tsTest2_feedback (env : TSEnv) :
    ((tsTest2 env).1 = Except.ok true →
      Event.print "✓ OpenRazer kernel modules loaded:" ∈ (tsTest2 env).2) ∧
    ((tsTest2 env).1 = Except.ok false →
      Event.print "✗ No OpenRazer kernel modules loaded" ∈ (tsTest2 env).2) := by
  have hrc : (tsRunCommand env.shell "lsmod | grep razer").1 =
      Except.ok (runCommandResult (env.shell "lsmod | grep razer") none) := by
    rw [tsRunCommand_spec]
  by_cases hc : ((runCommandResult (env.shell "lsmod | grep razer") none).1 &&
      pyStrip (runCommandResult (env.shell "lsmod | grep razer") none).2.1
        != "") = true
  · constructor
    · intro _
      unfold tsTest2
      refine mem_bind_right rfl _ ?_
      refine mem_bind_right hrc _ ?_
      refine mem_ite_left hc ?_
      exact mem_bind_left _ (List.mem_singleton_self _)
    · intro hfalse
      exfalso
      unfold tsTest2 at hfalse
      rw [bind_pr_fst, bind_fst_ok hrc] at hfalse
      simp only [] at hfalse
      rw [if_pos hc, bind_pr_fst] at hfalse
      exact bind_pure_true_ne_ok_false hfalse
  · constructor
    · intro htrue
      exfalso
      unfold tsTest2 at htrue
      rw [bind_pr_fst, bind_fst_ok hrc] at htrue
      simp only [] at htrue
      rw [if_neg hc, bind_pr_fst] at htrue
      exact Bool.noConfusion (Except.ok.inj htrue)
    · intro _
      unfold tsTest2
      refine mem_bind_right rfl _ ?_
      refine mem_bind_right hrc _ ?_
      refine mem_ite_right hc ?_
      exact mem_bind_left _ (List.mem_singleton_self _)

/-- Test 3 prints its `✓`/`✗` diagnostic line according to its outcome
(on the uncaught-raise path the test returns neither `True` nor
`False`). -/
theorem tsTest3_feedback (env : TSEnv) :
    ((tsTest3 env).1 = Except.ok true →
      Event.print "✓ OpenRazer Python library can be imported" ∈
        (tsTest3 env).2) ∧
    ((tsTest3 env).1 = Except.ok false →
      Event.print "✗ Cannot import OpenRazer Python library" ∈
        (tsTest3 env).2) := by
  rcases hfs : env.findSpec with _ | _ | m | m <;>
    (unfold tsTest3; rw [hfs]) <;> constructor
  · intro _
    refine mem_bind_right rfl _ ?_
    refine mem_bind_right rfl _ ?_
    refine mem_ite_left rfl ?_
    exact mem_bind_left _ (List.mem_singleton_self _)
  · intro h
    exact absurd (Except.ok.inj h) Bool.noConfusion
  · intro h
    exact absurd (Except.ok.inj h) Bool.noConfusion
  · intro _
    refine mem_bind_right rfl _ ?_
    refine mem_bind_right rfl _ ?_
    refine mem_ite_right (by simp) ?_
    exact mem_bind_left _ (List.mem_singleton_self _)
  · intro h
    exact absurd (Except.ok.inj h) Bool.noConfusion
  · intro _
    refine mem_bind_right rfl _ ?_
    refine mem_bind_right rfl _ ?_
    refine mem_ite_right (by simp) ?_
    exact mem_bind_left _ (List.mem_singleton_self _)
  · intro h
    exact Except.noConfusion h
  · intro h
    exact Except.noConfusion h

/-- Test 4 prints its `✓ Found n device(s):` line when it passes, and one
of its two `✗` diagnostics when it fails. -/
theorem tsTest4_feedback (env : TSEnv) :
    ((tsTest4 env).1 = Except.ok true →
      ∃ n : Nat, Event.print ("✓ Found " ++ toString n ++ " device(s):") ∈
        (tsTest4 env).2) ∧
    ((tsTest4 env).1 = Except.ok false →
      Event.print "✗ No devices detected by OpenRazer" ∈ (tsTest4 env).2 ∨
      ∃ e, Event.print ("✗ Error testing device detection: " ++ e) ∈
        (tsTest4 env).2) := by
  constructor
  · intro htrue
    unfold tsTest4 at htrue
    rw [bind_pr_fst] at htrue
    rcases pytry_ok_cases htrue with hok | ⟨e, herr, hhok⟩
    · rcases hidm : env.importDM with m | u
      · rw [hidm, liftE_error_bind] at hok
        exact Except.noConfusion hok
      · rw [hidm, liftE_ok_bind] at hok
        rcases hdm : env.dm1 with m | devs
        · rw [hdm, liftE_error_bind] at hok
          exact Except.noConfusion hok
        · rw [hdm, liftE_ok_bind] at hok
          by_cases hl : devs.length > 0
          · refine ⟨devs.length, ?_⟩
            unfold tsTest4
            refine mem_bind_right rfl _ ?_
            refine mem_pytry_left _ ?_
            refine mem_bind_right (show (liftE env.importDM).1 = .ok u by
              rw [hidm]; rfl) _ ?_
            refine mem_bind_right (show (liftE env.dm1).1 = .ok devs by
              rw [hdm]; rfl) _ ?_
            refine mem_ite_left hl ?_
            exact mem_bind_left _ (List.mem_singleton_self _)
          · exfalso
            rw [if_neg hl, bind_pr_fst, bind_pr_fst, bind_pr_fst, bind_pr_fst,
              bind_pr_fst] at hok
            exact Bool.noConfusion (Except.ok.inj hok)
    · exfalso
      rw [bind_pr_fst] at hhok
      exact Bool.noConfusion (Except.ok.inj hhok)
  · intro hfalse
    unfold tsTest4 at hfalse
    rw [bind_pr_fst] at hfalse
    rcases pytry_ok_cases hfalse with hok | ⟨e, herr, _⟩
    · rcases hidm : env.importDM with m | u
      · rw [hidm, liftE_error_bind] at hok
        exact Except.noConfusion hok
      · rw [hidm, liftE_ok_bind] at hok
        rcases hdm : env.dm1 with m | devs
        · rw [hdm, liftE_error_bind] at hok
          exact Except.noConfusion hok
        · rw [hdm, liftE_ok_bind] at hok
          by_cases hl : devs.length > 0
          · exfalso
            rw [if_pos hl, bind_pr_fst] at hok
            exact bind_pure_true_ne_ok_false hok
          · refine Or.inl ?_
            unfold tsTest4
            refine mem_bind_right rfl _ ?_
            refine mem_pytry_left _ ?_
            refine mem_bind_right (show (liftE env.importDM).1 = .ok u by
              rw [hidm]; rfl) _ ?_
            refine mem_bind_right (show (liftE env.dm1).1 = .ok devs by
              rw [hdm]; rfl) _ ?_
            refine mem_ite_right hl ?_
            exact mem_bind_left _ (List.mem_singleton_self _)
    · refine Or.inr ⟨e, ?_⟩
      unfold tsTest4
      refine mem_bind_right rfl _ ?_
      refine mem_pytry_handler herr _ ?_
      exact mem_bind_left _ (List.mem_singleton_self _)

/-- Test 5 prints its `✓`/`✗` diagnostic line according to its outcome. -/
theorem tsTest5_feedback (env : TSEnv) :
    ((tsTest5 env).1 = Except.ok true →
      Event.print "✓ OpenRazer daemon is running" ∈ (tsTest5 env).2) ∧
    ((tsTest5 env).1 = Except.ok false →
      Event.print "✗ OpenRazer daemon is not running" ∈ (tsTest5 env).2) := by
  have hrc : (tsRunCommand env.shell "systemctl is-active openrazer-daemon").1 =
      Except.ok (runCommandResult
        (env.shell "systemctl is-active openrazer-daemon") none) := by
    rw [tsRunCommand_spec]
  by_cases hc : ((runCommandResult
      (env.shell "systemctl is-active openrazer-daemon") none).1 &&
      substrOccurs "active" (runCommandResult
        (env.shell "systemctl is-active openrazer-daemon") none).2.1) = true
  · constructor
    · intro _
      unfold tsTest5
      refine mem_bind_right rfl _ ?_
      refine mem_bind_right hrc _ ?_
      refine mem_ite_left hc ?_
      exact mem_bind_left _ (List.mem_singleton_self _)
    · intro hfalse
      exfalso
      unfold tsTest5 at hfalse
      rw [bind_pr_fst, bind_fst_ok hrc] at hfalse
      simp only [] at hfalse
      rw [if_pos hc, bind_pr_fst] at hfalse
      exact Bool.noConfusion (Except.ok.inj hfalse)
  · constructor
    · intro htrue
      exfalso
      unfold tsTest5 at htrue
      rw [bind_pr_fst, bind_fst_ok hrc] at htrue
      simp only [] at htrue
      rw [if_neg hc, bind_pr_fst, bind_pr_fst] at htrue
      exact Bool.noConfusion (Except.ok.inj htrue)
    · intro _
      unfold tsTest5
      refine mem_bind_right rfl _ ?_
      refine mem_bind_right hrc _ ?_
      refine mem_ite_right hc ?_
      exact mem_bind_left _ (List.mem_singleton_self _)

/-- Test 6 prints no marker on success (lines 128-161 print only detail
lines), but a failing run always prints the `✗ Error testing device
functionality:` diagnostic of its handler. -/
theorem tsTest6_feedback (env : TSEnv) :
    (tsTest6 env).1 = Except.ok false →
      ∃ e, Event.print ("✗ Error testing device functionality: " ++ e) ∈
        (tsTest6 env).2 := by
  intro hfalse
  unfold tsTest6 at hfalse
  rw [bind_pr_fst] at hfalse
  rcases pytry_ok_cases hfalse with hok | ⟨e, herr, _⟩
  · rcases hidm : env.importDM with m | u
    · rw [hidm, liftE_error_bind] at hok
      exact Except.noConfusion hok
    · rw [hidm, liftE_ok_bind] at hok
      rcases hdm : env.dm2 with m | devs
      · rw [hdm, liftE_error_bind] at hok
        exact Except.noConfusion hok
      · rw [hdm, liftE_ok_bind] at hok
        exact absurd hok bind_pure_true_ne_ok_false
  · refine ⟨e, ?_⟩
    unfold tsTest6
    refine mem_bind_right rfl _ ?_
    refine mem_pytry_handler herr _ ?_
    exact mem_bind_left _ (List.mem_singleton_self _)

/-- `check_step` of `debug_workflow.py` always prints `✓ success_msg` on
a passing condition and `✗ failure_msg` on a failing one. -/
theorem dwCheckStep_feedback (name smsg fmsg tip : String) :
    Event.print ("✓ " ++ smsg) ∈ (dwCheckStep name true smsg fmsg tip).2 ∧
    Event.print ("✗ " ++ fmsg) ∈ (dwCheckStep name false smsg fmsg tip).2 := by
  constructor
  · unfold dwCheckStep
    refine mem_bind_right rfl _ ?_
    refine mem_bind_right rfl _ ?_
    refine mem_bind_right rfl _ ?_
    refine mem_bind_right rfl _ ?_
    refine mem_ite_left rfl ?_
    exact mem_bind_left _ (List.mem_singleton_self _)
  · unfold dwCheckStep
    refine mem_bind_right rfl _ ?_
    refine mem_bind_right rfl _ ?_
    refine mem_bind_right rfl _ ?_
    refine mem_bind_right rfl _ ?_
    refine mem_ite_right (by simp) ?_
    exact mem_bind_left _ (List.mem_singleton_self _)

/-! ## Transfer lemmas from event whitelists to trace observations -/

theorem filterMap_all_of_evsOk {p : Event → Bool} {sel : Event → Option β}
    {q : β → Bool} {m : Tr α}
    (hpq : ∀ e, p e = true → ∀ b, sel e = some b → q b = true)
    (h : EvsOk p m) : (m.2.filterMap sel).all q = true := by
  rw [List.all_eq_true]
  intro x hx
  obtain ⟨e, he, hex⟩ := List.mem_filterMap.1 hx
  exact hpq e (h e he) x hex

theorem filterMap_nil_of_evsOk {p : Event → Bool} {sel : Event → Option β}
    {m : Tr α} (hp : ∀ e, p e = true → sel e = none) (h : EvsOk p m) :
    m.2.filterMap sel = [] := by
  rw [List.filterMap_eq_nil_iff]
  intro e he
  exact hp e (h e he)

/-- The tip argument of each `check_step` evaluation along a trace. -/
def tipsOf (l : Trace) : List String :=
  l.filterMap fun e => match e with | .step _ _ tip => some tip | _ => none

/-! ## The brightness save/set/read/restore pattern (both scripts) -/

theorem tsLightingTest_brightness (d : TSDevice) (b0 c : Nat)
    (h0 : d.readBrightness 0 = .ok b0)
    (hw0 : d.writeBrightness 0 128 = .ok ())
    (h1 : d.readBrightness 1 = .ok c)
    (hw1 : d.writeBrightness 1 b0 = .ok ()) :
    writesOf (tsLightingTest d).2 = [128, b0] ∧
    (("  - Brightness control: ✓" ∈ printsOf (tsLightingTest d).2) ↔
      c = 128) := by
  have htr : (tsLightingTest d).2 =
      [.attrRead "lighting_led_matrix" "brightness",
       .brightnessWrite "lighting_led_matrix" 128,
       .attrRead "lighting_led_matrix" "brightness",
       .print (if c == 128 then "  - Brightness control: ✓"
               else "  - Brightness control: ✗"),
       .brightnessWrite "lighting_led_matrix" b0] := by
    unfold tsLightingTest rdBrightness wrBrightness
    simp only [tr_bind_def, pr, emit, liftE, h0, hw0, h1, hw1, trBind,
      pure_tr, pytry]
    by_cases hc : (c == 128) = true <;> simp [hc, trBind]
  constructor
  · rw [htr]
    rfl
  · rw [htr]
    by_cases hc : c = 128
    · simp [hc, printsOf]
    · have hc' : (c == 128) = false := by simpa using hc
      simp only [hc', if_false]
      constructor
      · intro hmem
        simp [printsOf] at hmem
      · intro h128
        exact absurd h128 hc

theorem capBrightnessTest_brightness (m : MatrixDev) (b0 c : Nat)
    (h0 : m.readBrightness 0 = .ok b0)
    (hw0 : m.writeBrightness 0 128 = .ok ())
    (h1 : m.readBrightness 1 = .ok c)
    (hw1 : m.writeBrightness 1 b0 = .ok ()) :
    writesOf (capBrightnessTest m).2 = [128, b0] := by
  have htr : (capBrightnessTest m).2 =
      [.attrRead "lighting_led_matrix" "brightness",
       .print ("  Current brightness: " ++ toString b0),
       .brightnessWrite "lighting_led_matrix" 128,
       .sleepMs 100,
       .attrRead "lighting_led_matrix" "brightness",
       .print ("  Set brightness to 128, got: " ++ toString c),
       .brightnessWrite "lighting_led_matrix" b0,
       .print "  ✓ Brightness control working"] := by
    unfold capBrightnessTest rdBrightness wrBrightness
    simp only [tr_bind_def, pr, emit, liftE, h0, hw0, h1, hw1, trBind,
      pure_tr, pytry]
    simp
  rw [htr]
  rfl

theorem finalBrightness_restore (x b0 : Nat) :
    finalBrightness x [128, b0] = b0 := rfl

/-! ## Concrete environments for witnesses and counterexamples -/

/-- A demo operating system: Razer hardware visible to `lsusb`, kernel
modules not loaded, daemon inactive, Python import fine, device-detection
script finding nothing. -/
def demoShell : String → ShellBehavior := fun cmd =>
  if cmd = "lsmod | grep razer" then .runs 0 1 "" ""
  else if cmd = "systemctl is-active openrazer-daemon" then
    .runs 0 3 "inactive" ""
  else if cmd = "python3 /tmp/test_devices.py" then
    .runs 0 0 "no devices" ""
  else .runs 0 0 "x" ""

def dwDemoEnv : DWEnv :=
  { shell := demoShell, openWrite := .ok (), removeRes := .ok () }

/-- A system where only the Python client-library import fails. -/
def noPyShell : String → ShellBehavior := fun cmd =>
  if cmd = "python3 -c 'from openrazer.client import DeviceManager; print(\"Import successful\")'"
  then .runs 0 1 "" "ModuleNotFoundError: No module named 'openrazer'"
  else .runs 0 0 "x" ""

def dwEnvNoPy : DWEnv :=
  { shell := noPyShell, openWrite := .ok (), removeRes := .ok () }

/-- A shell where every command takes 10^9 seconds yet succeeds. -/
def slowShell : String → ShellBehavior := fun _ => .runs 1000000000 0 "x" ""

def tsDemoDevice : TSDevice :=
  { name := .ok "Razer BlackWidow", serial := .ok "PM1234",
    type := .ok "keyboard", firmware_version := .ok "v1.0",
    driver_version := .ok "3.0.1", hasFx := true, hasMatrix := true,
    readBrightness := fun i => if i = 0 then .ok 70 else .ok 128,
    writeBrightness := fun _ _ => .ok () }

def tsDemoEnv : TSEnv :=
  { shell := demoShell, findSpec := .found, importDM := .ok (),
    dm1 := .ok [tsDemoDevice], dm2 := .ok [tsDemoDevice] }

def tsSlowEnv : TSEnv :=
  { shell := slowShell, findSpec := .found, importDM := .ok (),
    dm1 := .ok [], dm2 := .ok [] }

/-- A system whose `lsmod | grep razer` output contains a whitespace-only
interior line (as e.g. a doubled newline produces). -/
def tsBlankLineEnv : TSEnv :=
  { shell := fun cmd =>
      if cmd = "lsmod | grep razer" then
        .runs 0 0 "razerkbd 16384 0\n \nrazermouse 12288 0" ""
      else demoShell cmd,
    findSpec := .found, importDM := .ok (), dm1 := .ok [], dm2 := .ok [] }

/-- On such a system, `line.split()[0]` (test_system.py line 58) raises
an `IndexError` that no handler catches: `main` dies instead of
returning. -/
theorem tsMain_aborts_on_blank_module_line :
    (tsMain tsBlankLineEnv).1 =
      Except.error "IndexError: list index out of range" := rfl

/-- A system where `find_spec` raises an exception outside
`check_import`'s `except (ImportError, ModuleNotFoundError,
ValueError)`. -/
def tsFindSpecRaisesEnv : TSEnv :=
  { shell := demoShell, findSpec := .uncaught "PermissionError: denied",
    importDM := .ok (), dm1 := .ok [], dm2 := .ok [] }

/-- Such a raise passes through `check_import`'s narrow `except` and out
of `main`, which has no handler around test 3. -/
theorem tsMain_aborts_on_uncaught_find_spec :
    (tsMain tsFindSpecRaisesEnv).1 =
      Except.error "PermissionError: denied" := rfl

def capDemoMatrix : MatrixDev :=
  { readBrightness := fun i => if i = 0 then .ok 70 else .ok 128,
    writeBrightness := fun _ _ => .ok (),
    staticRes := fun _ => .ok (),
    hasEffect := fun _ => true,
    effectRes := fun _ => .ok () }

/-- A fully capable device: every probed attribute present and readable,
every effect available. -/
def capDemoDevice : CapDevice :=
  { name := .ok "Razer DeathAdder", type := .ok "mouse",
    serial := .ok "PM5678", firmware_version := .ok "v2.0",
    driver_version := .ok "3.0.1",
    has_device_mode := true, device_mode := .ok "0:0",
    has_poll_rate := true, poll_rate := .ok "1000",
    hasFx := true, hasMatrix := true, matrix := capDemoMatrix,
    hasLogo := true, logoStatic := .ok (),
    hasScroll := true, scrollStatic := .ok (),
    has_dpi := true, dpi := .ok "(800, 800)",
    has_available_dpi := true, available_dpi := .ok "[400, 800]",
    has_battery_level := true, battery_level := .ok "80",
    has_is_charging := true, is_charging := .ok "False",
    has_idle_time := true, idle_time := .ok "600",
    has_game_mode_led := true, game_mode_led := .ok "False",
    printAttrsRes := .ok () }

def capDemoEnv : CapEnv := { dmInit := .ok [capDemoDevice] }

/-- The demo device with an unreadable serial number: the `device.serial`
read in `test_device_info` raises. -/
def capBadDevice : CapDevice :=
  { capDemoDevice with serial := .error "DBus.Error.NoReply: serial read failed" }

def capBadEnv : CapEnv := { dmInit := .ok [capBadDevice] }

/-! ## Claim theorems -/

/-- C1, counterexample.  In `test_device_capabilities.py` the
`device.serial` read of `test_device_info` (line 19) is wrapped in no
exception handler, and neither is the device loop of `main` (lines
215-228): on a device whose serial read raises, the run of the script
ends in a propagating exception (the model's `.error` result), not in a
normal return.  This falsifies the claim that every fallible
client-library attribute read is wrapped so that no exception propagates
out. -/
theorem c1_counterexample :
    (capMain capBadEnv).1 =
      Except.error "DBus.Error.NoReply: serial read failed" := rfl

/-- C1, amended.  In `test_system.py` every shell command, attribute
read, effect call and `DeviceManager()` construction is wrapped, so no
exception raised by such a call escapes `main`: whatever those calls do,
`main` returns normally - provided neither of its two non-call
unhandled-exception paths fires (`line.split()[0]` on a whitespace-only
`lsmod` output line, line 58, and a `find_spec` raise outside
`check_import`'s narrow `except`, lines 13-19; see
`tsMain_aborts_on_blank_module_line` and
`tsMain_aborts_on_uncaught_find_spec`).  In `debug_workflow.py` any
exception escaping `main` (a `KeyboardInterrupt` or any other
exception) is caught by the `__main__` handler, which exits with
code 1.  `test_device_capabilities.py` however has unwrapped attribute
reads (see the counterexample). -/
theorem c1_amended_no_unhandled :
    (∀ env : TSEnv, tsNoAbort env → (tsMain env).1.isOk = true) ∧
    (∀ e : PyInterrupt, dwTopLevel (Except.error e) = 1) := by
  constructor
  · intro env hna
    obtain ⟨b1, b2, b3, b4, b5, b6, r, hf, _, _⟩ := tsMain_spec env hna
    rw [hf]
    rfl
  · intro e
    cases e <;> rfl

/-- Witness for C1: the demo environment satisfies `tsNoAbort` (its
`lsmod` check fails, so the module loop never runs, and `find_spec`
returns a spec), and its run of `test_system.py` returns normally. -/
theorem c1_witness :
    tsNoAbort tsDemoEnv ∧ (tsMain tsDemoEnv).1.isOk = true := by
  have hna : tsNoAbort tsDemoEnv := ⟨by decide, fun m hm => by cases hm⟩
  exact ⟨hna, c1_amended_no_unhandled.1 tsDemoEnv hna⟩

/-- C2, counterexample.  `test_system.py`'s `run_command` passes **no**
timeout to `subprocess.run` (the recorded `subp` event carries `none`):
on a shell where `lsusb | grep 1532` runs for 10^9 seconds the call
still completes normally, and the same command under
`debug_workflow.py`'s `run_command` (timeout 10) fails with "Timeout".
This falsifies "every subprocess call is made with a timeout". -/
theorem c2_counterexample :
    tsRunCommand slowShell "lsusb | grep 1532" =
      (Except.ok (true, "x", ""), [Event.subp "lsusb | grep 1532" none]) ∧
    ("lsusb | grep 1532", (none : Option Nat)) ∈
      subpsOf (tsMain tsSlowEnv).2 ∧
    (dwRunCommand slowShell "lsusb | grep 1532"
      "Checking for Razer devices").1 =
      Except.ok (false, "", "Timeout") := by
  refine ⟨rfl, by decide, rfl⟩

/-- C2, amended.  Each `run_command` helper invokes `subprocess.run`
exactly once (one `subp` event, no retry); `debug_workflow.py` passes
`timeout=10` and converts an expiry into `(False, "", "Timeout")` without
raising, while `test_system.py` passes no timeout at all but also
converts any exception into a `(False, "", msg)` failure result. -/
theorem c2_amended_timeouts :
    (∀ (w : String → ShellBehavior) (cmd desc : String),
      subpsOf (dwRunCommand w cmd desc).2 = [(cmd, some 10)]) ∧
    (∀ (w : String → ShellBehavior) (cmd : String),
      subpsOf (tsRunCommand w cmd).2 = [(cmd, none)]) ∧
    (∀ (w : String → ShellBehavior) (cmd desc : String) (d : Nat) (rc : Int)
      (out err : String), w cmd = ShellBehavior.runs d rc out err → 10 < d →
      (dwRunCommand w cmd desc).1 = Except.ok (false, "", "Timeout")) ∧
    (∀ (w : String → ShellBehavior) (cmd m : String),
      w cmd = ShellBehavior.raises m →
      (tsRunCommand w cmd).1 = Except.ok (false, "", m)) := by
  refine ⟨?_, ?_, ?_, ?_⟩
  · intro w cmd desc
    unfold dwRunCommand
    simp only [tr_bind_def, pr, emit, trBind_ok, subprocessRun_spec]
    cases subprocessOutcome (w cmd) (some 10) with
    | done rc out err =>
      by_cases h1 : (out != "") = true <;> by_cases h2 : (err != "") = true <;>
        simp [h1, h2, pr, emit, tr_bind_def, trBind, pure_tr, subpsOf]
    | timedOut => simp [pr, emit, tr_bind_def, trBind, pure_tr, subpsOf]
    | excFail m => simp [pr, emit, tr_bind_def, trBind, pure_tr, subpsOf]
  · intro w cmd
    rw [tsRunCommand_spec]
    rfl
  · intro w cmd desc d rc out err hw hd
    rw [dwRunCommand_fst, hw]
    simp [runCommandResult, subprocessOutcome, hd]
  · intro w cmd m hw
    have : (tsRunCommand w cmd).1 = .ok (runCommandResult (w cmd) none) := by
      rw [tsRunCommand_spec]
    rw [this, hw]
    rfl

/-- C2, witness: the amended theorem applied at the slow shell and at a
raising shell, the hypotheses discharged on concrete inputs. -/
theorem c2_witness :
    (dwRunCommand slowShell "lsusb | grep 1532" "Checking for Razer devices").1 =
      Except.ok (false, "", "Timeout") ∧
    (tsRunCommand (fun _ => .raises "OSError") "lsusb | grep 1532").1 =
      Except.ok (false, "", "OSError") :=
  ⟨c2_amended_timeouts.2.2.1 slowShell "lsusb | grep 1532"
      "Checking for Razer devices" 1000000000 0 "x" "" rfl (by decide),
   c2_amended_timeouts.2.2.2 (fun _ => .raises "OSError")
      "lsusb | grep 1532" "OSError" rfl⟩

/-- The device attributes the spec claims are read - modelled from the
spec: "read attributes (name, serial, firmware_version, driver_version,
fx, dpi, battery_level)". -/
def c3SpecAttrs : List String :=
  ["name", "serial", "firmware_version", "driver_version", "fx", "dpi",
   "battery_level"]

/-- C3, counterexample.  The scripts also read `device.type` (among
others): on the demo run of `test_device_capabilities.py` the trace
records an attribute read of `type`, which is not in the spec's list. -/
theorem c3_counterexample :
    (("device", "type") ∈ attrsOf (capMain capDemoEnv).2) ∧
    ¬ ("type" ∈ c3SpecAttrs) := by
  constructor
  · decide
  · decide

/-- C3, amended.  Across every run of the three scripts, the device
attributes read are exactly `name`, `type`, `serial`,
`firmware_version`, `driver_version`, `device_mode`, `poll_rate`, `fx`,
`dpi`, `available_dpi`, `battery_level`, `is_charging`, `idle_time`,
`game_mode_led` (plus `fx.lighting_led_matrix` and its `brightness`),
and the effect methods invoked are exactly `static`, `breath_random`,
`wave`, `reactive`, `spectrum`: every run stays inside this surface
(first five conjuncts), and one run of the capability script exercises
all of it (last two). -/
theorem c3_amended_interface_surface :
    (∀ env : CapEnv, ((attrsOf (capMain env).2).all fun p =>
      (p.1 == "device" && capDeviceAttrs.contains p.2) ||
      (p.1 == "fx" && p.2 == "lighting_led_matrix") ||
      (p.1 == "lighting_led_matrix" && p.2 == "brightness")) = true) ∧
    (∀ env : CapEnv,
      ((fxOf (capMain env).2).all fun p => fxMethods.contains p.2) = true) ∧
    (∀ env : TSEnv, ((attrsOf (tsMain env).2).all fun p =>
      (p.1 == "device" && tsDeviceAttrs.contains p.2) ||
      (p.1 == "lighting_led_matrix" && p.2 == "brightness")) = true) ∧
    (∀ env : TSEnv, fxOf (tsMain env).2 = []) ∧
    (∀ env : DWEnv, attrsOf (dwMain env).2 = []) ∧
    (capDeviceAttrs.all
      (fun a => (attrsOf (capMain capDemoEnv).2).contains ("device", a)) =
      true) ∧
    (fxMethods.all
      (fun f => ((fxOf (capMain capDemoEnv).2).map Prod.snd).contains f) =
      true) := by
  refine ⟨?_, ?_, ?_, ?_, ?_, by decide, by decide⟩
  · intro env
    refine filterMap_all_of_evsOk ?_ (evsOk_capMain env)
    intro e he b hb
    cases e <;> cases hb
    exact he
  · intro env
    refine filterMap_all_of_evsOk ?_ (evsOk_capMain env)
    intro e he b hb
    cases e <;> cases hb
    rw [capGoodEv, Bool.and_eq_true] at he
    exact he.2
  · intro env
    refine filterMap_all_of_evsOk ?_ (evsOk_tsMain env)
    intro e he b hb
    cases e <;> cases hb
    exact he
  · intro env
    refine filterMap_nil_of_evsOk ?_ (evsOk_tsMain env)
    intro e he
    cases e <;> first | rfl | simp [tsGoodEv] at he
  · intro env
    refine filterMap_nil_of_evsOk ?_ (evsOk_dwMain env)
    intro e he
    cases e <;> first | rfl | simp [dwGoodEv] at he

/-- The operating-system programs the spec claims are invoked - modelled
from the spec: "They also shell out to `lsusb`, `lsmod`, `dkms`,
`systemctl`, `journalctl`, and `find`". -/
def c4SpecPrograms : List String :=
  ["lsusb", "lsmod", "dkms", "systemctl", "journalctl", "find"]

/-- The programs actually invoked as pipeline stages by the scripts'
shell commands (read off the ten command strings; `uname` additionally
appears inside a `$(uname -r)` command substitution). -/
def razerPrograms : List String :=
  ["lsusb", "grep", "lsmod", "dkms", "find", "systemctl", "journalctl",
   "python3", "groups"]

theorem headsOfTrace_all {l : Trace} (cmds progs : List String)
    (hsub : ((subpsOf l).all fun p => cmds.contains p.1) = true)
    (hcp : ∀ c ∈ cmds, ((pipelineHeads c).all fun h => progs.contains h) = true) :
    ((headsOfTrace l).all fun h => progs.contains h) = true := by
  rw [List.all_eq_true]
  intro x hx
  rw [headsOfTrace] at hx
  obtain ⟨ys, hys, hxin⟩ := List.mem_flatten.1 hx
  obtain ⟨p, hp, rfl⟩ := List.mem_map.1 hys
  have hc : cmds.contains p.1 = true := List.all_eq_true.1 hsub p hp
  have hcm : p.1 ∈ cmds := by simpa using hc
  exact List.all_eq_true.1 (hcp p.1 hcm) x hxin

/-- C4, counterexample.  The scripts also invoke `python3`, `grep` and
`groups` as pipeline stages: on the demo run of `debug_workflow.py` the
trace records them, and none is in the spec's program list. -/
theorem c4_counterexample :
    ("python3" ∈ headsOfTrace (dwMain dwDemoEnv).2) ∧
    ("grep" ∈ headsOfTrace (dwMain dwDemoEnv).2) ∧
    ("groups" ∈ headsOfTrace (dwMain dwDemoEnv).2) ∧
    ¬ ("python3" ∈ c4SpecPrograms) ∧
    ¬ ("grep" ∈ c4SpecPrograms) ∧
    ¬ ("groups" ∈ c4SpecPrograms) := by
  refine ⟨by decide, by decide, by decide, by decide, by decide, by decide⟩

/-- C4, amended.  The programs the scripts shell out to (as pipeline
stages) are exactly `lsusb`, `grep`, `lsmod`, `dkms`, `find`,
`systemctl`, `journalctl`, `python3` and `groups` (with `uname` also
appearing inside a command substitution of one `find` command): every
run stays inside this set, `test_device_capabilities.py` runs no
subprocess at all, and one `debug_workflow.py` run exercises all nine
programs. -/
theorem c4_amended_programs :
    (∀ env : DWEnv,
      ((headsOfTrace (dwMain env).2).all fun h => razerPrograms.contains h) =
        true) ∧
    (∀ env : TSEnv,
      ((headsOfTrace (tsMain env).2).all fun h => razerPrograms.contains h) =
        true) ∧
    (∀ env : CapEnv, subpsOf (capMain env).2 = []) ∧
    (razerPrograms.all
      (fun p => (headsOfTrace (dwMain dwDemoEnv).2).contains p) = true) := by
  refine ⟨?_, ?_, ?_, by decide⟩
  · intro env
    refine headsOfTrace_all dwCmds razerPrograms ?_ (by decide)
    refine filterMap_all_of_evsOk ?_ (evsOk_dwMain env)
    intro e he b hb
    cases e <;> cases hb
    rw [dwGoodEv, Bool.and_eq_true] at he
    exact he.1
  · intro env
    refine headsOfTrace_all tsCmds razerPrograms ?_ (by decide)
    refine filterMap_all_of_evsOk ?_ (evsOk_tsMain env)
    intro e he b hb
    cases e <;> cases hb
    rw [tsGoodEv, Bool.and_eq_true] at he
    exact he.1
  · intro env
    refine filterMap_nil_of_evsOk ?_ (evsOk_capMain env)
    intro e he
    cases e <;> first | rfl | simp [capGoodEv] at he

/-- C5, counterexample.  `debug_workflow.py` does not execute its checks
unconditionally: on a run where the Python-library import fails, the
"Python Library" check runs but the "Device Detection" check (the device
property reads) is skipped. -/
theorem c5_counterexample :
    ("Python Library" ∈ stepNames (dwMain dwEnvNoPy).2) ∧
    ¬ ("Device Detection" ∈ stepNames (dwMain dwEnvNoPy).2) := by
  refine ⟨by decide, by decide⟩

/-- The eight `check_step` names of `debug_workflow.py` in program
order. -/
def dwStepOrder : List String :=
  ["Hardware Detection", "Kernel Module Loading", "Module Files",
   "Device Files", "Daemon Status", "Python Library", "Device Detection",
   "User Permissions"]

/-- The `check_step`s every `debug_workflow.py` run executes (the other
three are conditional). -/
def dwAlwaysSteps : List String :=
  ["Hardware Detection", "Kernel Module Loading", "Module Files",
   "Daemon Status", "Python Library"]

/-- C5, amended.  The checks run in a fixed relative order but not
unconditionally, and the pass/fail feedback is per-check, not uniform:
a `test_system.py` run that does not die of one of its two unhandled
exceptions prints its six check headers in numbered order; its checks
1-5 print a fixed `✓` line when they pass and a fixed `✗` line when
they fail (check 4's `✓ Found n device(s):` carries the device count
and its failure is one of two `✗` diagnostics), while check 6 prints a
`✗` diagnostic only on failure and no marker on success.  Every
`debug_workflow.py` `check_step` prints `✓ success_msg` or
`✗ failure_msg`, and every run executes its `check_step`s as a
subsequence of the fixed eight-step order, always including hardware,
kernel-module, module-file, daemon and Python-library checks (sysfs
device files and device detection are conditional, see the
counterexample). -/
theorem c5_amended_check_order :
    (∀ env : TSEnv, tsNoAbort env →
      List.Sublist tsCheckHeaders (printsOf (tsMain env).2)) ∧
    (∀ env : TSEnv,
      ((tsTest1 env).1 = Except.ok true →
        Event.print "✓ Found Razer device(s):" ∈ (tsTest1 env).2) ∧
      ((tsTest1 env).1 = Except.ok false →
        Event.print "✗ No Razer devices found" ∈ (tsTest1 env).2) ∧
      ((tsTest2 env).1 = Except.ok true →
        Event.print "✓ OpenRazer kernel modules loaded:" ∈ (tsTest2 env).2) ∧
      ((tsTest2 env).1 = Except.ok false →
        Event.print "✗ No OpenRazer kernel modules loaded" ∈
          (tsTest2 env).2) ∧
      ((tsTest3 env).1 = Except.ok true →
        Event.print "✓ OpenRazer Python library can be imported" ∈
          (tsTest3 env).2) ∧
      ((tsTest3 env).1 = Except.ok false →
        Event.print "✗ Cannot import OpenRazer Python library" ∈
          (tsTest3 env).2) ∧
      ((tsTest4 env).1 = Except.ok true →
        ∃ n : Nat, Event.print ("✓ Found " ++ toString n ++ " device(s):") ∈
          (tsTest4 env).2) ∧
      ((tsTest4 env).1 = Except.ok false →
        Event.print "✗ No devices detected by OpenRazer" ∈ (tsTest4 env).2 ∨
        ∃ e, Event.print ("✗ Error testing device detection: " ++ e) ∈
          (tsTest4 env).2) ∧
      ((tsTest5 env).1 = Except.ok true →
        Event.print "✓ OpenRazer daemon is running" ∈ (tsTest5 env).2) ∧
      ((tsTest5 env).1 = Except.ok false →
        Event.print "✗ OpenRazer daemon is not running" ∈ (tsTest5 env).2) ∧
      ((tsTest6 env).1 = Except.ok false →
        ∃ e, Event.print ("✗ Error testing device functionality: " ++ e) ∈
          (tsTest6 env).2)) ∧
    (∀ name smsg fmsg tip : String,
      Event.print ("✓ " ++ smsg) ∈ (dwCheckStep name true smsg fmsg tip).2 ∧
      Event.print ("✗ " ++ fmsg) ∈ (dwCheckStep name false smsg fmsg tip).2) ∧
    (∀ env : DWEnv, List.Sublist (stepNames (dwMain env).2) dwStepOrder) ∧
    (∀ env : DWEnv, List.Sublist dwAlwaysSteps (stepNames (dwMain env).2)) := by
  refine ⟨tsMain_headers, ?_, dwCheckStep_feedback, ?_, ?_⟩
  · intro env
    exact ⟨(tsTest1_feedback env).1, (tsTest1_feedback env).2,
      (tsTest2_feedback env).1, (tsTest2_feedback env).2,
      (tsTest3_feedback env).1, (tsTest3_feedback env).2,
      (tsTest4_feedback env).1, (tsTest4_feedback env).2,
      (tsTest5_feedback env).1, (tsTest5_feedback env).2,
      tsTest6_feedback env⟩
  · intro env
    have hspec := dwMain_spec env
    by_cases hpw : dwCondPython env = true
    · rcases how : env.openWrite with m | u
      · obtain ⟨_, hs⟩ := hspec.1 hpw m how
        rw [stepNames, hs]
        unfold dwStepsPrefix dwDevFilesOpt
        by_cases hdf : (dwCondHw env && dwCondModules env) = true <;>
          simp [hdf, optStep, dwStepOrder]
      · cases u
        obtain ⟨_, hs⟩ := hspec.2 (Or.inr how)
        rw [stepNames, hs]
        unfold dwStepsFull dwStepsPrefix dwDevFilesOpt dwDetectOpt
        by_cases hdf : (dwCondHw env && dwCondModules env) = true <;>
          simp [hdf, hpw, optStep, dwStepOrder]
    · have hpw' : dwCondPython env = false := by
        cases h : dwCondPython env
        · rfl
        · exact absurd h hpw
      obtain ⟨_, hs⟩ := hspec.2 (Or.inl hpw')
      rw [stepNames, hs]
      unfold dwStepsFull dwStepsPrefix dwDevFilesOpt dwDetectOpt
      by_cases hdf : (dwCondHw env && dwCondModules env) = true <;>
        simp [hdf, hpw', optStep, dwStepOrder]
  · intro env
    have hspec := dwMain_spec env
    by_cases hpw : dwCondPython env = true
    · rcases how : env.openWrite with m | u
      · obtain ⟨_, hs⟩ := hspec.1 hpw m how
        rw [stepNames, hs]
        unfold dwStepsPrefix dwDevFilesOpt
        by_cases hdf : (dwCondHw env && dwCondModules env) = true <;>
          simp [hdf, optStep, dwAlwaysSteps]
      · cases u
        obtain ⟨_, hs⟩ := hspec.2 (Or.inr how)
        rw [stepNames, hs]
        unfold dwStepsFull dwStepsPrefix dwDevFilesOpt dwDetectOpt
        by_cases hdf : (dwCondHw env && dwCondModules env) = true <;>
          simp [hdf, hpw, optStep, dwAlwaysSteps]
    · have hpw' : dwCondPython env = false := by
        cases h : dwCondPython env
        · rfl
        · exact absurd h hpw
      obtain ⟨_, hs⟩ := hspec.2 (Or.inl hpw')
      rw [stepNames, hs]
      unfold dwStepsFull dwStepsPrefix dwDevFilesOpt dwDetectOpt
      by_cases hdf : (dwCondHw env && dwCondModules env) = true <;>
        simp [hdf, hpw', optStep, dwAlwaysSteps]

/-- Witness for C5: the demo environment aborts nowhere, so its run
prints the six headers in order, and its failing kernel-module check
prints its `✗` line. -/
theorem c5_witness :
    tsNoAbort tsDemoEnv ∧
    List.Sublist tsCheckHeaders (printsOf (tsMain tsDemoEnv).2) ∧
    Event.print "✗ No OpenRazer kernel modules loaded" ∈
      (tsTest2 tsDemoEnv).2 := by
  have hna : tsNoAbort tsDemoEnv := ⟨by decide, fun m hm => by cases hm⟩
  exact ⟨hna, c5_amended_check_order.1 tsDemoEnv hna,
    ((c5_amended_check_order.2.1 tsDemoEnv).2.2.2.1) (by rfl)⟩

/-- C6, confirmed.  Every `time.sleep` of the scripts has one of the
fixed durations 0.1 s, 0.5 s, 1 s (modelled in milliseconds), and a
sleep only ever happens after a lighting command (a colour/effect method
call or a brightness write) has been issued; the two diagnostic scripts
never sleep at all. -/
theorem c6_sleeps_constant_and_guarded :
    (∀ env : CapEnv,
      ((sleepsOf (capMain env).2).all fun ms => sleepDurations.contains ms) =
        true) ∧
    (∀ env : CapEnv, guardOk false (capMain env).2 = true) ∧
    (∀ env : TSEnv, sleepsOf (tsMain env).2 = []) ∧
    (∀ env : DWEnv, sleepsOf (dwMain env).2 = []) := by
  refine ⟨?_, fun env => sleepSafe_capMain env false, ?_, ?_⟩
  · intro env
    refine filterMap_all_of_evsOk ?_ (evsOk_capMain env)
    intro e he b hb
    cases e <;> cases hb
    exact he
  · intro env
    exact sleepsOf_nil_of_evsOk (fun ms => rfl) (evsOk_tsMain env)
  · intro env
    exact sleepsOf_nil_of_evsOk (fun ms => rfl) (evsOk_dwMain env)

/-- C7, counterexample.  In `test_system.py`, when the kernel-module
check fails the script prints only the diagnostic
"✗ No OpenRazer kernel modules loaded" and moves straight on to the next
check header — no remediation message accompanies that failure.  (The
two prints are consecutive in the trace.) -/
theorem c7_counterexample :
    adjPrints "✗ No OpenRazer kernel modules loaded"
      "\n3. Checking Python library..." (tsMain tsDemoEnv).2 = true := by rfl

/-- C7, amended.  In `debug_workflow.py` every failed check does come
with a remediation: each of the eight `check_step` call sites passes a
nonempty tip (first conjunct: every `step` event of every run carries a
nonempty tip), and `check_step` prints `TIP: <tip>` alongside the
failure message whenever its condition is false and the tip is nonempty
(second conjunct).  `test_system.py` prints remediations for some
failures but not all (see the counterexample). -/
theorem c7_amended_tips :
    (∀ env : DWEnv, ((tipsOf (dwMain env).2).all fun t => t != "") = true) ∧
    (∀ name smsg fmsg tip : String, tip ≠ "" →
      Event.print ("TIP: " ++ tip) ∈
        (dwCheckStep name false smsg fmsg tip).2) := by
  constructor
  · intro env
    refine filterMap_all_of_evsOk ?_ (evsOk_dwMain env)
    intro e he b hb
    cases e <;> cases hb
    rename_i nm ps
    have hm : (nm, b) ∈ dwStepTips := List.mem_of_elem_eq_true he
    fin_cases hm <;> decide
  · intro name smsg fmsg tip hne
    have hne' : (tip != "") = true := by simpa using hne
    unfold dwCheckStep
    simp [pr, emit, tr_bind_def, trBind, pure_tr, hne']

/-- C7, witness: the amended theorem applied at the daemon-status call
site with its concrete tip. -/
theorem c7_witness :
    Event.print "TIP: Try: systemctl start openrazer-daemon" ∈
      (dwCheckStep "Daemon Status" false "OpenRazer daemon is running"
        "OpenRazer daemon is not running"
        "Try: systemctl start openrazer-daemon").2 :=
  c7_amended_tips.2 "Daemon Status" "OpenRazer daemon is running"
    "OpenRazer daemon is not running" "Try: systemctl start openrazer-daemon"
    (by decide)

/-- On every run of `test_system.py` that reaches the summary, `main`'s
result is determined by the six test outcomes (a test 2 or test 3 abort
propagates to `main`'s result instead). -/
theorem tsMain_fst_error2 (env : TSEnv) {b1 : Bool} {e : String}
    (h1 : (tsTest1 env).1 = Except.ok b1)
    (h2 : (tsTest2 env).1 = Except.error e) :
    (tsMain env).1 = Except.error e := by
  unfold tsMain
  simp only [bind_pr_fst, bind_fst_ok h1, bind_fst_error h2]

theorem tsMain_fst_error3 (env : TSEnv) {b1 b2 : Bool} {e : String}
    (h1 : (tsTest1 env).1 = Except.ok b1)
    (h2 : (tsTest2 env).1 = Except.ok b2)
    (h3 : (tsTest3 env).1 = Except.error e) :
    (tsMain env).1 = Except.error e := by
  unfold tsMain
  simp only [bind_pr_fst, bind_fst_ok h1, bind_fst_ok h2, bind_fst_error h3]

/-- C8, confirmed.  Whenever `test_system.py`'s `main` reaches the
summary and returns `(tests_passed, total_tests, rv)`: `total_tests`
is 6, `0 ≤ tests_passed ≤ 6`, and `rv` is 0 exactly when at least
`total_tests - 1 = 5` of the six tests passed, 1 otherwise. -/
theorem c8_test_summary_threshold (env : TSEnv) (p t r : Nat)
    (h : (tsMain env).1 = Except.ok (p, t, r)) :
    t = 6 ∧ p ≤ 6 ∧ ((r = 0) ↔ 5 ≤ p) ∧ (r = 0 ∨ r = 1) := by
  obtain ⟨b1, h1⟩ := bool_fst_ok (alwaysOk_tsTest1 env)
  rcases h2 : (tsTest2 env).1 with e2 | b2
  · rw [tsMain_fst_error2 env h1 h2] at h
    exact Except.noConfusion h
  rcases h3 : (tsTest3 env).1 with e3 | b3
  · rw [tsMain_fst_error3 env h1 h2 h3] at h
    exact Except.noConfusion h
  obtain ⟨b4, h4⟩ := bool_fst_ok (alwaysOk_tsTest4 env)
  obtain ⟨b5, h5⟩ := bool_fst_ok (alwaysOk_tsTest5 env)
  obtain ⟨b6, h6⟩ := bool_fst_ok (alwaysOk_tsTest6 env)
  obtain ⟨r2, hf, hiff, hor⟩ :=
    tsMain_fst_of_tests env b1 b2 b3 b4 b5 b6 h1 h2 h3 h4 h5 h6
  rw [hf] at h
  have hinj := Except.ok.inj h
  simp only [Prod.mk.injEq] at hinj
  obtain ⟨hp, ht, hr⟩ := hinj
  subst hp
  subst ht
  subst hr
  have t1 : b1.toNat ≤ 1 := by cases b1 <;> decide
  have t2 : b2.toNat ≤ 1 := by cases b2 <;> decide
  have t3 : b3.toNat ≤ 1 := by cases b3 <;> decide
  have t4 : b4.toNat ≤ 1 := by cases b4 <;> decide
  have t5 : b5.toNat ≤ 1 := by cases b5 <;> decide
  have t6 : b6.toNat ≤ 1 := by cases b6 <;> decide
  exact ⟨rfl, by omega, hiff, hor⟩

/-- Witness for C8: the demo run returns `(4, 6, 1)` - four of six
tests passed, below the threshold of five, so the return value is 1 -
and that triple satisfies the summary properties. -/
theorem c8_witness :
    (tsMain tsDemoEnv).1 = Except.ok (4, 6, 1) ∧
      (6 = 6 ∧ 4 ≤ 6 ∧ ((1 = 0) ↔ 5 ≤ 4) ∧ (1 = 0 ∨ 1 = 1)) :=
  ⟨rfl, c8_test_summary_threshold tsDemoEnv 4 6 1 rfl⟩

/-- C9, confirmed.  `debug_workflow.py`'s `main` returns
`len(issues_found)`, which equals the number of failed debugging steps
of the run (and is 0 exactly when no issue was detected); the process
exit code is that number on a normal run, and the `__main__` handler
exits with code 1 on `KeyboardInterrupt` or any other escaping
exception. -/
theorem c9_exit_code (env : DWEnv) :
    (∀ n, (dwMain env).1 = Except.ok n →
      dwProcessExit env = n ∧ n = failedSteps (dwMain env).2 ∧
      (n = 0 ↔ failedSteps (dwMain env).2 = 0)) ∧
    (∀ m : PyInterrupt, dwTopLevel (Except.error m) = 1) ∧
    (∀ k : Nat, dwTopLevel (Except.ok k) = k) := by
  refine ⟨?_, ?_, fun k => rfl⟩
  · intro n hn
    have hpe : dwProcessExit env = n := by
      rw [dwProcessExit, hn]
      rfl
    have hcount : n = failedSteps (dwMain env).2 := by
      have hspec := dwMain_spec env
      by_cases hpw : dwCondPython env = true
      · rcases how : env.openWrite with m | u
        · obtain ⟨hf, _⟩ := hspec.1 hpw m how
          rw [hf] at hn
          cases hn
        · cases u
          obtain ⟨hf, hs⟩ := hspec.2 (Or.inr how)
          rw [hf] at hn
          injection hn with hn'
          subst hn'
          rw [failedSteps, hs, dwIssuesOf, dwIssues_length]
          unfold dwStepsFull dwStepsPrefix
          simp [List.countP_append]
      · have hpw' : dwCondPython env = false := by
          cases h : dwCondPython env
          · rfl
          · exact absurd h hpw
        obtain ⟨hf, hs⟩ := hspec.2 (Or.inl hpw')
        rw [hf] at hn
        injection hn with hn'
        subst hn'
        rw [failedSteps, hs, dwIssuesOf, dwIssues_length]
        unfold dwStepsFull dwStepsPrefix
        simp [List.countP_append]
    exact ⟨hpe, hcount, by rw [hcount]⟩
  · intro m
    cases m <;> rfl

/-- C9, witness: a concrete run with three failing steps (modules,
daemon, detection) exits with code 3 = number of failed steps. -/
theorem c9_witness :
    dwProcessExit dwDemoEnv = 3 ∧ failedSteps (dwMain dwDemoEnv).2 = 3 := by
  have h := (c9_exit_code dwDemoEnv).1 3 (by rfl)
  exact ⟨h.1, h.2.1.symm⟩

/-- C10, confirmed.  In both brightness tests, when none of the four
brightness operations raises, the writes issued to the device are
exactly `[128, b0]` with `b0` the originally read brightness - so
replaying the writes over any stored value ends at `b0`, the setting the
test started from; and `test_system.py` prints
"  - Brightness control: ✓" exactly when the read-back value is 128. -/
theorem c10_brightness_restore (d : TSDevice) (m : MatrixDev)
    (b0 c b0' c' : Nat)
    (h0 : d.readBrightness 0 = .ok b0)
    (hw0 : d.writeBrightness 0 128 = .ok ())
    (h1 : d.readBrightness 1 = .ok c)
    (hw1 : d.writeBrightness 1 b0 = .ok ())
    (g0 : m.readBrightness 0 = .ok b0')
    (gw0 : m.writeBrightness 0 128 = .ok ())
    (g1 : m.readBrightness 1 = .ok c')
    (gw1 : m.writeBrightness 1 b0' = .ok ()) :
    writesOf (tsLightingTest d).2 = [128, b0] ∧
    (∀ x, finalBrightness x (writesOf (tsLightingTest d).2) = b0) ∧
    (("  - Brightness control: ✓" ∈ printsOf (tsLightingTest d).2) ↔
      c = 128) ∧
    writesOf (capBrightnessTest m).2 = [128, b0'] ∧
    (∀ x, finalBrightness x (writesOf (capBrightnessTest m).2) = b0') := by
  obtain ⟨hts, hiff⟩ := tsLightingTest_brightness d b0 c h0 hw0 h1 hw1
  have hcap := capBrightnessTest_brightness m b0' c' g0 gw0 g1 gw1
  refine ⟨hts, ?_, hiff, hcap, ?_⟩
  · intro x
    rw [hts]
    exact finalBrightness_restore x b0
  · intro x
    rw [hcap]
    exact finalBrightness_restore x b0'

/-- C10, witness: the theorem applied to the demo device whose original
brightness is 70 and whose read-back after the write is 128. -/
theorem c10_witness :
    writesOf (tsLightingTest tsDemoDevice).2 = [128, 70] ∧
    finalBrightness 70 (writesOf (tsLightingTest tsDemoDevice).2) = 70 ∧
    writesOf (capBrightnessTest capDemoMatrix).2 = [128, 70] := by
  have h := c10_brightness_restore tsDemoDevice capDemoMatrix 70 128 70 128
    rfl rfl rfl rfl rfl rfl rfl rfl
  exact ⟨h.1, h.2.1 70, h.2.2.2.1⟩

end Razer
